import Mathlib

/-!
Outline effect (render-utils/src/OutlineEffect.cpp)

A shallow embedding of the CPU side of the outline post-process: the rect
arithmetic of `DrawOutlineMask`, the parameter derivation of `DrawOutline`
and the GPU command sequences the jobs record.

Conventions of the embedding:

* an `int` is an `Int` between INT_MIN and INT_MAX; the additions and
  subtractions of `expandRect` are taken in 32 bits (`wrapInt`), where C++
  leaves signed overflow undefined.
* a finite `float` is the rational it denotes. Every `float` operation of the
  source (conversion from `int`, `+`, `*`, `/`) is the exact operation followed
  by `round32`, rounding to binary32 (nearest, ties to even, 24 significant
  bits, subnormals), one rounding per operation. `floorf` and `ceilf` are exact.
  The `(int)` cast truncates, and yields INT_MIN when the truncated value does
  not fit an `int` (`floatToInt`). A `float` that is stored without being cast
  is a `Float32`, which also has the infinities and NaN. The inputs (projected
  corners, configuration values) are finite.
* a `gpu::Batch` is the list of commands recorded into it, in order; a job
  that never calls `gpu::doInBatch` records `[]`.
* shared pointers that may be null are `Option`s; an `assert` on a null
  pointer makes the job return `none`.
* `ViewFrustum::getProjectedRect`, whose source is outside this file, is a
  field of the frustum: `none` when it returns false, the two corners when
  it returns true.
-/

namespace OutlineEffect

/-! ## Vectors -/

/-- The type `glm::ivec2`. -/
structure IVec2 where
  x : Int
  y : Int
deriving DecidableEq, Repr

/-- The type `glm::ivec4`; as a rect it is (x, y, width, height). -/
structure IVec4 where
  x : Int
  y : Int
  z : Int
  w : Int
deriving DecidableEq, Repr

/-- The type `glm::vec2`. -/
structure Vec2 where
  x : ℚ
  y : ℚ
deriving DecidableEq, Repr

/-- The type `glm::vec4`. -/
structure Vec4 where
  x : ℚ
  y : ℚ
  z : ℚ
  w : ℚ
deriving DecidableEq, Repr

/-- The function `glm::clamp(x, minVal, maxVal)`, which is `min(max(x, minVal), maxVal)`. -/
def clamp (x minVal maxVal : Int) : Int :=
  min (max x minVal) maxVal

/-! ## Machine arithmetic -/

/-- The constant `INT_MIN` of the 32-bit `int`. -/
def INT_MIN : Int := -2147483648

/-- The constant `INT_MAX` of the 32-bit `int`. -/
def INT_MAX : Int := 2147483647

/-- The value a 32-bit two-complement `int` holds after an addition or subtraction
whose exact result is `n`: `n` itself when it fits, wrapped around otherwise (what
the hardware does where C++ leaves signed overflow undefined). -/
def wrapInt (n : Int) : Int :=
  (n + 2147483648) % 4294967296 - 2147483648

/-- The constant `std::numeric_limits<float>::max()`, that is (2 - 2^-23) * 2^127. -/
def FLT_MAX : ℚ := 340282346638528859811704183484516925440

/-- Rounding of a rational to the nearest integer, ties to the even one. -/
def roundHalfEven (x : ℚ) : Int :=
  if x - ⌊x⌋ < 1 / 2 then ⌊x⌋
  else if 1 / 2 < x - ⌊x⌋ then ⌊x⌋ + 1
  else if ⌊x⌋ % 2 = 0 then ⌊x⌋ else ⌊x⌋ + 1

/-- The exponent of the unit in the last place of binary32 at magnitude `x`: 23
below the exponent of `x`, and -149 throughout the subnormal range. -/
def ulpExponent (x : ℚ) : Int :=
  max (Int.log 2 x) (-126) - 23

/-- Rounding of a non-negative rational to binary32: the nearest multiple of the
unit in the last place, ties to even. -/
def roundMagnitude (x : ℚ) : ℚ :=
  (roundHalfEven (x / (2 : ℚ) ^ ulpExponent x) : ℚ) * (2 : ℚ) ^ ulpExponent x

/-- Rounding of an exact result to binary32, round to nearest, ties to even (the
default IEEE 754 mode), with 24 significant bits and subnormals. A result beyond
FLT_MAX, which the hardware turns into an infinity, stays a rational above
FLT_MAX here: in this file such a value only reaches `floorf`/`ceilf` and the
`(int)` cast, which treat both alike, or `Float32.ofRounded`. -/
def round32 (x : ℚ) : ℚ :=
  if x < 0 then -roundMagnitude (-x) else roundMagnitude x

/-- The rational `x` is a finite binary32 value: an integer of at most 24 bits times
a power of two not below 2^-149, within FLT_MAX. -/
def isBinary32 (x : ℚ) : Prop :=
  ∃ m k : Int, x = (m : ℚ) * (2 : ℚ) ^ k ∧ -16777216 ≤ m ∧ m ≤ 16777216 ∧ -149 ≤ k ∧
    -FLT_MAX ≤ x ∧ x ≤ FLT_MAX

/-- The conversion of an `int` to `float`. -/
def intToFloat (n : Int) : ℚ := round32 (n : ℚ)

/-- The `float` addition `a + b`. -/
def fadd (a b : ℚ) : ℚ := round32 (a + b)

/-- The `float` multiplication `a * b`. -/
def fmul (a b : ℚ) : ℚ := round32 (a * b)

/-- The `float` division `a / b` by a non-zero `b`. -/
def fdiv (a b : ℚ) : ℚ := round32 (a / b)

/-- The function `floorf`. -/
def floorf (x : ℚ) : ℚ := (⌊x⌋ : ℚ)

/-- The function `ceilf`. -/
def ceilf (x : ℚ) : ℚ := (⌈x⌉ : ℚ)

/-- The cast `(int)x` of a `float`: truncation toward zero when the result fits in
an `int`; otherwise, where C++ leaves the cast undefined, INT_MIN, the value the
x86 conversion instruction produces (also for an infinity). -/
def floatToInt (x : ℚ) : Int :=
  let truncated := if 0 ≤ x then ⌊x⌋ else ⌈x⌉
  if INT_MIN ≤ truncated ∧ truncated ≤ INT_MAX then truncated else INT_MIN

/-- A `float` that is stored without being cast: a finite value, an infinity or a
NaN. The sign of a zero is not carried. -/
inductive Float32
  | finite (value : ℚ)
  | posInf
  | negInf
  | nan
deriving DecidableEq, Repr

/-- The stored `float` for a result rounded by `round32`: an infinity when it lies
beyond FLT_MAX. -/
def Float32.ofRounded (rounded : ℚ) : Float32 :=
  if FLT_MAX < rounded then .posInf
  else if rounded < -FLT_MAX then .negInf
  else .finite rounded

/-- The `float` multiplication `a * b` of two finite values, stored. -/
def Float32.mul (a b : ℚ) : Float32 :=
  .ofRounded (round32 (a * b))

/-- The `float` division `a / b` by a finite `b` whose zero is +0 (in this file `b`
is a converted `int`), stored. -/
def Float32.div (a : Float32) (b : ℚ) : Float32 :=
  match a with
  | .finite x =>
    if b = 0 then
      if 0 < x then .posInf else if x < 0 then .negInf else .nan
    else .ofRounded (round32 (x / b))
  | .posInf => if 0 ≤ b then .posInf else .negInf
  | .negInf => if 0 ≤ b then .negInf else .posInf
  | .nan => .nan

/-- The type `glm::vec2` for components that are stored without being cast. -/
structure FVec2 where
  x : Float32
  y : Float32
deriving DecidableEq, Repr

/-! ## DrawOutlineMask: rect arithmetic -/

/-- The method `DrawOutlineMask::expandRect` (OutlineEffect.cpp, lines 218-232), every
`int` addition and subtraction in 32 bits. -/
def expandRect (rect : IVec4) (amount : Int) (frameSize : IVec2) : IVec4 :=
  -- Go back to min max values
  let rect := { rect with z := wrapInt (rect.z + rect.x) }
  let rect := { rect with w := wrapInt (rect.w + rect.y) }
  let rect := { rect with x := max 0 (wrapInt (rect.x - amount)) }
  let rect := { rect with y := max 0 (wrapInt (rect.y - amount)) }
  let rect := { rect with z := min frameSize.x (wrapInt (rect.z + amount)) }
  let rect := { rect with w := min frameSize.y (wrapInt (rect.w + amount)) }
  -- Back to width height
  let rect := { rect with z := wrapInt (rect.z - rect.x) }
  let rect := { rect with w := wrapInt (rect.w - rect.y) }
  rect

/-- Rect `inner` lies within rect `outer` (both as x, y, width, height). -/
def IVec4.containsRect (outer inner : IVec4) : Prop :=
  outer.x ≤ inner.x ∧ outer.y ≤ inner.y ∧
  inner.x + inner.z ≤ outer.x + outer.z ∧ inner.y + inner.w ≤ outer.y + outer.w

/-- Rect `r` lies within the frame `[0, frameSize.x] × [0, frameSize.y]`. -/
def IVec4.insideFrame (r : IVec4) (frameSize : IVec2) : Prop :=
  0 ≤ r.x ∧ 0 ≤ r.y ∧ 0 ≤ r.z ∧ 0 ≤ r.w ∧
  r.x + r.z ≤ frameSize.x ∧ r.y + r.w ≤ frameSize.y


/-! ## DrawOutlineMask: projected bound of the outlined items -/

/-- Modelled from the spec: the shape classification key (`render::ShapeKey`, whose
declaration is not among the sources), which tells rigid from skinned shapes: its
SKINNED flag and its remaining flags. -/
structure ShapeKey where
  skinned : Bool
  otherFlags : Nat
deriving DecidableEq, Repr

/-- The method `ShapeKey::isSkinned`. -/
def ShapeKey.isSkinned (key : ShapeKey) : Bool := key.skinned

/-- The class `ViewFrustum`, whose source is not among the sources, taken as a
parameter: `getProjectedRect(aabb, bottomLeft, topRight)` is `none` when the call
returns false and the two corners it writes, in normalized device coordinates,
when it returns true. -/
structure ViewFrustum (Box : Type) where
  getProjectedRect : Box → Option (Vec2 × Vec2)

/-- Modelled from the spec: an outlined item bound (`render::ItemBound`, whose
declaration is not among the sources): an item id with its bounding volume. -/
structure ItemBound (Box : Type) where
  id : Nat
  bound : Box
deriving DecidableEq, Repr

/-- The type `render::ItemBounds`. -/
abbrev ItemBounds (Box : Type) := List (ItemBound Box)

/-- The type `render::ShapeBounds`, a map from shape key to item bounds, as the
list of its entries. -/
abbrev ShapeBounds (Box : Type) := List (ShapeKey × ItemBounds Box)

/-- The body of the inner loop of `computeOutlineRect` (lines 187-196) for one item. -/
def accumulateBound {Box : Type} (viewFrustum : ViewFrustum Box) (minMaxBounds : Vec4)
    (item : ItemBound Box) : Vec4 :=
  match viewFrustum.getProjectedRect item.bound with
  | some (bottomLeft, topRight) =>
    { x := min minMaxBounds.x bottomLeft.x
      y := min minMaxBounds.y bottomLeft.y
      z := max minMaxBounds.z topRight.x
      w := max minMaxBounds.w topRight.y }
  | none => minMaxBounds

/-- The two nested loops of `computeOutlineRect` (lines 183-198), from a given
accumulator. -/
def accumulateShapes {Box : Type} (viewFrustum : ViewFrustum Box) (minMaxBounds : Vec4)
    (shapes : ShapeBounds Box) : Vec4 :=
  shapes.foldl (fun acc keyShapes => keyShapes.2.foldl (accumulateBound viewFrustum) acc)
    minMaxBounds

/-- The method `DrawOutlineMask::computeOutlineRect` (lines 174-216), every `float`
operation rounded to binary32. The two `int` subtractions at the end cannot
overflow: both operands lie between 0 and the frame size. -/
def computeOutlineRect {Box : Type} (shapes : ShapeBounds Box) (viewFrustum : ViewFrustum Box)
    (frameSize : IVec2) : IVec4 :=
  let minMaxBounds : Vec4 := ⟨FLT_MAX, FLT_MAX, -FLT_MAX, -FLT_MAX⟩
  let minMaxBounds := accumulateShapes viewFrustum minMaxBounds shapes
  if minMaxBounds.x ≠ FLT_MAX then
    let halfFrameSize : Vec2 :=
      ⟨fmul (intToFloat frameSize.x) (1 / 2), fmul (intToFloat frameSize.y) (1 / 2)⟩
    let minMaxBounds : Vec4 :=
      ⟨fadd minMaxBounds.x 1, fadd minMaxBounds.y 1, fadd minMaxBounds.z 1,
        fadd minMaxBounds.w 1⟩
    let rect : IVec4 :=
      { x := clamp (floatToInt (floorf (fmul minMaxBounds.x halfFrameSize.x))) 0 frameSize.x
        y := clamp (floatToInt (floorf (fmul minMaxBounds.y halfFrameSize.y))) 0 frameSize.y
        z := clamp (floatToInt (ceilf (fmul minMaxBounds.z halfFrameSize.x))) 0 frameSize.x
        w := clamp (floatToInt (ceilf (fmul minMaxBounds.w halfFrameSize.y))) 0 frameSize.y }
    let rect := { rect with z := rect.z - rect.x }
    let rect := { rect with w := rect.w - rect.y }
    rect
  else
    ⟨0, 0, 0, 0⟩

/-- The items of a shape map whose bound projects into the frustum: every item
for which `getProjectedRect` returns false is removed. -/
def projectingOnly {Box : Type} (viewFrustum : ViewFrustum Box) (shapes : ShapeBounds Box) :
    ShapeBounds Box :=
  shapes.map fun keyShapes =>
    (keyShapes.1, keyShapes.2.filter fun item => (viewFrustum.getProjectedRect item.bound).isSome)

/-- No item of the shape map projects into the frustum. -/
def noneProjects {Box : Type} (viewFrustum : ViewFrustum Box) (shapes : ShapeBounds Box) : Prop :=
  ∀ keyShapes ∈ shapes, ∀ item ∈ keyShapes.2, viewFrustum.getProjectedRect item.bound = none

/-! ## GPU objects and recorded commands -/

/-- Modelled from the spec: a `gpu::Texture` used as a render buffer (the GPU
abstraction is not among the sources): an object identity and its dimensions. -/
structure Texture where
  id : Nat
  dimensions : IVec2
deriving DecidableEq, Repr

/-- The names under which this file creates or receives framebuffers. -/
inductive FramebufferName
  | primary
  | outlineDepth
  | primaryWithoutDepth
deriving DecidableEq, Repr

/-- Modelled from the spec: a `gpu::Framebuffer` (the GPU abstraction is not among
the sources): an object identity, its name, its color attachment at slot 0 and its
depth attachment. -/
structure Framebuffer where
  id : Nat
  name : FramebufferName
  renderBuffer0 : Option Texture
  depthStencilBuffer : Option Texture
deriving DecidableEq, Repr

/-- The pipelines the jobs bind. -/
inductive PipelineId
  | shape (key : ShapeKey)
  | outline
  | outlineFilled
  | debugDepth
deriving DecidableEq, Repr

/-- Modelled from the spec: the per-group parameter block `OutlineParameters`
(declared outside the sources), with the fields `configure` fills. -/
structure OutlineParameters where
  _color : ℚ × ℚ × ℚ
  _intensity : Float32
  _size : FVec2
  _unoccludedFillOpacity : ℚ
  _occludedFillOpacity : ℚ
  _threshold : ℚ
  _blurKernelSize : Int
deriving DecidableEq, Repr

/-- The binding slots `DrawOutline::run` uses. -/
inductive Slot
  | OUTLINE_PARAMS_SLOT
  | FRAME_TRANSFORM_SLOT
  | SCENE_DEPTH_SLOT
  | OUTLINED_DEPTH_SLOT
  | slot0
deriving DecidableEq, Repr

/-- The calls recorded into a `gpu::Batch` by the jobs of this file, in the order
they are made. Viewport and matrices, which come from the render arguments, are
not carried. -/
inductive Command (Box : Type)
  | enableStereo (enable : Bool)
  | setStateScissorRect (rect : IVec4)
  | setFramebuffer (framebuffer : Framebuffer)
  | clearDepthFramebuffer (depth : ℚ) (enableScissor : Bool)
  | setViewportTransform
  | setProjectionTransform
  | setViewTransform
  | resetViewTransform
  | setModelTransform
  | setPipeline (pipeline : Option PipelineId)
  | setUniformBufferParameters (slot : Slot) (parameters : OutlineParameters)
  | setUniformBufferFrameTransform (slot : Slot)
  | setResourceTexture (slot : Slot) (texture : Option Texture)
  | renderItems (items : ItemBounds Box)
  | draw (numVertices : Nat)
  | renderQuad (bottomLeft topRight : Vec2)
deriving DecidableEq, Repr

/-- A recorded command that draws geometry. -/
def Command.isDrawCall {Box : Type} : Command Box → Bool
  | .renderItems _ => true
  | .draw _ => true
  | .renderQuad _ _ => true
  | _ => false

/-- The scissor rects a command sequence sets, in order. -/
def scissorRects {Box : Type} : List (Command Box) → List IVec4
  | [] => []
  | .setStateScissorRect rect :: rest => rect :: scissorRects rest
  | _ :: rest => scissorRects rest

/-! ## OutlineRessources -/

/-- Modelled from the spec: the fields of the class `OutlineRessources` (declared in
OutlineEffect.h, not among the sources): the stored frame size and the two
framebuffer pointers, null until allocated. -/
structure OutlineRessources where
  _frameSize : IVec2
  _depthFrameBuffer : Option Framebuffer
  _colorFrameBuffer : Option Framebuffer
deriving DecidableEq, Repr

/-- Modelled from the spec: the accessor `OutlineRessources::getSourceFrameSize`,
declared in OutlineEffect.h which is not among the sources; it reports the frame
size stored by `update`. -/
def OutlineRessources.getSourceFrameSize (self : OutlineRessources) : IVec2 :=
  self._frameSize

/-- The method `OutlineRessources::getDepthFramebuffer` (lines 68-71): `none` is the
failed assertion. -/
def OutlineRessources.getDepthFramebuffer (self : OutlineRessources) : Option Framebuffer :=
  self._depthFrameBuffer

/-- The method `OutlineRessources::getDepthTexture` (lines 73-75): the outer `none` is
the failed assertion, the inner option the depth attachment pointer. -/
def OutlineRessources.getDepthTexture (self : OutlineRessources) : Option (Option Texture) :=
  self.getDepthFramebuffer.map fun framebuffer => framebuffer.depthStencilBuffer

/-- The method `OutlineRessources::getColorFramebuffer` (lines 77-80): `none` is the
failed assertion. -/
def OutlineRessources.getColorFramebuffer (self : OutlineRessources) : Option Framebuffer :=
  self._colorFrameBuffer

/-! ## OutlineSharedParameters -/

/-- Modelled from the spec: the class `OutlineSharedParameters` (declared in
OutlineEffect.h, not among the sources): a fixed-size array with one integer blur
pixel width per supported outline group. -/
structure OutlineSharedParameters where
  _blurPixelWidths : List Int
deriving DecidableEq, Repr

/-- The constructor `OutlineSharedParameters::OutlineSharedParameters` (lines 82-84),
for an array of `count` slots. -/
def OutlineSharedParameters.new (count : Nat) : OutlineSharedParameters :=
  ⟨List.replicate count 0⟩

/-- Reading `_blurPixelWidths[index]`; an index outside the array, which C++ leaves
undefined, reads 0. -/
def OutlineSharedParameters.get (self : OutlineSharedParameters) (index : Nat) : Int :=
  self._blurPixelWidths.getD index 0

/-- Writing `_blurPixelWidths[index] = value`; an index outside the array, which C++
leaves undefined, writes nothing. -/
def OutlineSharedParameters.set (self : OutlineSharedParameters) (index : Nat) (value : Int) :
    OutlineSharedParameters :=
  ⟨self._blurPixelWidths.set index value⟩

/-! ## DrawOutlineMask -/

/-- Modelled from the spec: the fields of the job `DrawOutlineMask` (declared in
OutlineEffect.h, not among the sources): its outline index; the shared parameters
it points to are passed to `run`. -/
structure DrawOutlineMask where
  _outlineIndex : Nat
deriving DecidableEq, Repr

/-- The commands of the batch of `DrawOutlineMask::run` (lines 125-167), given the
depth framebuffer and the scissor rect. -/
def DrawOutlineMask.batch {Box : Type} (inShapes : ShapeBounds Box) (depthFramebuffer : Framebuffer)
    (outlinedRect : IVec4) : List (Command Box) :=
  let defaultKey : ShapeKey := ⟨false, 0⟩
  let maskPipeline := PipelineId.shape defaultKey
  let maskSkinnedPipeline := PipelineId.shape { defaultKey with skinned := true }
  let skinnedShapeKeys := (inShapes.filter fun items => items.1.isSkinned).map fun items => items.1
  [ .setStateScissorRect outlinedRect,
    .setFramebuffer depthFramebuffer,
    .clearDepthFramebuffer 1 true,
    .setViewportTransform,
    .setProjectionTransform,
    .setViewTransform,
    .setPipeline (some maskPipeline) ]
  ++ ((inShapes.filter fun items => !items.1.isSkinned).map fun items => .renderItems items.2)
  ++ [ .setPipeline (some maskSkinnedPipeline) ]
  ++ (skinnedShapeKeys.map fun key => .renderItems ((inShapes.lookup key).getD []))

/-- The method `DrawOutlineMask::run` (lines 104-172). The first component is the
value stored into `outputs`; the second is the recorded batch, `none` when the
assertion of `getDepthFramebuffer` fails inside the batch. The render arguments,
the view frustum and the resources pointer, which the method asserts or
dereferences without a test, are taken to be present. The margin
`blurPixelWidth+1` is the plain sum: it differs from the 32-bit sum only for a
slot holding INT_MAX, and the widths `DrawOutline` writes are casts of binary32
values, none of which is INT_MAX. -/
def DrawOutlineMask.run {Box : Type} (self : DrawOutlineMask)
    (sharedParameters : OutlineSharedParameters) (inShapes : ShapeBounds Box)
    (ressources : OutlineRessources) (viewFrustum : ViewFrustum Box) :
    IVec4 × Option (List (Command Box)) :=
  if !inShapes.isEmpty then
    let framebufferSize := ressources.getSourceFrameSize
    -- First thing we do is determine the projected bounding rect of all the outlined items
    let outlinedRect := computeOutlineRect inShapes viewFrustum framebufferSize
    let blurPixelWidth := sharedParameters.get self._outlineIndex
    -- Add 1 pixel of extra margin to be on the safe side
    let outputs := expandRect outlinedRect (blurPixelWidth + 1) framebufferSize
    let outlinedRect := expandRect outputs (blurPixelWidth + 1) framebufferSize
    (outputs, ressources.getDepthFramebuffer.map fun depthFramebuffer =>
      DrawOutlineMask.batch inShapes depthFramebuffer outlinedRect)
  else
    -- Outline rect should be null as there are no outlined shapes
    (⟨0, 0, 0, 0⟩, some [])

/-! ## DrawOutline -/

/-- Modelled from the spec: the per-group outline configuration `DrawOutlineConfig`
(declared in OutlineEffect.h, not among the sources): color, intensity, glow flag,
unoccluded and occluded fill opacity, width. -/
structure DrawOutlineConfig where
  color : ℚ × ℚ × ℚ
  intensity : ℚ
  glow : Bool
  unoccludedFillOpacity : ℚ
  occludedFillOpacity : ℚ
  width : ℚ
deriving DecidableEq, Repr

/-- Modelled from the spec: the fields of the job `DrawOutline` (declared in
OutlineEffect.h, not among the sources) that its methods read and write; the
shared parameters it points to and the static pipelines are passed to its
methods. -/
structure DrawOutline where
  _outlineIndex : Nat
  _parameters : OutlineParameters
  _configuration : OutlineParameters
  _framebufferSize : IVec2
  _isFilled : Bool
  _size : ℚ
deriving DecidableEq, Repr

/-- The static members `DrawOutline::_pipeline` and `DrawOutline::_pipelineFilled`
(lines 234-235), null until `getPipeline` first runs. -/
structure DrawOutlineStatics where
  _pipeline : Option PipelineId
  _pipelineFilled : Option PipelineId
deriving DecidableEq, Repr

/-- The constant `OPACITY_EPSILON = 5e-3f` of `DrawOutline::configure` (line 243). The
binary32 value of `5e-3f` lies just below 5/1000 with no binary32 value between
the two, so a `float` is above the one exactly when it is above the other. -/
def OPACITY_EPSILON : ℚ := 5 / 1000

/-- The expression `std::min(7, std::max(2, (int)floorf(config.width * 3 + 0.5f)))`
of line 250, the product and the sum each rounded to binary32. -/
def blurKernelSize (width : ℚ) : Int :=
  min 7 (max 2 (floatToInt (floorf (fadd (fmul width 3) (1 / 2)))))

/-- The expression `(int)ceilf(_size * _framebufferSize.y)` of lines 255 and 280: the
height converted to `float`, the product rounded to binary32. -/
def blurPixelWidth (size : ℚ) (height : Int) : Int :=
  floatToInt (ceilf (fmul size (intToFloat height)))

/-- The method `DrawOutline::configure` (lines 242-258), every `float` operation
rounded to binary32; the configuration holds finite `float`s. -/
def DrawOutline.configure (self : DrawOutline) (sharedParameters : OutlineSharedParameters)
    (config : DrawOutlineConfig) : DrawOutline × OutlineSharedParameters :=
  let parameters := self._parameters
  let parameters := { parameters with _color := config.color }
  let parameters :=
    { parameters with
      _intensity := Float32.mul config.intensity (if config.glow then 2 else 1) }
  let parameters := { parameters with _unoccludedFillOpacity := config.unoccludedFillOpacity }
  let parameters := { parameters with _occludedFillOpacity := config.occludedFillOpacity }
  let parameters :=
    { parameters with _threshold := if config.glow then 1 else round32 (1 / 1000) }
  let parameters := { parameters with _blurKernelSize := blurKernelSize config.width }
  -- Size is in normalized screen height. We decide that for outline width = 1, this is equal to 1/400.
  let size := fdiv config.width 400
  let parameters :=
    { parameters with
      _size :=
        ⟨Float32.div (Float32.mul size (intToFloat self._framebufferSize.y))
            (intToFloat self._framebufferSize.x),
          Float32.finite size⟩ }
  let sharedParameters :=
    sharedParameters.set self._outlineIndex (blurPixelWidth size self._framebufferSize.y)
  let isFilled :=
    decide (config.unoccludedFillOpacity > OPACITY_EPSILON) ||
      decide (config.occludedFillOpacity > OPACITY_EPSILON)
  ({ self with
      _parameters := parameters
      _size := size
      _isFilled := isFilled
      _configuration := parameters }, sharedParameters)

/-- The method `DrawOutline::getPipeline` (lines 305-331): the statics after the call
and the pipeline pointer returned. -/
def DrawOutline.getPipeline (self : DrawOutline) (statics : DrawOutlineStatics) :
    DrawOutlineStatics × Option PipelineId :=
  let statics :=
    if statics._pipeline.isNone then
      { _pipeline := some PipelineId.outline, _pipelineFilled := some PipelineId.outlineFilled }
    else statics
  (statics, if self._isFilled then statics._pipelineFilled else statics._pipeline)

/-- Modelled from the spec: the scene framebuffer `DeferredFramebuffer` (declared
outside the sources), of which `DrawOutline::run` uses the primary depth texture. -/
structure DeferredFramebuffer where
  primaryDepthTexture : Option Texture
deriving DecidableEq, Repr

/-- What `DrawOutline::run` leaves behind: the job, the shared parameters, the
static pipelines and the recorded batch. -/
structure DrawOutlineResult (Box : Type) where
  job : DrawOutline
  sharedParameters : OutlineSharedParameters
  statics : DrawOutlineStatics
  commands : List (Command Box)

/-- The method `DrawOutline::run` (lines 260-303); `none` when an assertion of the
resource accessors fails or the depth texture pointer is null. -/
def DrawOutline.run {Box : Type} (self : DrawOutline) (sharedParameters : OutlineSharedParameters)
    (statics : DrawOutlineStatics) (outlineFrameBuffer : Option OutlineRessources)
    (sceneDepthBuffer : Option DeferredFramebuffer) (outlineRect : IVec4) :
    Option (DrawOutlineResult Box) :=
  match outlineFrameBuffer with
  | some ressources =>
    if outlineRect.z > 0 ∧ outlineRect.w > 0 then do
      let outlinedDepthTexturePointer ← ressources.getDepthTexture
      let destinationFrameBuffer ← ressources.getColorFramebuffer
      let outlinedDepthTexture ← outlinedDepthTexturePointer
      let framebufferSize := outlinedDepthTexture.dimensions
      match sceneDepthBuffer with
      | some sceneDepth =>
        let (statics, pipeline) := self.getPipeline statics
        let (self, sharedParameters) :=
          if self._framebufferSize ≠ framebufferSize then
            let parameters :=
              { self._parameters with
                _size :=
                  ⟨Float32.div (Float32.mul self._size (intToFloat framebufferSize.y))
                      (intToFloat framebufferSize.x),
                    Float32.finite self._size⟩ }
            let self :=
              { self with
                _parameters := parameters
                _framebufferSize := framebufferSize
                _configuration := parameters }
            (self,
              sharedParameters.set self._outlineIndex
                (blurPixelWidth self._size self._framebufferSize.y))
          else (self, sharedParameters)
        pure
          { job := self
            sharedParameters := sharedParameters
            statics := statics
            commands :=
              [ .enableStereo false,
                .setFramebuffer destinationFrameBuffer,
                .setViewportTransform,
                .setProjectionTransform,
                .resetViewTransform,
                .setModelTransform,
                .setPipeline pipeline,
                .setStateScissorRect outlineRect,
                .setUniformBufferParameters Slot.OUTLINE_PARAMS_SLOT self._configuration,
                .setUniformBufferFrameTransform Slot.FRAME_TRANSFORM_SLOT,
                .setResourceTexture Slot.SCENE_DEPTH_SLOT sceneDepth.primaryDepthTexture,
                .setResourceTexture Slot.OUTLINED_DEPTH_SLOT (some outlinedDepthTexture),
                .draw 4 ] }
      | none => pure ⟨self, sharedParameters, statics, []⟩
    else pure ⟨self, sharedParameters, statics, []⟩
  | none => pure ⟨self, sharedParameters, statics, []⟩

/-! ## DebugOutline -/

/-- Modelled from the spec: the fields of the job `DebugOutline` (declared in
OutlineEffect.h, not among the sources): the display flag set by `configure` and
its geometry id. -/
structure DebugOutline where
  _isDisplayEnabled : Bool
  _geometryDepthId : Int
deriving DecidableEq, Repr

/-- The method `DebugOutline::configure` (lines 344-346). -/
def DebugOutline.configure (self : DebugOutline) (viewMask : Bool) : DebugOutline :=
  { self with _isDisplayEnabled := viewMask }

/-- The method `DebugOutline::run` (lines 348-383): the recorded batch, `none` when
the assertion of `getDepthTexture` fails. -/
def DebugOutline.run {Box : Type} (self : DebugOutline)
    (outlineRessources : Option OutlineRessources) (outlineRect : IVec4) :
    Option (List (Command Box)) :=
  match outlineRessources with
  | some ressources =>
    if self._isDisplayEnabled then do
      let depthTexture ← ressources.getDepthTexture
      pure
        [ .enableStereo false,
          .setViewportTransform,
          .setStateScissorRect outlineRect,
          .setProjectionTransform,
          .setViewTransform,
          .setModelTransform,
          .setPipeline (some PipelineId.debugDepth),
          .setResourceTexture Slot.slot0 depthTexture,
          .renderQuad ⟨-1, -1⟩ ⟨1, 1⟩,
          .setResourceTexture Slot.slot0 none ]
    else pure []
  | none => pure []

/-! ## Concrete inputs used to instantiate the theorems -/

/-- A frustum in which box 0 projects to the corners (-3/4, -85/128) and
(-5/8, -1/2), all binary32 values, box 1 covers the visible frustum, and every
other box projects to nothing. -/
def sampleFrustum : ViewFrustum Nat :=
  ⟨fun box =>
    if box = 0 then some (⟨-3 / 4, -85 / 128⟩, ⟨-5 / 8, -1 / 2⟩)
    else if box = 1 then some (⟨-1, -1⟩, ⟨1, 1⟩)
    else none⟩

/-- Outline resources allocated for an 800 x 600 frame. -/
def sampleRessources : OutlineRessources :=
  { _frameSize := ⟨800, 600⟩
    _depthFrameBuffer := some ⟨1, .outlineDepth, none, some ⟨2, ⟨800, 600⟩⟩⟩
    _colorFrameBuffer := some ⟨3, .primaryWithoutDepth, some ⟨4, ⟨800, 600⟩⟩, none⟩ }

/-- A group with one item that projects (box 0) and one that does not (box 2). -/
def sampleShapes : ShapeBounds Nat :=
  [(⟨false, 0⟩, [⟨10, 0⟩, ⟨11, 2⟩])]

/-- A non-empty group none of whose items projects. -/
def culledShapes : ShapeBounds Nat :=
  [(⟨false, 0⟩, [⟨11, 2⟩])]

/-- The draw calls among the recorded commands, in order. -/
def drawCalls {Box : Type} (commands : List (Command Box)) : List (Command Box) :=
  commands.filter Command.isDrawCall

/-- The statics as `getPipeline` leaves them, or as they are before it first runs
with `_pipeline` still null. -/
def DrawOutlineStatics.wellFormed (statics : DrawOutlineStatics) : Prop :=
  statics._pipeline = none ∨
    (statics._pipeline = some PipelineId.outline ∧
      statics._pipelineFilled = some PipelineId.outlineFilled)

/-- A `DrawOutline` job of group 0 as constructed, before any `configure`, with an
800 x 600 stored frame size. -/
def sampleJob : DrawOutline :=
  { _outlineIndex := 0
    _parameters := ⟨(0, 0, 0), .finite 0, ⟨.finite 0, .finite 0⟩, 0, 0, 0, 0⟩
    _configuration := ⟨(0, 0, 0), .finite 0, ⟨.finite 0, .finite 0⟩, 0, 0, 0, 0⟩
    _framebufferSize := ⟨800, 600⟩
    _isFilled := false
    _size := 0 }

/-- A configuration of width 2 with no fill. -/
def sampleConfig : DrawOutlineConfig :=
  { color := (1, 1, 1), intensity := 1, glow := false
    unoccludedFillOpacity := 0, occludedFillOpacity := 0, width := 2 }

/-- Outline resources allocated for a 1024 x 768 frame. -/
def resizedRessources : OutlineRessources :=
  { _frameSize := ⟨1024, 768⟩
    _depthFrameBuffer := some ⟨5, .outlineDepth, none, some ⟨6, ⟨1024, 768⟩⟩⟩
    _colorFrameBuffer := some ⟨7, .primaryWithoutDepth, some ⟨8, ⟨1024, 768⟩⟩, none⟩ }

/-! ## OutlineRessources: allocation -/

/-- Modelled from the spec: the size `gpu::Framebuffer::getSize` reports (the GPU
abstraction is not among the sources): the dimensions of the color attachment at
slot 0, else of the depth attachment, else (0,0). -/
def Framebuffer.getSize (self : Framebuffer) : IVec2 :=
  match self.renderBuffer0, self.depthStencilBuffer with
  | some texture, _ => texture.dimensions
  | none, some texture => texture.dimensions
  | none, none => ⟨0, 0⟩

/-- The method `OutlineRessources::allocateColorBuffer` (lines 56-59). `nextId` is
the identity the next created GPU object gets; the second component is that
counter after the call. -/
def OutlineRessources.allocateColorBuffer (self : OutlineRessources) (nextId : Nat)
    (primaryFrameBuffer : Framebuffer) : OutlineRessources × Nat :=
  let colorFrameBuffer : Framebuffer := ⟨nextId, .primaryWithoutDepth, none, none⟩
  let colorFrameBuffer :=
    { colorFrameBuffer with renderBuffer0 := primaryFrameBuffer.renderBuffer0 }
  ({ self with _colorFrameBuffer := some colorFrameBuffer }, nextId + 1)

/-- The method `OutlineRessources::allocateDepthBuffer` (lines 61-66): a depth
texture of the stored frame size, attached to a new framebuffer. -/
def OutlineRessources.allocateDepthBuffer (self : OutlineRessources) (nextId : Nat)
    (_primaryFrameBuffer : Framebuffer) : OutlineRessources × Nat :=
  let depthTexture : Texture := ⟨nextId, ⟨self._frameSize.x, self._frameSize.y⟩⟩
  let depthFrameBuffer : Framebuffer := ⟨nextId + 1, .outlineDepth, none, none⟩
  let depthFrameBuffer := { depthFrameBuffer with depthStencilBuffer := some depthTexture }
  ({ self with _depthFrameBuffer := some depthFrameBuffer }, nextId + 2)

/-- The method `OutlineRessources::update` (lines 37-54). -/
def OutlineRessources.update (self : OutlineRessources) (nextId : Nat)
    (primaryFrameBuffer : Framebuffer) : OutlineRessources × Nat :=
  let newFrameSize := primaryFrameBuffer.getSize
  -- If the buffer size changed, we need to delete our FBOs and recreate them at the
  -- new correct dimensions.
  if self._frameSize ≠ newFrameSize then
    let self := { self with _frameSize := newFrameSize }
    let (self, nextId) := self.allocateDepthBuffer nextId primaryFrameBuffer
    self.allocateColorBuffer nextId primaryFrameBuffer
  else
    let (self, nextId) :=
      if self._depthFrameBuffer.isNone then self.allocateDepthBuffer nextId primaryFrameBuffer
      else (self, nextId)
    if self._colorFrameBuffer.isNone then self.allocateColorBuffer nextId primaryFrameBuffer
    else (self, nextId)

/-- A primary framebuffer of the given size, with a color attachment at slot 0. -/
def primaryOfSize (id : Nat) (size : IVec2) : Framebuffer :=
  ⟨id, .primary, some ⟨id + 1, size⟩, none⟩

/-- Outline resources as constructed, before any `update`. -/
def freshRessources : OutlineRessources :=
  { _frameSize := ⟨0, 0⟩, _depthFrameBuffer := none, _colorFrameBuffer := none }

/-- Two successive calls of `OutlineRessources::update`, as `PrepareDrawOutline::run`
(lines 90-95) makes them on two successive frames. -/
def OutlineRessources.updateTwice (self : OutlineRessources) (nextId : Nat)
    (firstFrameBuffer secondFrameBuffer : Framebuffer) : OutlineRessources × Nat :=
  let first := self.update nextId firstFrameBuffer
  first.1.update first.2 secondFrameBuffer

/-! ## DrawOutlineMask: what the accumulated bounds are -/

/-- Some item of the shape map projects into the frustum with the corners
`bottomLeft` and `topRight`. -/
def projectsTo {Box : Type} (viewFrustum : ViewFrustum Box) (shapes : ShapeBounds Box)
    (bottomLeft topRight : Vec2) : Prop :=
  ∃ keyShapes ∈ shapes, ∃ item ∈ keyShapes.2,
    viewFrustum.getProjectedRect item.bound = some (bottomLeft, topRight)

/-- The accumulator `result` is `start` lowered (x, y) and raised (z, w) over the
corner pairs satisfying `P`: it is bounded by `start` and by every such pair, and
each component is either that of `start` or attained by such a pair. -/
def Accumulates (P : Vec2 → Vec2 → Prop) (start result : Vec4) : Prop :=
  (result.x ≤ start.x ∧ result.y ≤ start.y ∧ start.z ≤ result.z ∧ start.w ≤ result.w) ∧
  (∀ bottomLeft topRight, P bottomLeft topRight →
    result.x ≤ bottomLeft.x ∧ result.y ≤ bottomLeft.y ∧
      topRight.x ≤ result.z ∧ topRight.y ≤ result.w) ∧
  (result.x = start.x ∨ ∃ bottomLeft topRight, P bottomLeft topRight ∧ result.x = bottomLeft.x) ∧
  (result.y = start.y ∨ ∃ bottomLeft topRight, P bottomLeft topRight ∧ result.y = bottomLeft.y) ∧
  (result.z = start.z ∨ ∃ bottomLeft topRight, P bottomLeft topRight ∧ result.z = topRight.x) ∧
  (result.w = start.w ∨ ∃ bottomLeft topRight, P bottomLeft topRight ∧ result.w = topRight.y)

/-- The `float` product `v * half` of lines 205-208 for the normalized coordinate
`coordinate`, where `v` is `coordinate + 1.0f` (line 204) and `half` is
`size * 0.5f` (line 201), each operation rounded to binary32. -/
def pixelValue (coordinate : ℚ) (size : Int) : ℚ :=
  fmul (fadd coordinate 1) (fmul (intToFloat size) (1 / 2))

/-- The expression `glm::clamp((int)floorf(v * half), 0, size)` of lines 205-206 for
the normalized coordinate `coordinate`. -/
def pixelFloor (coordinate : ℚ) (size : Int) : Int :=
  clamp (floatToInt (floorf (pixelValue coordinate size))) 0 size

/-- The expression `glm::clamp((int)ceilf(v * half), 0, size)` of lines 207-208 for
the normalized coordinate `coordinate`. -/
def pixelCeil (coordinate : ℚ) (size : Int) : Int :=
  clamp (floatToInt (ceilf (pixelValue coordinate size))) 0 size

/-- The pixel value of the normalized coordinate `coordinate` in a frame of `size`
pixels is computed without rounding and its `int` cast is defined: the size
converts to `float` unchanged, `coordinate + 1` and the product
`(coordinate + 1) * (size / 2)` are binary32 values, and the product is at most
INT_MAX. -/
def pixelExact (coordinate : ℚ) (size : Int) : Prop :=
  size ≤ 16777216 ∧ isBinary32 (coordinate + 1) ∧
    isBinary32 ((coordinate + 1) * ((size : ℚ) * (1 / 2))) ∧
    (coordinate + 1) * ((size : ℚ) * (1 / 2)) ≤ (INT_MAX : ℚ)

/-- A frustum in which box 0 projects to the corners (-2^-30, -2^-30) and
(2^-30, 2^-30), box 1 to the corners (-3/4, -1/2) and (6000000, 1/2), and every
other box to nothing. -/
def roundingFrustum : ViewFrustum Nat :=
  ⟨fun box =>
    if box = 0 then some (⟨-1 / 1073741824, -1 / 1073741824⟩, ⟨1 / 1073741824, 1 / 1073741824⟩)
    else if box = 1 then some (⟨-3 / 4, -1 / 2⟩, ⟨6000000, 1 / 2⟩)
    else none⟩

end OutlineEffect

namespace OutlineEffect

/-! ## Supporting lemmas -/

theorem wrapInt_of_fits (n : Int) (h1 : INT_MIN ≤ n) (h2 : n ≤ INT_MAX) : wrapInt n = n := by
  simp only [INT_MIN, INT_MAX] at h1 h2
  simp only [wrapInt]
  omega

theorem roundHalfEven_cases (x : ℚ) : roundHalfEven x = ⌊x⌋ ∨ roundHalfEven x = ⌊x⌋ + 1 := by
  unfold roundHalfEven
  split_ifs <;> simp

theorem roundHalfEven_intCast (n : Int) : roundHalfEven (n : ℚ) = n := by
  unfold roundHalfEven
  simp

theorem roundHalfEven_of_near (x : ℚ) (n : Int) (h : |x - n| < 1 / 2) : roundHalfEven x = n := by
  rw [abs_lt] at h
  obtain ⟨h1, h2⟩ := h
  unfold roundHalfEven
  by_cases hn : (n : ℚ) ≤ x
  · have hf : ⌊x⌋ = n := by
      rw [Int.floor_eq_iff]
      constructor
      · exact hn
      · linarith
    rw [hf, if_pos (by linarith)]
  · have hf : ⌊x⌋ = n - 1 := by
      rw [Int.floor_eq_iff]
      push_cast
      constructor
      · linarith
      · push_neg at hn
        linarith
    rw [hf]
    push_cast
    rw [if_neg (by linarith), if_pos (by linarith)]
    ring

theorem roundHalfEven_mono {x y : ℚ} (h : x ≤ y) : roundHalfEven x ≤ roundHalfEven y := by
  have hfl : ⌊x⌋ ≤ ⌊y⌋ := Int.floor_le_floor h
  rcases lt_or_eq_of_le hfl with hlt | heq
  · rcases roundHalfEven_cases x with hx | hx <;> rcases roundHalfEven_cases y with hy | hy <;>
      omega
  · unfold roundHalfEven
    rw [heq]
    have hxy : x - ⌊y⌋ ≤ y - ⌊y⌋ := by linarith
    split_ifs <;> first | omega | (exfalso; linarith)

theorem le_roundHalfEven {x : ℚ} {n : Int} (h : (n : ℚ) ≤ x) : n ≤ roundHalfEven x := by
  have := roundHalfEven_mono h
  rwa [roundHalfEven_intCast] at this

theorem roundHalfEven_le {x : ℚ} {n : Int} (h : x ≤ (n : ℚ)) : roundHalfEven x ≤ n := by
  have := roundHalfEven_mono h
  rwa [roundHalfEven_intCast] at this

theorem two_zpow_pos (k : Int) : (0 : ℚ) < (2 : ℚ) ^ k := zpow_pos (by norm_num) k

theorem two_zpow_add_24 (k : Int) : (2 : ℚ) ^ (k + 1) = 16777216 * (2 : ℚ) ^ (k - 23) := by
  have h : k + 1 = 24 + (k - 23) := by ring
  rw [h, zpow_add₀ (by norm_num : (2 : ℚ) ≠ 0)]
  norm_num

theorem two_zpow_add_23 (k : Int) : (2 : ℚ) ^ k = 8388608 * (2 : ℚ) ^ (k - 23) := by
  have h : k = 23 + (k - 23) := by ring
  nth_rewrite 1 [h]
  rw [zpow_add₀ (by norm_num : (2 : ℚ) ≠ 0)]
  norm_num

theorem lt_two_zpow_succ_log {x : ℚ} : x < (2 : ℚ) ^ (Int.log 2 x + 1) := by
  have := Int.lt_zpow_succ_log_self (b := 2) (by norm_num) x
  simpa using this

theorem two_zpow_log_le {x : ℚ} (hx : 0 < x) : (2 : ℚ) ^ Int.log 2 x ≤ x := by
  have := Int.zpow_log_le_self (b := 2) (by norm_num) hx
  simpa using this

theorem log_two_eq {x : ℚ} {e : Int} (h1 : (2 : ℚ) ^ e ≤ x) (h2 : x < (2 : ℚ) ^ (e + 1)) :
    Int.log 2 x = e := by
  have hx : 0 < x := lt_of_lt_of_le (two_zpow_pos e) h1
  have a : e ≤ Int.log 2 x := by
    rw [← Int.zpow_le_iff_le_log (b := 2) (by norm_num) hx]
    simpa using h1
  have b : Int.log 2 x < e + 1 := by
    rw [← Int.lt_zpow_iff_log_lt (b := 2) (by norm_num) hx]
    simpa using h2
  omega

theorem roundMagnitude_zero : roundMagnitude 0 = 0 := by
  simp [roundMagnitude, roundHalfEven]

theorem roundMagnitude_nonneg {x : ℚ} (hx : 0 ≤ x) : 0 ≤ roundMagnitude x := by
  unfold roundMagnitude
  have hu := two_zpow_pos (ulpExponent x)
  have h0 : (0 : Int) ≤ roundHalfEven (x / (2 : ℚ) ^ ulpExponent x) :=
    le_roundHalfEven (by simpa using div_nonneg hx hu.le)
  have : (0 : ℚ) ≤ (roundHalfEven (x / (2 : ℚ) ^ ulpExponent x) : ℚ) := by exact_mod_cast h0
  positivity

theorem roundMagnitude_le_zpow {x : ℚ} :
    roundMagnitude x ≤ (2 : ℚ) ^ (max (Int.log 2 x) (-126) + 1) := by
  unfold roundMagnitude ulpExponent
  have hu := two_zpow_pos (max (Int.log 2 x) (-126) - 23)
  rw [two_zpow_add_24]
  apply mul_le_mul_of_nonneg_right _ hu.le
  have hlt : x < (2 : ℚ) ^ (max (Int.log 2 x) (-126) + 1) :=
    lt_of_lt_of_le lt_two_zpow_succ_log
      (zpow_le_zpow_right₀ (by norm_num) (by omega))
  rw [two_zpow_add_24] at hlt
  have hdiv : x / (2 : ℚ) ^ (max (Int.log 2 x) (-126) - 23) ≤ ((16777216 : Int) : ℚ) := by
    rw [div_le_iff₀ hu]
    push_cast
    exact hlt.le
  have := roundHalfEven_le hdiv
  exact_mod_cast this

theorem zpow_le_roundMagnitude {x : ℚ} (hx : 0 < x) (hlog : -126 ≤ Int.log 2 x) :
    (2 : ℚ) ^ Int.log 2 x ≤ roundMagnitude x := by
  unfold roundMagnitude ulpExponent
  rw [max_eq_left hlog]
  have hu := two_zpow_pos (Int.log 2 x - 23)
  nth_rewrite 1 [two_zpow_add_23 (Int.log 2 x)]
  apply mul_le_mul_of_nonneg_right _ hu.le
  have hle := two_zpow_log_le hx
  rw [two_zpow_add_23] at hle
  have hdiv : ((8388608 : Int) : ℚ) ≤ x / (2 : ℚ) ^ (Int.log 2 x - 23) := by
    rw [le_div_iff₀ hu]
    push_cast
    exact hle
  have := le_roundHalfEven hdiv
  exact_mod_cast this

theorem roundMagnitude_mono {x y : ℚ} (hx : 0 ≤ x) (h : x ≤ y) :
    roundMagnitude x ≤ roundMagnitude y := by
  rcases eq_or_lt_of_le hx with h0 | hpos
  · rw [← h0, roundMagnitude_zero]
    exact roundMagnitude_nonneg (le_trans hx h)
  · have hy : 0 < y := lt_of_lt_of_le hpos h
    have hlog : Int.log 2 x ≤ Int.log 2 y := Int.log_mono_right hpos h
    by_cases heq : max (Int.log 2 x) (-126) = max (Int.log 2 y) (-126)
    · unfold roundMagnitude ulpExponent
      rw [heq]
      have hu := two_zpow_pos (max (Int.log 2 y) (-126) - 23)
      apply mul_le_mul_of_nonneg_right _ hu.le
      have := roundHalfEven_mono (div_le_div_of_nonneg_right h hu.le)
      exact_mod_cast this
    · have hlt : max (Int.log 2 x) (-126) + 1 ≤ Int.log 2 y := by omega
      have hy126 : -126 ≤ Int.log 2 y := by omega
      calc roundMagnitude x ≤ (2 : ℚ) ^ (max (Int.log 2 x) (-126) + 1) := roundMagnitude_le_zpow
        _ ≤ (2 : ℚ) ^ Int.log 2 y := zpow_le_zpow_right₀ (by norm_num) hlt
        _ ≤ roundMagnitude y := zpow_le_roundMagnitude hy hy126

theorem round32_zero : round32 0 = 0 := by
  simp [round32, roundMagnitude_zero]

theorem round32_nonneg {x : ℚ} (hx : 0 ≤ x) : 0 ≤ round32 x := by
  unfold round32
  rw [if_neg (not_lt.mpr hx)]
  exact roundMagnitude_nonneg hx

theorem round32_nonpos {x : ℚ} (hx : x ≤ 0) : round32 x ≤ 0 := by
  unfold round32
  split_ifs with h
  · have := roundMagnitude_nonneg (x := -x) (by linarith)
    linarith
  · have : x = 0 := le_antisymm hx (not_lt.mp h)
    rw [this, roundMagnitude_zero]

theorem round32_mono {x y : ℚ} (h : x ≤ y) : round32 x ≤ round32 y := by
  by_cases hx : x < 0
  · by_cases hy : y < 0
    · unfold round32
      rw [if_pos hx, if_pos hy]
      have := roundMagnitude_mono (x := -y) (y := -x) (by linarith) (by linarith)
      linarith
    · exact le_trans (round32_nonpos hx.le) (round32_nonneg (not_lt.mp hy))
  · have hx' : 0 ≤ x := not_lt.mp hx
    unfold round32
    rw [if_neg hx, if_neg (not_lt.mpr (le_trans hx' h))]
    exact roundMagnitude_mono hx' h

theorem roundHalfEven_of_tie (x : ℚ) (n : Int) (h : x = (n : ℚ) + 1 / 2) :
    roundHalfEven x = if n % 2 = 0 then n else n + 1 := by
  have hf : ⌊x⌋ = n := by
    rw [Int.floor_eq_iff]
    constructor <;> linarith
  unfold roundHalfEven
  rw [hf, if_neg (by linarith), if_neg (by linarith)]

theorem round32_eval (x : ℚ) (e n : Int) (h1 : (2 : ℚ) ^ e ≤ x) (h2 : x < (2 : ℚ) ^ (e + 1))
    (he : -126 ≤ e) (hn : roundHalfEven (x / (2 : ℚ) ^ (e - 23)) = n) :
    round32 x = (n : ℚ) * (2 : ℚ) ^ (e - 23) := by
  have hx : 0 < x := lt_of_lt_of_le (two_zpow_pos e) h1
  have hlog := log_two_eq h1 h2
  unfold round32 roundMagnitude ulpExponent
  rw [if_neg (not_lt.mpr hx.le), hlog, max_eq_left he, hn]

theorem roundMagnitude_dyadic (m k : Int) (hm0 : 0 ≤ m) (hm : m ≤ 16777216) (hk : -149 ≤ k) :
    roundMagnitude ((m : ℚ) * (2 : ℚ) ^ k) = (m : ℚ) * (2 : ℚ) ^ k := by
  rcases eq_or_lt_of_le hm0 with h0 | hpos
  · rw [← h0]
    simp [roundMagnitude_zero]
  · have hk2 := two_zpow_pos k
    have hmq : (0 : ℚ) < (m : ℚ) := by exact_mod_cast hpos
    have hx : (0 : ℚ) < (m : ℚ) * (2 : ℚ) ^ k := mul_pos hmq hk2
    have hint : ∃ n : Int,
        (m : ℚ) * (2 : ℚ) ^ k / (2 : ℚ) ^ ulpExponent ((m : ℚ) * (2 : ℚ) ^ k) = (n : ℚ) := by
      by_cases hE : ulpExponent ((m : ℚ) * (2 : ℚ) ^ k) ≤ k
      · obtain ⟨d, hd⟩ := Int.eq_ofNat_of_zero_le (sub_nonneg.mpr hE)
        refine ⟨m * 2 ^ d, ?_⟩
        have hpow : (2 : ℚ) ^ k
            = (2 : ℚ) ^ (d : Int) * (2 : ℚ) ^ ulpExponent ((m : ℚ) * (2 : ℚ) ^ k) := by
          rw [← zpow_add₀ (by norm_num : (2 : ℚ) ≠ 0), ← hd]
          congr 1
          ring
        rw [div_eq_iff (two_zpow_pos _).ne']
        nth_rewrite 1 [hpow]
        push_cast
        rw [zpow_natCast]
        ring
      · push_neg at hE
        unfold ulpExponent at hE ⊢
        have hlog : k + 24 ≤ Int.log 2 ((m : ℚ) * (2 : ℚ) ^ k) := by omega
        have hle : (m : ℚ) * (2 : ℚ) ^ k ≤ (2 : ℚ) ^ (k + 24) := by
          have h24 : (2 : ℚ) ^ (k + 24) = 16777216 * (2 : ℚ) ^ k := by
            rw [add_comm, zpow_add₀ (by norm_num : (2 : ℚ) ≠ 0)]
            norm_num
          rw [h24]
          apply mul_le_mul_of_nonneg_right _ hk2.le
          exact_mod_cast hm
        have hge : (2 : ℚ) ^ (k + 24) ≤ (m : ℚ) * (2 : ℚ) ^ k :=
          le_trans (zpow_le_zpow_right₀ (by norm_num) hlog) (two_zpow_log_le hx)
        have heq : (m : ℚ) * (2 : ℚ) ^ k = (2 : ℚ) ^ (k + 24) := le_antisymm hle hge
        have hlogeq : Int.log 2 ((m : ℚ) * (2 : ℚ) ^ k) = k + 24 := by
          rw [heq]
          have := Int.log_zpow (R := ℚ) (b := 2) (by norm_num) (k + 24)
          simpa using this
        refine ⟨8388608, ?_⟩
        rw [hlogeq, max_eq_left (by omega), div_eq_iff (two_zpow_pos _).ne', heq]
        have : k + 24 = 23 + (k + 24 - 23) := by ring
        nth_rewrite 1 [this]
        rw [zpow_add₀ (by norm_num : (2 : ℚ) ≠ 0)]
        norm_num
    obtain ⟨n, hn⟩ := hint
    unfold roundMagnitude
    rw [hn, roundHalfEven_intCast, ← hn]
    exact div_mul_cancel₀ _ (two_zpow_pos _).ne'

theorem round32_dyadic (x : ℚ) (m k : Int) (hx : x = (m : ℚ) * (2 : ℚ) ^ k)
    (hm1 : -16777216 ≤ m) (hm2 : m ≤ 16777216) (hk : -149 ≤ k) : round32 x = x := by
  subst hx
  have hk2 := two_zpow_pos k
  unfold round32
  by_cases hneg : (m : ℚ) * (2 : ℚ) ^ k < 0
  · rw [if_pos hneg]
    have hm : m < 0 := by
      by_contra hcon
      push_neg at hcon
      have : (0 : ℚ) ≤ (m : ℚ) := by exact_mod_cast hcon
      have := mul_nonneg this hk2.le
      linarith
    have h := roundMagnitude_dyadic (-m) k (by omega) (by omega) hk
    push_cast at h
    rw [neg_mul] at h
    rw [h]
    ring
  · rw [if_neg hneg]
    have hm : 0 ≤ m := by
      by_contra hcon
      push_neg at hcon
      have : (m : ℚ) < 0 := by exact_mod_cast hcon
      exact hneg (mul_neg_of_neg_of_pos this hk2)
    exact roundMagnitude_dyadic m k hm hm2 hk

theorem round32_intCast (n : Int) (h1 : -16777216 ≤ n) (h2 : n ≤ 16777216) :
    round32 (n : ℚ) = n :=
  round32_dyadic _ n 0 (by simp) h1 h2 (by omega)


theorem scissorRects_append {Box : Type} (xs ys : List (Command Box)) :
    scissorRects (xs ++ ys) = scissorRects xs ++ scissorRects ys := by
  induction xs with
  | nil => rfl
  | cons c cs ih => cases c <;> simp [scissorRects, ih]

theorem scissorRects_map_renderItems {Box α : Type} (f : α → ItemBounds Box) (xs : List α) :
    scissorRects (xs.map fun a => Command.renderItems (f a)) = [] := by
  induction xs with
  | nil => rfl
  | cons a as ih => simpa [scissorRects] using ih

theorem scissorRects_batch {Box : Type} (inShapes : ShapeBounds Box) (fb : Framebuffer)
    (rect : IVec4) : scissorRects (DrawOutlineMask.batch inShapes fb rect) = [rect] := by
  simp only [DrawOutlineMask.batch, scissorRects_append, List.map_map]
  simp [scissorRects, scissorRects_map_renderItems, Function.comp_def]

theorem foldl_accumulateBound_filter {Box : Type} (viewFrustum : ViewFrustum Box)
    (items : ItemBounds Box) (acc : Vec4) :
    (items.filter fun item => (viewFrustum.getProjectedRect item.bound).isSome).foldl
        (accumulateBound viewFrustum) acc
      = items.foldl (accumulateBound viewFrustum) acc := by
  induction items generalizing acc with
  | nil => rfl
  | cons item rest ih =>
    cases hp : viewFrustum.getProjectedRect item.bound with
    | none => simp [List.filter, hp, accumulateBound, ih]
    | some corners => simp [List.filter, hp, ih]

theorem accumulateShapes_projectingOnly {Box : Type} (viewFrustum : ViewFrustum Box)
    (shapes : ShapeBounds Box) (acc : Vec4) :
    accumulateShapes viewFrustum acc (projectingOnly viewFrustum shapes)
      = accumulateShapes viewFrustum acc shapes := by
  induction shapes generalizing acc with
  | nil => rfl
  | cons keyShapes rest ih =>
    simp only [accumulateShapes, projectingOnly, List.map_cons, List.foldl_cons,
      foldl_accumulateBound_filter] at ih ⊢
    exact ih _

theorem foldl_accumulateBound_none {Box : Type} (viewFrustum : ViewFrustum Box)
    (items : ItemBounds Box) (acc : Vec4)
    (h : ∀ item ∈ items, viewFrustum.getProjectedRect item.bound = none) :
    items.foldl (accumulateBound viewFrustum) acc = acc := by
  induction items generalizing acc with
  | nil => rfl
  | cons item rest ih =>
    have h0 := h item (List.mem_cons_self _ _)
    simp only [List.foldl_cons, accumulateBound, h0]
    exact ih acc fun it hit => h it (List.mem_cons_of_mem _ hit)

theorem accumulateShapes_noneProjects {Box : Type} (viewFrustum : ViewFrustum Box)
    (shapes : ShapeBounds Box) (acc : Vec4) (h : noneProjects viewFrustum shapes) :
    accumulateShapes viewFrustum acc shapes = acc := by
  induction shapes generalizing acc with
  | nil => rfl
  | cons keyShapes rest ih =>
    simp only [accumulateShapes, List.foldl_cons]
    rw [foldl_accumulateBound_none viewFrustum keyShapes.2 acc
      (h keyShapes (List.mem_cons_self _ _))]
    exact ih acc fun ks hks => h ks (List.mem_cons_of_mem _ hks)

theorem computeOutlineRect_noneProjects {Box : Type} (viewFrustum : ViewFrustum Box)
    (shapes : ShapeBounds Box) (frameSize : IVec2) (h : noneProjects viewFrustum shapes) :
    computeOutlineRect shapes viewFrustum frameSize = ⟨0, 0, 0, 0⟩ := by
  simp [computeOutlineRect, accumulateShapes_noneProjects viewFrustum shapes _ h]

theorem computeOutlineRect_projectingOnly {Box : Type} (viewFrustum : ViewFrustum Box)
    (shapes : ShapeBounds Box) (frameSize : IVec2) :
    computeOutlineRect (projectingOnly viewFrustum shapes) viewFrustum frameSize
      = computeOutlineRect shapes viewFrustum frameSize := by
  simp only [computeOutlineRect, accumulateShapes_projectingOnly]

theorem OutlineSharedParameters.get_set_self (shared : OutlineSharedParameters) (index : Nat)
    (value : Int) (h : index < shared._blurPixelWidths.length) :
    (shared.set index value).get index = value := by
  simp [OutlineSharedParameters.get, OutlineSharedParameters.set, List.getD_eq_getElem?_getD,
    List.getElem?_set, h]

theorem OutlineSharedParameters.get_set_other (shared : OutlineSharedParameters)
    (index other : Nat) (value : Int) (h : other ≠ index) :
    (shared.set index value).get other = shared.get other := by
  simp [OutlineSharedParameters.get, OutlineSharedParameters.set, List.getD_eq_getElem?_getD,
    List.getElem?_set, h.symm]

theorem OutlineSharedParameters.length_set (shared : OutlineSharedParameters) (index : Nat)
    (value : Int) :
    (shared.set index value)._blurPixelWidths.length = shared._blurPixelWidths.length := by
  simp [OutlineSharedParameters.set]

theorem DrawOutline.run_on_resize {Box : Type} (job : DrawOutline)
    (sharedParameters : OutlineSharedParameters) (statics : DrawOutlineStatics)
    (ressources : OutlineRessources) (depthFramebuffer colorFramebuffer : Framebuffer)
    (depthTexture : Texture) (sceneDepthBuffer : DeferredFramebuffer) (outlineRect : IVec4)
    (hdepth : ressources._depthFrameBuffer = some depthFramebuffer)
    (htexture : depthFramebuffer.depthStencilBuffer = some depthTexture)
    (hcolor : ressources._colorFrameBuffer = some colorFramebuffer)
    (hz : 0 < outlineRect.z) (hw : 0 < outlineRect.w)
    (hsize : job._framebufferSize ≠ depthTexture.dimensions) :
    ∃ result : DrawOutlineResult Box,
      job.run sharedParameters statics (some ressources) (some sceneDepthBuffer) outlineRect
        = some result ∧
      result.sharedParameters
        = sharedParameters.set job._outlineIndex
            (blurPixelWidth job._size depthTexture.dimensions.y) ∧
      result.job._framebufferSize = depthTexture.dimensions ∧
      result.job._size = job._size ∧
      result.job._outlineIndex = job._outlineIndex ∧
      drawCalls result.commands = [Command.draw 4] := by
  simp [DrawOutline.run, hz, hw, OutlineRessources.getDepthTexture,
    OutlineRessources.getDepthFramebuffer, OutlineRessources.getColorFramebuffer, hdepth,
    htexture, hcolor, hsize, drawCalls, List.filter, Command.isDrawCall]

theorem OutlineRessources.update_allocated (self : OutlineRessources) (nextId : Nat)
    (primaryFrameBuffer : Framebuffer) :
    (self.update nextId primaryFrameBuffer).1._frameSize = primaryFrameBuffer.getSize ∧
    (self.update nextId primaryFrameBuffer).1._depthFrameBuffer.isSome = true ∧
    (self.update nextId primaryFrameBuffer).1._colorFrameBuffer.isSome = true := by
  unfold OutlineRessources.update
  by_cases hsize : self._frameSize = primaryFrameBuffer.getSize
  · cases hd : self._depthFrameBuffer <;> cases hc : self._colorFrameBuffer <;>
      simp [hsize, hd, hc, OutlineRessources.allocateDepthBuffer,
        OutlineRessources.allocateColorBuffer]
  · simp [hsize, OutlineRessources.allocateDepthBuffer, OutlineRessources.allocateColorBuffer]

theorem OutlineRessources.update_unchanged (self : OutlineRessources) (nextId : Nat)
    (primaryFrameBuffer : Framebuffer) (hsize : self._frameSize = primaryFrameBuffer.getSize)
    (hdepth : self._depthFrameBuffer.isSome = true)
    (hcolor : self._colorFrameBuffer.isSome = true) :
    self.update nextId primaryFrameBuffer = (self, nextId) := by
  unfold OutlineRessources.update
  cases hd : self._depthFrameBuffer with
  | none => rw [hd] at hdepth; exact absurd hdepth (by simp)
  | some depth =>
    cases hc : self._colorFrameBuffer with
    | none => rw [hc] at hcolor; exact absurd hcolor (by simp)
    | some color => simp [hsize, hd, hc]

theorem OutlineRessources.update_resized (self : OutlineRessources) (nextId : Nat)
    (primaryFrameBuffer : Framebuffer) (hsize : self._frameSize ≠ primaryFrameBuffer.getSize) :
    self.update nextId primaryFrameBuffer
      = ({ _frameSize := primaryFrameBuffer.getSize
           _depthFrameBuffer :=
             some ⟨nextId + 1, .outlineDepth, none, some ⟨nextId, primaryFrameBuffer.getSize⟩⟩
           _colorFrameBuffer :=
             some ⟨nextId + 2, .primaryWithoutDepth, primaryFrameBuffer.renderBuffer0, none⟩ },
          nextId + 3) := by
  unfold OutlineRessources.update
  simp [hsize, OutlineRessources.allocateDepthBuffer, OutlineRessources.allocateColorBuffer]

theorem Accumulates.refl (P : Vec2 → Vec2 → Prop) (h : ∀ bottomLeft topRight, ¬ P bottomLeft topRight)
    (acc : Vec4) : Accumulates P acc acc :=
  ⟨⟨le_refl _, le_refl _, le_refl _, le_refl _⟩, fun bl tr hp => absurd hp (h bl tr),
    Or.inl rfl, Or.inl rfl, Or.inl rfl, Or.inl rfl⟩

theorem Accumulates.congr {P Q : Vec2 → Vec2 → Prop}
    (h : ∀ bottomLeft topRight, P bottomLeft topRight ↔ Q bottomLeft topRight) {start result : Vec4}
    (hacc : Accumulates P start result) : Accumulates Q start result := by
  have hPQ : P = Q := by
    funext bl tr
    exact propext (h bl tr)
  rw [← hPQ]
  exact hacc

theorem Accumulates.trans {P Q : Vec2 → Vec2 → Prop} {start middle result : Vec4}
    (h1 : Accumulates P start middle) (h2 : Accumulates Q middle result) :
    Accumulates (fun bottomLeft topRight => P bottomLeft topRight ∨ Q bottomLeft topRight)
      start result := by
  obtain ⟨⟨a1, a2, a3, a4⟩, b, c1, c2, c3, c4⟩ := h1
  obtain ⟨⟨d1, d2, d3, d4⟩, e, f1, f2, f3, f4⟩ := h2
  refine ⟨⟨le_trans d1 a1, le_trans d2 a2, le_trans a3 d3, le_trans a4 d4⟩, ?_, ?_, ?_, ?_, ?_⟩
  · intro bl tr hp
    rcases hp with hp | hq
    · obtain ⟨b1, b2, b3, b4⟩ := b bl tr hp
      exact ⟨le_trans d1 b1, le_trans d2 b2, le_trans b3 d3, le_trans b4 d4⟩
    · exact e bl tr hq
  · rcases f1 with f | ⟨bl, tr, hq, f⟩
    · rcases c1 with c | ⟨bl, tr, hp, c⟩
      · exact Or.inl (f.trans c)
      · exact Or.inr ⟨bl, tr, Or.inl hp, f.trans c⟩
    · exact Or.inr ⟨bl, tr, Or.inr hq, f⟩
  · rcases f2 with f | ⟨bl, tr, hq, f⟩
    · rcases c2 with c | ⟨bl, tr, hp, c⟩
      · exact Or.inl (f.trans c)
      · exact Or.inr ⟨bl, tr, Or.inl hp, f.trans c⟩
    · exact Or.inr ⟨bl, tr, Or.inr hq, f⟩
  · rcases f3 with f | ⟨bl, tr, hq, f⟩
    · rcases c3 with c | ⟨bl, tr, hp, c⟩
      · exact Or.inl (f.trans c)
      · exact Or.inr ⟨bl, tr, Or.inl hp, f.trans c⟩
    · exact Or.inr ⟨bl, tr, Or.inr hq, f⟩
  · rcases f4 with f | ⟨bl, tr, hq, f⟩
    · rcases c4 with c | ⟨bl, tr, hp, c⟩
      · exact Or.inl (f.trans c)
      · exact Or.inr ⟨bl, tr, Or.inl hp, f.trans c⟩
    · exact Or.inr ⟨bl, tr, Or.inr hq, f⟩

theorem accumulateBound_accumulates {Box : Type} (viewFrustum : ViewFrustum Box) (acc : Vec4)
    (item : ItemBound Box) :
    Accumulates
      (fun bottomLeft topRight =>
        viewFrustum.getProjectedRect item.bound = some (bottomLeft, topRight))
      acc (accumulateBound viewFrustum acc item) := by
  cases hp : viewFrustum.getProjectedRect item.bound with
  | none =>
    simp only [accumulateBound, hp]
    exact Accumulates.refl _ (fun bl tr h => by simp at h) acc
  | some corners =>
    obtain ⟨bl0, tr0⟩ := corners
    simp only [accumulateBound, hp]
    refine ⟨⟨min_le_left _ _, min_le_left _ _, le_max_left _ _, le_max_left _ _⟩, ?_, ?_, ?_,
      ?_, ?_⟩
    · intro bl tr h
      simp only [Option.some.injEq, Prod.mk.injEq] at h
      obtain ⟨hbl, htr⟩ := h
      subst hbl
      subst htr
      exact ⟨min_le_right _ _, min_le_right _ _, le_max_right _ _, le_max_right _ _⟩
    · rcases min_choice acc.x bl0.x with h | h
      · exact Or.inl h
      · exact Or.inr ⟨bl0, tr0, rfl, h⟩
    · rcases min_choice acc.y bl0.y with h | h
      · exact Or.inl h
      · exact Or.inr ⟨bl0, tr0, rfl, h⟩
    · rcases max_choice acc.z tr0.x with h | h
      · exact Or.inl h
      · exact Or.inr ⟨bl0, tr0, rfl, h⟩
    · rcases max_choice acc.w tr0.y with h | h
      · exact Or.inl h
      · exact Or.inr ⟨bl0, tr0, rfl, h⟩

theorem foldl_accumulateBound_accumulates {Box : Type} (viewFrustum : ViewFrustum Box)
    (items : ItemBounds Box) (acc : Vec4) :
    Accumulates
      (fun bottomLeft topRight =>
        ∃ item ∈ items, viewFrustum.getProjectedRect item.bound = some (bottomLeft, topRight))
      acc (items.foldl (accumulateBound viewFrustum) acc) := by
  induction items generalizing acc with
  | nil => exact Accumulates.refl _ (fun bl tr h => by simp at h) acc
  | cons item rest ih =>
    have h := Accumulates.trans (accumulateBound_accumulates viewFrustum acc item)
      (ih (accumulateBound viewFrustum acc item))
    refine Accumulates.congr ?_ h
    intro bl tr
    simp only [List.mem_cons, exists_eq_or_imp]

theorem accumulateShapes_accumulates {Box : Type} (viewFrustum : ViewFrustum Box)
    (shapes : ShapeBounds Box) (acc : Vec4) :
    Accumulates (projectsTo viewFrustum shapes) acc (accumulateShapes viewFrustum acc shapes) := by
  induction shapes generalizing acc with
  | nil => exact Accumulates.refl _ (fun bl tr h => by simp [projectsTo] at h) acc
  | cons keyShapes rest ih =>
    have h := Accumulates.trans (foldl_accumulateBound_accumulates viewFrustum keyShapes.2 acc)
      (ih (keyShapes.2.foldl (accumulateBound viewFrustum) acc))
    refine Accumulates.congr ?_ h
    intro bl tr
    simp only [projectsTo, List.mem_cons, exists_eq_or_imp]

theorem clamp_mono {a b : Int} (h : a ≤ b) (size : Int) : clamp a 0 size ≤ clamp b 0 size := by
  simp only [clamp]
  omega

theorem clamp_bounds (a size : Int) (hsize : 0 ≤ size) :
    0 ≤ clamp a 0 size ∧ clamp a 0 size ≤ size := by
  simp only [clamp]
  omega

theorem floatToInt_intCast (n : Int) :
    floatToInt (n : ℚ) = if INT_MIN ≤ n ∧ n ≤ INT_MAX then n else INT_MIN := by
  unfold floatToInt
  simp

theorem floatToInt_of_fits (n : Int) (h1 : INT_MIN ≤ n) (h2 : n ≤ INT_MAX) :
    floatToInt (n : ℚ) = n := by
  rw [floatToInt_intCast, if_pos ⟨h1, h2⟩]

theorem floatToInt_mono {a b : Int} (h : a ≤ b) (hb : b ≤ INT_MAX) :
    floatToInt (a : ℚ) ≤ floatToInt (b : ℚ) := by
  rw [floatToInt_intCast, floatToInt_intCast]
  simp only [INT_MIN, INT_MAX] at hb ⊢
  split_ifs <;> omega

theorem pixelValue_mono {u v : ℚ} (h : u ≤ v) (size : Int) (hsize : 0 ≤ size) :
    pixelValue u size ≤ pixelValue v size := by
  unfold pixelValue fmul fadd intToFloat
  have hhalf : (0 : ℚ) ≤ round32 (round32 (size : ℚ) * (1 / 2)) := by
    have h0 : (0 : ℚ) ≤ round32 (size : ℚ) := round32_nonneg (by exact_mod_cast hsize)
    exact round32_nonneg (by positivity)
  exact round32_mono (mul_le_mul_of_nonneg_right (round32_mono (by linarith)) hhalf)

theorem pixelValue_nonpos {u : ℚ} (h : u + 1 ≤ 0) (size : Int) (hsize : 0 ≤ size) :
    pixelValue u size ≤ 0 := by
  unfold pixelValue fmul fadd intToFloat
  have hhalf : (0 : ℚ) ≤ round32 (round32 (size : ℚ) * (1 / 2)) := by
    have h0 : (0 : ℚ) ≤ round32 (size : ℚ) := round32_nonneg (by exact_mod_cast hsize)
    exact round32_nonneg (by positivity)
  exact round32_nonpos (mul_nonpos_of_nonpos_of_nonneg (round32_nonpos h) hhalf)

theorem pixelFloor_mono {u v : ℚ} (h : u ≤ v) (size : Int) (hsize : 0 ≤ size)
    (hfits : pixelValue v size ≤ (INT_MAX : ℚ)) :
    pixelFloor u size ≤ pixelFloor v size := by
  unfold pixelFloor floorf
  apply clamp_mono
  apply floatToInt_mono (Int.floor_le_floor (pixelValue_mono h size hsize))
  exact Int.floor_le_iff.mpr (lt_of_le_of_lt hfits (by linarith))

theorem pixelCeil_mono {u v : ℚ} (h : u ≤ v) (size : Int) (hsize : 0 ≤ size)
    (hfits : pixelValue v size ≤ (INT_MAX : ℚ)) :
    pixelCeil u size ≤ pixelCeil v size := by
  unfold pixelCeil ceilf
  apply clamp_mono
  apply floatToInt_mono (Int.ceil_le_ceil (pixelValue_mono h size hsize))
  exact Int.ceil_le.mpr hfits

theorem pixelFloor_le_pixelCeil {u v : ℚ} (h : u ≤ v) (size : Int) (hsize : 0 ≤ size)
    (hfits : pixelValue v size ≤ (INT_MAX : ℚ)) :
    pixelFloor u size ≤ pixelCeil v size := by
  unfold pixelFloor pixelCeil floorf ceilf
  apply clamp_mono
  apply floatToInt_mono
  · exact le_trans (Int.floor_le_floor (pixelValue_mono h size hsize)) (Int.floor_le_ceil _)
  · exact Int.ceil_le.mpr hfits

theorem pixelFloor_bounds (u : ℚ) (size : Int) (hsize : 0 ≤ size) :
    0 ≤ pixelFloor u size ∧ pixelFloor u size ≤ size :=
  clamp_bounds _ size hsize

theorem pixelCeil_bounds (u : ℚ) (size : Int) (hsize : 0 ≤ size) :
    0 ≤ pixelCeil u size ∧ pixelCeil u size ≤ size :=
  clamp_bounds _ size hsize

theorem pixelValue_eval (coordinate : ℚ) (size : Int) (shifted half product : ℚ)
    (h1 : round32 (coordinate + 1) = shifted)
    (h2 : round32 (round32 (size : ℚ) * (1 / 2)) = half)
    (h3 : round32 (shifted * half) = product) : pixelValue coordinate size = product := by
  unfold pixelValue fmul fadd intToFloat
  rw [h1, h2, h3]

theorem pixelFloor_eval (coordinate : ℚ) (size : Int) (product : ℚ) (n : Int)
    (h : pixelValue coordinate size = product) (hn : ⌊product⌋ = n)
    (h1 : INT_MIN ≤ n) (h2 : n ≤ INT_MAX) : pixelFloor coordinate size = clamp n 0 size := by
  unfold pixelFloor floorf
  rw [h, hn, floatToInt_of_fits n h1 h2]

theorem pixelCeil_eval (coordinate : ℚ) (size : Int) (product : ℚ) (n : Int)
    (h : pixelValue coordinate size = product) (hn : ⌈product⌉ = n)
    (h1 : INT_MIN ≤ n) (h2 : n ≤ INT_MAX) : pixelCeil coordinate size = clamp n 0 size := by
  unfold pixelCeil ceilf
  rw [h, hn, floatToInt_of_fits n h1 h2]

theorem computeOutlineRect_eq {Box : Type} (shapes : ShapeBounds Box)
    (viewFrustum : ViewFrustum Box) (frameSize : IVec2) :
    computeOutlineRect shapes viewFrustum frameSize
      = if (accumulateShapes viewFrustum ⟨FLT_MAX, FLT_MAX, -FLT_MAX, -FLT_MAX⟩ shapes).x
            ≠ FLT_MAX then
          ⟨pixelFloor
              (accumulateShapes viewFrustum ⟨FLT_MAX, FLT_MAX, -FLT_MAX, -FLT_MAX⟩ shapes).x
              frameSize.x,
            pixelFloor
              (accumulateShapes viewFrustum ⟨FLT_MAX, FLT_MAX, -FLT_MAX, -FLT_MAX⟩ shapes).y
              frameSize.y,
            pixelCeil
                (accumulateShapes viewFrustum ⟨FLT_MAX, FLT_MAX, -FLT_MAX, -FLT_MAX⟩ shapes).z
                frameSize.x
              - pixelFloor
                (accumulateShapes viewFrustum ⟨FLT_MAX, FLT_MAX, -FLT_MAX, -FLT_MAX⟩ shapes).x
                frameSize.x,
            pixelCeil
                (accumulateShapes viewFrustum ⟨FLT_MAX, FLT_MAX, -FLT_MAX, -FLT_MAX⟩ shapes).w
                frameSize.y
              - pixelFloor
                (accumulateShapes viewFrustum ⟨FLT_MAX, FLT_MAX, -FLT_MAX, -FLT_MAX⟩ shapes).y
                frameSize.y⟩
        else ⟨0, 0, 0, 0⟩ := rfl

theorem round32_value (x v : ℚ) (m k : Int) (hv : x = v) (hd : v = (m : ℚ) * (2 : ℚ) ^ k)
    (hm1 : -16777216 ≤ m) (hm2 : m ≤ 16777216) (hk : -149 ≤ k) : round32 x = v := by
  rw [hv]
  exact round32_dyadic v m k hd hm1 hm2 hk

theorem half_of_800 : round32 (round32 ((800 : Int) : ℚ) * (1 / 2)) = 400 := by
  rw [round32_intCast 800 (by decide) (by decide)]
  exact round32_value _ 400 400 0 (by norm_num) (by norm_num) (by norm_num) (by norm_num)
    (by norm_num)

theorem half_of_600 : round32 (round32 ((600 : Int) : ℚ) * (1 / 2)) = 300 := by
  rw [round32_intCast 600 (by decide) (by decide)]
  exact round32_value _ 300 300 0 (by norm_num) (by norm_num) (by norm_num) (by norm_num)
    (by norm_num)

theorem computeOutlineRect_sample_item :
    computeOutlineRect [(⟨false, 0⟩, [(⟨10, 0⟩ : ItemBound Nat)])] sampleFrustum ⟨800, 600⟩
      = ⟨100, 100, 50, 50⟩ := by
  have hacc : accumulateShapes sampleFrustum ⟨FLT_MAX, FLT_MAX, -FLT_MAX, -FLT_MAX⟩
      [(⟨false, 0⟩, [(⟨10, 0⟩ : ItemBound Nat)])] = ⟨-3 / 4, -85 / 128, -5 / 8, -1 / 2⟩ := by
    simp [accumulateShapes, accumulateBound, sampleFrustum, FLT_MAX]
    norm_num
  have hx : pixelFloor (-3 / 4) 800 = 100 :=
    pixelFloor_eval _ _ 100 100
      (pixelValue_eval _ _ (1 / 4) 400 100
        (round32_value _ _ 1 (-2) (by norm_num) (by norm_num) (by norm_num) (by norm_num)
          (by norm_num))
        half_of_800
        (round32_value _ _ 100 0 (by norm_num) (by norm_num) (by norm_num) (by norm_num)
          (by norm_num)))
      (by norm_num) (by decide) (by decide)
  have hy : pixelFloor (-85 / 128) 600 = 100 :=
    pixelFloor_eval _ _ (3225 / 32) 100
      (pixelValue_eval _ _ (43 / 128) 300 (3225 / 32)
        (round32_value _ _ 43 (-7) (by norm_num) (by norm_num) (by norm_num) (by norm_num)
          (by norm_num))
        half_of_600
        (round32_value _ _ 3225 (-5) (by norm_num) (by norm_num) (by norm_num) (by norm_num)
          (by norm_num)))
      (by rw [Int.floor_eq_iff]; norm_num) (by decide) (by decide)
  have hz : pixelCeil (-5 / 8) 800 = 150 :=
    pixelCeil_eval _ _ 150 150
      (pixelValue_eval _ _ (3 / 8) 400 150
        (round32_value _ _ 3 (-3) (by norm_num) (by norm_num) (by norm_num) (by norm_num)
          (by norm_num))
        half_of_800
        (round32_value _ _ 150 0 (by norm_num) (by norm_num) (by norm_num) (by norm_num)
          (by norm_num)))
      (by norm_num) (by decide) (by decide)
  have hw : pixelCeil (-1 / 2) 600 = 150 :=
    pixelCeil_eval _ _ 150 150
      (pixelValue_eval _ _ (1 / 2) 300 150
        (round32_value _ _ 1 (-1) (by norm_num) (by norm_num) (by norm_num) (by norm_num)
          (by norm_num))
        half_of_600
        (round32_value _ _ 150 0 (by norm_num) (by norm_num) (by norm_num) (by norm_num)
          (by norm_num)))
      (by norm_num) (by decide) (by decide)
  rw [computeOutlineRect_eq, hacc]
  simp only
  rw [if_pos (by norm_num [FLT_MAX]), hx, hy, hz, hw]
  decide

theorem computeOutlineRect_sample_shapes :
    computeOutlineRect sampleShapes sampleFrustum ⟨800, 600⟩ = ⟨100, 100, 50, 50⟩ := by
  have h := computeOutlineRect_projectingOnly sampleFrustum sampleShapes ⟨800, 600⟩
  have hfilter : projectingOnly sampleFrustum sampleShapes
      = [(⟨false, 0⟩, [(⟨10, 0⟩ : ItemBound Nat)])] := by
    simp [projectingOnly, sampleShapes, sampleFrustum, List.filter]
  rw [← h, hfilter]
  exact computeOutlineRect_sample_item

theorem pixelFloor_neg_one (size : Int) (hsize : 0 ≤ size) : pixelFloor (-1) size = 0 := by
  have hv : pixelValue (-1) size = 0 := by
    unfold pixelValue fmul fadd
    rw [show ((-1 : ℚ) + 1) = 0 by norm_num, round32_zero, zero_mul, round32_zero]
  unfold pixelFloor floorf
  rw [hv, Int.floor_zero, floatToInt_of_fits 0 (by decide) (by decide)]
  simp only [clamp]
  omega

theorem pixelCeil_one (size : Int) (hsize : 0 ≤ size) (hmax : size ≤ 16777216) :
    pixelCeil 1 size = size := by
  have hhalf : round32 (round32 (size : ℚ) * (1 / 2)) = (size : ℚ) * (1 / 2) := by
    rw [round32_intCast size (by omega) hmax]
    exact round32_dyadic _ size (-1) (by norm_num) (by omega) hmax (by omega)
  have hv : pixelValue 1 size = (size : ℚ) :=
    pixelValue_eval 1 size 2 ((size : ℚ) * (1 / 2)) (size : ℚ)
      (round32_value _ _ 2 0 (by norm_num) (by norm_num) (by norm_num) (by norm_num)
        (by norm_num))
      hhalf
      (by
        rw [show (2 : ℚ) * ((size : ℚ) * (1 / 2)) = (size : ℚ) by ring]
        exact round32_intCast size (by omega) hmax)
  unfold pixelCeil ceilf
  rw [hv, Int.ceil_intCast,
    floatToInt_of_fits size (by simp only [INT_MIN]; omega) (by simp only [INT_MAX]; omega)]
  simp only [clamp]
  omega

theorem round32_of_isBinary32 {x : ℚ} (h : isBinary32 x) : round32 x = x := by
  obtain ⟨m, k, hx, h1, h2, h3, -, -⟩ := h
  exact round32_dyadic x m k hx h1 h2 h3

theorem isBinary32_of_dyadic (x : ℚ) (m k : Int) (hx : x = (m : ℚ) * (2 : ℚ) ^ k)
    (hm1 : -16777216 ≤ m) (hm2 : m ≤ 16777216) (hk : -149 ≤ k)
    (h1 : -FLT_MAX ≤ x) (h2 : x ≤ FLT_MAX) : isBinary32 x :=
  ⟨m, k, hx, hm1, hm2, hk, h1, h2⟩

theorem clamp_floatToInt (n size : Int) (h : n ≤ INT_MAX) :
    clamp (floatToInt (n : ℚ)) 0 size = clamp n 0 size := by
  rw [floatToInt_intCast]
  simp only [INT_MIN, INT_MAX, clamp] at h ⊢
  split_ifs <;> omega

theorem pixelValue_exact (coordinate : ℚ) (size : Int) (hsize : 0 ≤ size)
    (h : pixelExact coordinate size) :
    pixelValue coordinate size = (coordinate + 1) * ((size : ℚ) * (1 / 2)) := by
  obtain ⟨hmax, h1, h2, -⟩ := h
  have hhalf : round32 (round32 (size : ℚ) * (1 / 2)) = (size : ℚ) * (1 / 2) := by
    rw [round32_intCast size (by omega) hmax]
    exact round32_dyadic _ size (-1) (by norm_num) (by omega) hmax (by omega)
  exact pixelValue_eval coordinate size _ _ _ (round32_of_isBinary32 h1) hhalf
    (round32_of_isBinary32 h2)

theorem pixelFloor_exact (coordinate : ℚ) (size : Int) (hsize : 0 ≤ size)
    (h : pixelExact coordinate size) :
    pixelFloor coordinate size = clamp ⌊(coordinate + 1) * ((size : ℚ) * (1 / 2))⌋ 0 size := by
  unfold pixelFloor floorf
  rw [pixelValue_exact coordinate size hsize h]
  exact clamp_floatToInt _ _ (Int.floor_le_iff.mpr (lt_of_le_of_lt h.2.2.2 (by linarith)))

theorem pixelCeil_exact (coordinate : ℚ) (size : Int) (hsize : 0 ≤ size)
    (h : pixelExact coordinate size) :
    pixelCeil coordinate size = clamp ⌈(coordinate + 1) * ((size : ℚ) * (1 / 2))⌉ 0 size := by
  unfold pixelCeil ceilf
  rw [pixelValue_exact coordinate size hsize h]
  exact clamp_floatToInt _ _ (Int.ceil_le.mpr h.2.2.2)

theorem blurKernelSize_exact (width : ℚ) (h1 : isBinary32 (width * 3))
    (h2 : isBinary32 (width * 3 + 1 / 2)) (h3 : ⌊width * 3 + 1 / 2⌋ ≤ INT_MAX) :
    blurKernelSize width = min 7 (max 2 ⌊width * 3 + 1 / 2⌋) := by
  have e : fadd (fmul width 3) (1 / 2) = width * 3 + 1 / 2 := by
    unfold fadd fmul
    rw [round32_of_isBinary32 h1, round32_of_isBinary32 h2]
  unfold blurKernelSize floorf
  rw [e, floatToInt_intCast]
  simp only [INT_MIN, INT_MAX] at h3 ⊢
  split_ifs <;> omega

theorem blurPixelWidth_exact (size : ℚ) (height : Int) (h1 : -16777216 ≤ height)
    (h2 : height ≤ 16777216) (h3 : isBinary32 (size * (height : ℚ)))
    (h4 : INT_MIN ≤ ⌈size * (height : ℚ)⌉) (h5 : ⌈size * (height : ℚ)⌉ ≤ INT_MAX) :
    blurPixelWidth size height = ⌈size * (height : ℚ)⌉ := by
  unfold blurPixelWidth ceilf fmul intToFloat
  rw [round32_intCast height h1 h2, round32_of_isBinary32 h3]
  exact floatToInt_of_fits _ h4 h5

/-! ## The claims -/

/-- Counterexample to C1: in an 800 x 600 frame the rect (100,100,50,50) with the
margin 2147483521 meets every condition of the claim and all values are `int`s,
yet `rect.z + amount` exceeds INT_MAX and the result has the negative width and
height -2147483625, where the claim gives the max corner (800, 600). -/
theorem expandRect_margin_overflow :
    (100 : Int) + 50 ≤ 800 ∧ (100 : Int) + 50 ≤ 600 ∧ (0 : Int) ≤ 2147483521 ∧
    (2147483521 : Int) ≤ INT_MAX ∧
    expandRect ⟨100, 100, 50, 50⟩ 2147483521 ⟨800, 600⟩
      = ⟨0, 0, -2147483625, -2147483625⟩ ∧
    (expandRect ⟨100, 100, 50, 50⟩ 2147483521 ⟨800, 600⟩).x
        + (expandRect ⟨100, 100, 50, 50⟩ 2147483521 ⟨800, 600⟩).z
      ≠ min 800 (100 + 50 + 2147483521) ∧
    ¬ (expandRect ⟨100, 100, 50, 50⟩ 2147483521 ⟨800, 600⟩).containsRect ⟨100, 100, 50, 50⟩ ∧
    ¬ (expandRect ⟨100, 100, 50, 50⟩ 2147483521 ⟨800, 600⟩).insideFrame ⟨800, 600⟩ := by
  have h : expandRect ⟨100, 100, 50, 50⟩ 2147483521 ⟨800, 600⟩
      = ⟨0, 0, -2147483625, -2147483625⟩ := by decide
  rw [h]
  simp only [IVec4.containsRect, IVec4.insideFrame, INT_MAX]
  refine ⟨by decide, by decide, by decide, by decide, trivial, by decide, by omega, by omega⟩

/-- C1, amended: for a frame (W,H) with 0 <= W,H <= INT_MAX, a rect (x,y,w,h) lying
inside the frame and a margin m >= 0 with x+w+m <= INT_MAX and y+h+m <= INT_MAX,
`expandRect` grows the rect by the margin on every side and clips it to the
frame: min corner (max(0,x-m), max(0,y-m)), max corner (min(W,x+w+m),
min(H,y+h+m)); the result contains the rect, lies inside the frame with no
negative component, a second expansion whose sums again stay within INT_MAX
contains the first, and away from the borders the result is exactly
(x-m, y-m, w+2m, h+2m). -/
theorem expandRect_grow_then_clip_in_range (W H x y w h m : Int)
    (hW : 0 ≤ W) (hH : 0 ≤ H) (hx : 0 ≤ x) (hy : 0 ≤ y) (hw : 0 ≤ w) (hh : 0 ≤ h)
    (hxw : x + w ≤ W) (hyh : y + h ≤ H) (hm : 0 ≤ m)
    (hWmax : W ≤ INT_MAX) (hHmax : H ≤ INT_MAX)
    (hxm : x + w + m ≤ INT_MAX) (hym : y + h + m ≤ INT_MAX) :
    (expandRect ⟨x, y, w, h⟩ m ⟨W, H⟩).x = max 0 (x - m) ∧
    (expandRect ⟨x, y, w, h⟩ m ⟨W, H⟩).y = max 0 (y - m) ∧
    (expandRect ⟨x, y, w, h⟩ m ⟨W, H⟩).x + (expandRect ⟨x, y, w, h⟩ m ⟨W, H⟩).z
      = min W (x + w + m) ∧
    (expandRect ⟨x, y, w, h⟩ m ⟨W, H⟩).y + (expandRect ⟨x, y, w, h⟩ m ⟨W, H⟩).w
      = min H (y + h + m) ∧
    (expandRect ⟨x, y, w, h⟩ m ⟨W, H⟩).containsRect ⟨x, y, w, h⟩ ∧
    (expandRect ⟨x, y, w, h⟩ m ⟨W, H⟩).insideFrame ⟨W, H⟩ ∧
    (min W (x + w + m) + m ≤ INT_MAX → min H (y + h + m) + m ≤ INT_MAX →
      (expandRect (expandRect ⟨x, y, w, h⟩ m ⟨W, H⟩) m ⟨W, H⟩).containsRect
        (expandRect ⟨x, y, w, h⟩ m ⟨W, H⟩)) ∧
    (m ≤ x → m ≤ y → x + w + m ≤ W → y + h + m ≤ H →
      expandRect ⟨x, y, w, h⟩ m ⟨W, H⟩ = ⟨x - m, y - m, w + 2 * m, h + 2 * m⟩) := by
  simp only [INT_MAX] at hWmax hHmax hxm hym
  have hfirst : expandRect ⟨x, y, w, h⟩ m ⟨W, H⟩
      = ⟨max 0 (x - m), max 0 (y - m), min W (x + w + m) - max 0 (x - m),
          min H (y + h + m) - max 0 (y - m)⟩ := by
    simp only [expandRect, IVec4.mk.injEq]
    rw [wrapInt_of_fits (w + x) (by simp only [INT_MIN]; omega) (by simp only [INT_MAX]; omega),
      wrapInt_of_fits (h + y) (by simp only [INT_MIN]; omega) (by simp only [INT_MAX]; omega),
      wrapInt_of_fits (x - m) (by simp only [INT_MIN]; omega) (by simp only [INT_MAX]; omega),
      wrapInt_of_fits (y - m) (by simp only [INT_MIN]; omega) (by simp only [INT_MAX]; omega),
      wrapInt_of_fits (w + x + m) (by simp only [INT_MIN]; omega)
        (by simp only [INT_MAX]; omega),
      wrapInt_of_fits (h + y + m) (by simp only [INT_MIN]; omega)
        (by simp only [INT_MAX]; omega),
      wrapInt_of_fits (min W (w + x + m) - max 0 (x - m)) (by simp only [INT_MIN]; omega)
        (by simp only [INT_MAX]; omega),
      wrapInt_of_fits (min H (h + y + m) - max 0 (y - m)) (by simp only [INT_MIN]; omega)
        (by simp only [INT_MAX]; omega)]
    refine ⟨rfl, rfl, by omega, by omega⟩
  rw [hfirst]
  simp only [IVec4.containsRect, IVec4.insideFrame, IVec4.mk.injEq, INT_MAX]
  refine ⟨trivial, trivial, by omega, by omega, by omega, by omega, ?_, ?_⟩
  · intro hsx hsy
    simp only [expandRect]
    rw [wrapInt_of_fits (min W (x + w + m) - max 0 (x - m) + max 0 (x - m))
        (by simp only [INT_MIN]; omega) (by simp only [INT_MAX]; omega),
      wrapInt_of_fits (min H (y + h + m) - max 0 (y - m) + max 0 (y - m))
        (by simp only [INT_MIN]; omega) (by simp only [INT_MAX]; omega),
      wrapInt_of_fits (max 0 (x - m) - m) (by simp only [INT_MIN]; omega)
        (by simp only [INT_MAX]; omega),
      wrapInt_of_fits (max 0 (y - m) - m) (by simp only [INT_MIN]; omega)
        (by simp only [INT_MAX]; omega),
      wrapInt_of_fits (min W (x + w + m) - max 0 (x - m) + max 0 (x - m) + m)
        (by simp only [INT_MIN]; omega) (by simp only [INT_MAX]; omega),
      wrapInt_of_fits (min H (y + h + m) - max 0 (y - m) + max 0 (y - m) + m)
        (by simp only [INT_MIN]; omega) (by simp only [INT_MAX]; omega)]
    rw [wrapInt_of_fits _ (by simp only [INT_MIN]; omega) (by simp only [INT_MAX]; omega),
      wrapInt_of_fits _ (by simp only [INT_MIN]; omega) (by simp only [INT_MAX]; omega)]
    refine ⟨by omega, by omega, by omega, by omega⟩
  · intro h1 h2 h3 h4
    refine ⟨by omega, by omega, by omega, by omega⟩

/-- Witness of C1, amended: in an 800 x 600 frame with margin 3, the rect
(0,100,50,50), which touches the left border, is clipped at x = 0 and stays
inside the frame, and the rect (100,100,50,50), away from the borders, becomes
(97,97,56,56). -/
theorem expandRect_grow_then_clip_in_range_witness :
    (0 : Int) + 50 + 3 ≤ INT_MAX ∧ (100 : Int) + 50 + 3 ≤ INT_MAX ∧
    (expandRect ⟨0, 100, 50, 50⟩ 3 ⟨800, 600⟩).insideFrame ⟨800, 600⟩ ∧
    (expandRect ⟨0, 100, 50, 50⟩ 3 ⟨800, 600⟩).containsRect ⟨0, 100, 50, 50⟩ ∧
    (expandRect ⟨0, 100, 50, 50⟩ 3 ⟨800, 600⟩).x = max 0 (0 - 3) ∧
    (expandRect (expandRect ⟨0, 100, 50, 50⟩ 3 ⟨800, 600⟩) 3 ⟨800, 600⟩).containsRect
      (expandRect ⟨0, 100, 50, 50⟩ 3 ⟨800, 600⟩) ∧
    expandRect ⟨100, 100, 50, 50⟩ 3 ⟨800, 600⟩ = ⟨100 - 3, 100 - 3, 50 + 2 * 3, 50 + 2 * 3⟩ :=
  have h := expandRect_grow_then_clip_in_range 800 600 0 100 50 50 3 (by decide) (by decide)
    (by decide) (by decide) (by decide) (by decide) (by decide) (by decide) (by decide)
    (by decide) (by decide) (by decide) (by decide)
  ⟨by decide, by decide, h.2.2.2.2.2.1, h.2.2.2.2.1, h.1,
    h.2.2.2.2.2.2.1 (by decide) (by decide),
    (expandRect_grow_then_clip_in_range 800 600 100 100 50 50 3 (by decide) (by decide)
      (by decide) (by decide) (by decide) (by decide) (by decide) (by decide) (by decide)
      (by decide) (by decide) (by decide) (by decide)).2.2.2.2.2.2.2
      (by decide) (by decide) (by decide) (by decide)⟩

/-- C2: for a non-empty item set, `DrawOutlineMask::run` stores into its output the
tight rect expanded once by the shared blur width of its slot plus one, and the
batch it records (whenever the depth framebuffer exists) starts by setting the
scissor rect to the stored output expanded a second time by the same margin,
before the framebuffer is bound and cleared; no other scissor rect is set. -/
theorem DrawOutlineMask_run_published_single_scissor_double {Box : Type}
    (self : DrawOutlineMask) (sharedParameters : OutlineSharedParameters)
    (inShapes : ShapeBounds Box) (ressources : OutlineRessources)
    (viewFrustum : ViewFrustum Box) (hne : inShapes ≠ []) :
    (self.run sharedParameters inShapes ressources viewFrustum).1
      = expandRect (computeOutlineRect inShapes viewFrustum ressources.getSourceFrameSize)
          (sharedParameters.get self._outlineIndex + 1) ressources.getSourceFrameSize ∧
    ∀ depthFramebuffer, ressources._depthFrameBuffer = some depthFramebuffer →
      ∃ rest,
        (self.run sharedParameters inShapes ressources viewFrustum).2
          = some (Command.setStateScissorRect
                (expandRect (self.run sharedParameters inShapes ressources viewFrustum).1
                  (sharedParameters.get self._outlineIndex + 1) ressources.getSourceFrameSize)
              :: Command.setFramebuffer depthFramebuffer
              :: Command.clearDepthFramebuffer 1 true :: rest) ∧
        scissorRects rest = [] := by
  have hemp : inShapes.isEmpty = false := by
    cases inShapes with
    | nil => exact absurd rfl hne
    | cons a l => rfl
  refine ⟨by simp [DrawOutlineMask.run, hemp], ?_⟩
  intro fb hfb
  have hs := scissorRects_batch inShapes fb
    (expandRect (self.run sharedParameters inShapes ressources viewFrustum).1
      (sharedParameters.get self._outlineIndex + 1) ressources.getSourceFrameSize)
  simp only [DrawOutlineMask.run, hemp, Bool.not_false, if_true,
    OutlineRessources.getDepthFramebuffer, hfb, Option.map_some'] at hs ⊢
  simp only [DrawOutlineMask.batch, List.cons_append, List.nil_append, scissorRects,
    List.cons.injEq, and_true, true_and] at hs ⊢
  exact ⟨_, rfl, hs⟩

/-- Witness of C2: the sample group (tight rect (100,100,50,50)) in the sample
resources with blur width 2 in slot 0: the stored rect is (97,97,56,56) and the
one scissor rect set is (94,94,62,62). -/
theorem DrawOutlineMask_run_published_single_scissor_double_witness :
    sampleShapes ≠ [] ∧
    (DrawOutlineMask.run ⟨0⟩ ⟨[2]⟩ sampleShapes sampleRessources sampleFrustum).1
      = ⟨97, 97, 56, 56⟩ ∧
    (DrawOutlineMask.run ⟨0⟩ ⟨[2]⟩ sampleShapes sampleRessources sampleFrustum).2.map scissorRects
      = some [⟨94, 94, 62, 62⟩] := by
  have h := DrawOutlineMask_run_published_single_scissor_double ⟨0⟩ ⟨[2]⟩ sampleShapes
    sampleRessources sampleFrustum (by decide)
  have hrect : computeOutlineRect sampleShapes sampleFrustum sampleRessources.getSourceFrameSize
      = ⟨100, 100, 50, 50⟩ := computeOutlineRect_sample_shapes
  have hpublished : (DrawOutlineMask.run ⟨0⟩ ⟨[2]⟩ sampleShapes sampleRessources sampleFrustum).1
      = ⟨97, 97, 56, 56⟩ := by
    rw [h.1, hrect]
    decide
  obtain ⟨rest, hbatch, hrest⟩ := h.2 _ rfl
  refine ⟨by decide, hpublished, ?_⟩
  rw [hbatch, hpublished]
  simp only [Option.map_some', scissorRects, hrest]
  decide

/-- C3: `computeOutlineRect` only depends on the items whose bound projects: removing
every non-projecting item leaves the result unchanged; when no item projects, and
for the empty item set, the result is (0,0,0,0); and an item that projects to the
pixel rect (100,100,50,50) together with one that projects to nothing gives
(100,100,50,50). -/
theorem computeOutlineRect_depends_on_projecting_items {Box : Type}
    (viewFrustum : ViewFrustum Box) (frameSize : IVec2) :
    (∀ shapes : ShapeBounds Box,
      computeOutlineRect shapes viewFrustum frameSize
        = computeOutlineRect (projectingOnly viewFrustum shapes) viewFrustum frameSize) ∧
    (∀ shapes : ShapeBounds Box, noneProjects viewFrustum shapes →
      computeOutlineRect shapes viewFrustum frameSize = ⟨0, 0, 0, 0⟩) ∧
    computeOutlineRect ([] : ShapeBounds Box) viewFrustum frameSize = ⟨0, 0, 0, 0⟩ ∧
    (∀ (key : ShapeKey) (inside outside : ItemBound Box),
      computeOutlineRect [(key, [inside])] viewFrustum frameSize = ⟨100, 100, 50, 50⟩ →
      viewFrustum.getProjectedRect outside.bound = none →
      computeOutlineRect [(key, [inside, outside])] viewFrustum frameSize = ⟨100, 100, 50, 50⟩ ∧
      computeOutlineRect [(key, [outside, inside])] viewFrustum frameSize
        = ⟨100, 100, 50, 50⟩ ∧
      ∀ otherKey : ShapeKey,
        computeOutlineRect [(key, [inside]), (otherKey, [outside])] viewFrustum frameSize
          = ⟨100, 100, 50, 50⟩ ∧
        computeOutlineRect [(otherKey, [outside]), (key, [inside])] viewFrustum frameSize
          = ⟨100, 100, 50, 50⟩) := by
  refine ⟨fun shapes => (computeOutlineRect_projectingOnly viewFrustum shapes frameSize).symm,
    fun shapes h => computeOutlineRect_noneProjects viewFrustum shapes frameSize h,
    computeOutlineRect_noneProjects viewFrustum [] frameSize (by simp [noneProjects]), ?_⟩
  intro key inside outside hin hout
  have h1 := computeOutlineRect_projectingOnly viewFrustum [(key, [inside, outside])] frameSize
  have h2 := computeOutlineRect_projectingOnly viewFrustum [(key, [outside, inside])] frameSize
  have h0 := computeOutlineRect_projectingOnly viewFrustum [(key, [inside])] frameSize
  cases hp : viewFrustum.getProjectedRect inside.bound with
  | none =>
    have hz := computeOutlineRect_noneProjects viewFrustum [(key, [inside])] frameSize
      (by simp [noneProjects, hp])
    rw [hz] at hin
    exact absurd hin (by decide)
  | some corners =>
    simp only [projectingOnly, List.map_cons, List.map_nil, List.filter, hp, hout,
      Option.isSome_some, Option.isSome_none] at h0 h1 h2
    rw [← h1, ← h2, hin]
    refine ⟨rfl, rfl, fun otherKey => ?_⟩
    have h3 := computeOutlineRect_projectingOnly viewFrustum
      [(key, [inside]), (otherKey, [outside])] frameSize
    have h4 := computeOutlineRect_projectingOnly viewFrustum
      [(otherKey, [outside]), (key, [inside])] frameSize
    simp only [projectingOnly, List.map_cons, List.map_nil, List.filter, hp, hout,
      Option.isSome_some, Option.isSome_none] at h3 h4
    rw [← h3, ← h4]
    exact ⟨hin, hin⟩

/-- Witness of C3: in an 800 x 600 frame, the sample group (box 0 projects to the
pixel rect (100,100,50,50), box 2 projects to nothing) has rect (100,100,50,50),
and the culled group has rect (0,0,0,0). -/
theorem computeOutlineRect_depends_on_projecting_items_witness :
    noneProjects sampleFrustum culledShapes ∧
    computeOutlineRect culledShapes sampleFrustum ⟨800, 600⟩ = ⟨0, 0, 0, 0⟩ ∧
    computeOutlineRect [(⟨false, 0⟩, [(⟨10, 0⟩ : ItemBound Nat)])] sampleFrustum ⟨800, 600⟩
      = ⟨100, 100, 50, 50⟩ ∧
    sampleFrustum.getProjectedRect (⟨11, 2⟩ : ItemBound Nat).bound = none ∧
    computeOutlineRect sampleShapes sampleFrustum ⟨800, 600⟩ = ⟨100, 100, 50, 50⟩ :=
  have hculled : noneProjects sampleFrustum culledShapes := by
    simp [noneProjects, culledShapes, sampleFrustum]
  have hinside : computeOutlineRect [(⟨false, 0⟩, [(⟨10, 0⟩ : ItemBound Nat)])] sampleFrustum
      ⟨800, 600⟩ = ⟨100, 100, 50, 50⟩ := computeOutlineRect_sample_item
  have houtside : sampleFrustum.getProjectedRect (⟨11, 2⟩ : ItemBound Nat).bound = none := by
    simp [sampleFrustum]
  have h := computeOutlineRect_depends_on_projecting_items sampleFrustum ⟨800, 600⟩
  ⟨hculled, h.2.1 culledShapes hculled, hinside, houtside,
    (h.2.2.2 ⟨false, 0⟩ ⟨10, 0⟩ ⟨11, 2⟩ hinside houtside).1⟩

/-- Counterexample to C4: in a frame 16777217 pixels wide, the item that covers the
full visible frustum (box 1 of the sample frustum) gets the rect
(0,0,16777216,600): the `int` width 16777217 is not a binary32 value and its
conversion in `frameSize.x*0.5f` rounds to 16777216. -/
theorem computeOutlineRect_full_frustum_wide_frame :
    sampleFrustum.getProjectedRect (⟨7, 1⟩ : ItemBound Nat).bound = some (⟨-1, -1⟩, ⟨1, 1⟩) ∧
    computeOutlineRect [(⟨false, 0⟩, [(⟨7, 1⟩ : ItemBound Nat)])] sampleFrustum ⟨16777217, 600⟩
      = ⟨0, 0, 16777216, 600⟩ ∧
    computeOutlineRect [(⟨false, 0⟩, [(⟨7, 1⟩ : ItemBound Nat)])] sampleFrustum ⟨16777217, 600⟩
      ≠ ⟨0, 0, 16777217, 600⟩ := by
  have hacc : accumulateShapes sampleFrustum ⟨FLT_MAX, FLT_MAX, -FLT_MAX, -FLT_MAX⟩
      [(⟨false, 0⟩, [(⟨7, 1⟩ : ItemBound Nat)])] = ⟨-1, -1, 1, 1⟩ := by
    simp [accumulateShapes, accumulateBound, sampleFrustum, FLT_MAX]
    norm_num
  have hwide : round32 ((16777217 : Int) : ℚ) = 16777216 := by
    have h := round32_eval ((16777217 : Int) : ℚ) 24 8388608 (by norm_num) (by norm_num)
      (by norm_num) (by rw [roundHalfEven_of_tie _ 8388608 (by norm_num)]; decide)
    rw [h]
    norm_num
  have hz : pixelCeil 1 16777217 = 16777216 :=
    (pixelCeil_eval 1 16777217 16777216 16777216
      (pixelValue_eval 1 16777217 2 8388608 16777216
        (round32_value _ _ 2 0 (by norm_num) (by norm_num) (by norm_num) (by norm_num)
          (by norm_num))
        (by
          rw [hwide]
          exact round32_value _ _ 8388608 0 (by norm_num) (by norm_num) (by norm_num)
            (by norm_num) (by norm_num))
        (round32_value _ _ 16777216 0 (by norm_num) (by norm_num) (by norm_num) (by norm_num)
          (by norm_num)))
      (by
        have : ⌈((16777216 : Int) : ℚ)⌉ = 16777216 := Int.ceil_intCast _
        exact_mod_cast this)
      (by decide) (by decide)).trans (by decide)
  have hrect : computeOutlineRect [(⟨false, 0⟩, [(⟨7, 1⟩ : ItemBound Nat)])] sampleFrustum
      ⟨16777217, 600⟩ = ⟨0, 0, 16777216, 600⟩ := by
    rw [computeOutlineRect_eq, hacc]
    simp only
    rw [if_pos (by norm_num [FLT_MAX]), pixelFloor_neg_one 16777217 (by decide),
      pixelFloor_neg_one 600 (by decide), hz, pixelCeil_one 600 (by decide) (by decide)]
    decide
  refine ⟨by simp [sampleFrustum], hrect, ?_⟩
  rw [hrect]
  decide

/-- C4, amended: for every frame size (W,H) with 0 <= W,H <= 16777216 (2^24, up to
which every `int` is a binary32 value), a single item whose projected bound has
bottomLeft = (-1,-1) and topRight = (1,1) gives the rect (0,0,W,H). -/
theorem computeOutlineRect_full_frustum_float_sizes {Box : Type}
    (viewFrustum : ViewFrustum Box) (key : ShapeKey) (item : ItemBound Box) (W H : Int)
    (hW : 0 ≤ W) (hH : 0 ≤ H) (hWmax : W ≤ 16777216) (hHmax : H ≤ 16777216)
    (hfull : viewFrustum.getProjectedRect item.bound = some (⟨-1, -1⟩, ⟨1, 1⟩)) :
    computeOutlineRect [(key, [item])] viewFrustum ⟨W, H⟩ = ⟨0, 0, W, H⟩ := by
  have hacc : accumulateShapes viewFrustum ⟨FLT_MAX, FLT_MAX, -FLT_MAX, -FLT_MAX⟩
      [(key, [item])] = ⟨-1, -1, 1, 1⟩ := by
    have hx : min FLT_MAX (-1 : ℚ) = -1 := by norm_num [FLT_MAX]
    have hz : max (-FLT_MAX) (1 : ℚ) = 1 := by norm_num [FLT_MAX]
    simp only [accumulateShapes, List.foldl_cons, List.foldl_nil, accumulateBound, hfull, hx, hz]
  rw [computeOutlineRect_eq, hacc]
  simp only
  rw [if_pos (by norm_num [FLT_MAX]), pixelFloor_neg_one W hW, pixelFloor_neg_one H hH,
    pixelCeil_one W hW hWmax, pixelCeil_one H hH hHmax]
  simp

/-- Witness of C4, amended: box 1 of the sample frustum covers the visible frustum;
a 1920 x 1080 frame gives the rect (0,0,1920,1080). -/
theorem computeOutlineRect_full_frustum_float_sizes_witness :
    sampleFrustum.getProjectedRect (⟨7, 1⟩ : ItemBound Nat).bound = some (⟨-1, -1⟩, ⟨1, 1⟩) ∧
    computeOutlineRect [(⟨false, 0⟩, [(⟨7, 1⟩ : ItemBound Nat)])] sampleFrustum ⟨1920, 1080⟩
      = ⟨0, 0, 1920, 1080⟩ :=
  ⟨by simp [sampleFrustum],
    computeOutlineRect_full_frustum_float_sizes sampleFrustum ⟨false, 0⟩ ⟨7, 1⟩ 1920 1080
      (by decide) (by decide) (by decide) (by decide) (by simp [sampleFrustum])⟩

/-- C5: for a zero-item group neither job does GPU work: `DrawOutlineMask::run` on
the empty item set stores (0,0,0,0) and records no command, and `DrawOutline::run`
given a rect whose width or height is not positive (such as that zero rect) or no
outline resources records no command and leaves the job, with its parameters,
and the shared blur widths as they were. -/
theorem zero_item_group_does_no_gpu_work {Box : Type} :
    (∀ (mask : DrawOutlineMask) (sharedParameters : OutlineSharedParameters)
        (ressources : OutlineRessources) (viewFrustum : ViewFrustum Box),
      mask.run sharedParameters ([] : ShapeBounds Box) ressources viewFrustum
        = (⟨0, 0, 0, 0⟩, some [])) ∧
    (∀ (job : DrawOutline) (sharedParameters : OutlineSharedParameters)
        (statics : DrawOutlineStatics) (outlineFrameBuffer : Option OutlineRessources)
        (sceneDepthBuffer : Option DeferredFramebuffer) (outlineRect : IVec4),
      outlineFrameBuffer = none ∨ outlineRect.z ≤ 0 ∨ outlineRect.w ≤ 0 →
      (job.run sharedParameters statics outlineFrameBuffer sceneDepthBuffer outlineRect :
          Option (DrawOutlineResult Box))
        = some ⟨job, sharedParameters, statics, []⟩) ∧
    (∀ (job : DrawOutline) (sharedParameters : OutlineSharedParameters)
        (statics : DrawOutlineStatics) (outlineFrameBuffer : Option OutlineRessources)
        (sceneDepthBuffer : Option DeferredFramebuffer),
      (job.run sharedParameters statics outlineFrameBuffer sceneDepthBuffer ⟨0, 0, 0, 0⟩ :
          Option (DrawOutlineResult Box))
        = some ⟨job, sharedParameters, statics, []⟩) := by
  have key : ∀ (job : DrawOutline) (sharedParameters : OutlineSharedParameters)
      (statics : DrawOutlineStatics) (outlineFrameBuffer : Option OutlineRessources)
      (sceneDepthBuffer : Option DeferredFramebuffer) (outlineRect : IVec4),
      outlineFrameBuffer = none ∨ outlineRect.z ≤ 0 ∨ outlineRect.w ≤ 0 →
      (job.run sharedParameters statics outlineFrameBuffer sceneDepthBuffer outlineRect :
          Option (DrawOutlineResult Box))
        = some ⟨job, sharedParameters, statics, []⟩ := by
    intro job sharedParameters statics outlineFrameBuffer sceneDepthBuffer outlineRect h
    cases outlineFrameBuffer with
    | none => rfl
    | some ressources =>
      have hrect : ¬ (outlineRect.z > 0 ∧ outlineRect.w > 0) := by
        rcases h with h | h | h
        · exact absurd h (by simp)
        · omega
        · omega
      simp only [DrawOutline.run, hrect, if_false]
      rfl
  refine ⟨fun mask sharedParameters ressources viewFrustum => rfl, key, ?_⟩
  intro job sharedParameters statics outlineFrameBuffer sceneDepthBuffer
  exact key job sharedParameters statics outlineFrameBuffer sceneDepthBuffer ⟨0, 0, 0, 0⟩
    (Or.inr (Or.inl (le_refl _)))

/-- Witness of C5: the sample job, given the sample resources and a rect of width 0,
is left unchanged and records nothing. -/
theorem zero_item_group_does_no_gpu_work_witness :
    ((some sampleRessources = none ∨ (⟨5, 5, 0, 9⟩ : IVec4).z ≤ 0 ∨ (⟨5, 5, 0, 9⟩ : IVec4).w ≤ 0) ∧
    (sampleJob.run ⟨[3]⟩ ⟨none, none⟩ (some sampleRessources) (some ⟨none⟩) ⟨5, 5, 0, 9⟩ :
        Option (DrawOutlineResult Nat))
      = some ⟨sampleJob, ⟨[3]⟩, ⟨none, none⟩, []⟩) :=
  ⟨Or.inr (Or.inl (by decide)),
    zero_item_group_does_no_gpu_work.2.1 sampleJob ⟨[3]⟩ ⟨none, none⟩ (some sampleRessources)
      (some ⟨none⟩) ⟨5, 5, 0, 9⟩ (Or.inr (Or.inl (by decide)))⟩

/-- Counterexample to C6: with the display flag on and the sample resources,
`DebugOutline::run` given the zero rect (0,0,0,0) records one quad draw. -/
theorem DebugOutline_run_zero_rect_records_draw :
    ((DebugOutline.run ⟨true, 0⟩ (some sampleRessources) ⟨0, 0, 0, 0⟩ :
        Option (List (Command Nat))).map drawCalls)
      = some [Command.renderQuad ⟨-1, -1⟩ ⟨1, 1⟩] := by
  decide

/-- C6, amended: `DebugOutline::run` records no command, hence no draw, when the
display flag is off or the outline resources are absent, whatever the rect; when
the flag is on and the resources exist with their depth framebuffer, it records
one full-viewport quad draw, whatever the rect and so also for (0,0,0,0), and the
one scissor rect it sets before that draw is the rect it was given. -/
theorem DebugOutline_run_draws_iff_enabled_and_ressources {Box : Type} (self : DebugOutline)
    (outlineRessources : Option OutlineRessources) (outlineRect : IVec4) :
    (self._isDisplayEnabled = false ∨ outlineRessources = none →
      (self.run outlineRessources outlineRect : Option (List (Command Box))) = some []) ∧
    (∀ ressources depthFramebuffer,
      self._isDisplayEnabled = true → outlineRessources = some ressources →
      ressources._depthFrameBuffer = some depthFramebuffer →
      ∃ commands,
        (self.run outlineRessources outlineRect : Option (List (Command Box))) = some commands ∧
        drawCalls commands = [Command.renderQuad ⟨-1, -1⟩ ⟨1, 1⟩] ∧
        scissorRects commands = [outlineRect] ∧
        commands.take 3
          = [Command.enableStereo false, Command.setViewportTransform,
              Command.setStateScissorRect outlineRect]) := by
  constructor
  · intro h
    cases outlineRessources with
    | none => rfl
    | some ressources =>
      rcases h with h | h
      · simp [DebugOutline.run, h]
      · exact absurd h (by simp)
  · intro ressources depthFramebuffer hon hres hdepth
    subst hres
    have hrun : (self.run (some ressources) outlineRect : Option (List (Command Box)))
        = some
          [ .enableStereo false, .setViewportTransform, .setStateScissorRect outlineRect,
            .setProjectionTransform, .setViewTransform, .setModelTransform,
            .setPipeline (some PipelineId.debugDepth),
            .setResourceTexture Slot.slot0 depthFramebuffer.depthStencilBuffer,
            .renderQuad ⟨-1, -1⟩ ⟨1, 1⟩, .setResourceTexture Slot.slot0 none ] := by
      simp [DebugOutline.run, hon, OutlineRessources.getDepthTexture,
        OutlineRessources.getDepthFramebuffer, hdepth]
    refine ⟨_, hrun, ?_, ?_, rfl⟩
    · simp [drawCalls, List.filter, Command.isDrawCall]
    · simp [scissorRects]

/-- Witness of C6, amended: with the flag off the sample resources and the zero rect
give no command; with the flag on they give a batch. -/
theorem DebugOutline_run_draws_iff_enabled_and_ressources_witness :
    ((⟨false, 0⟩ : DebugOutline)._isDisplayEnabled = false ∨ some sampleRessources = none) ∧
    (DebugOutline.run ⟨false, 0⟩ (some sampleRessources) ⟨0, 0, 0, 0⟩ :
        Option (List (Command Nat))) = some [] ∧
    ∃ commands,
      (DebugOutline.run ⟨true, 0⟩ (some sampleRessources) ⟨0, 0, 0, 0⟩ :
          Option (List (Command Nat))) = some commands ∧
      drawCalls commands = [Command.renderQuad ⟨-1, -1⟩ ⟨1, 1⟩] ∧
      scissorRects commands = [⟨0, 0, 0, 0⟩] ∧
      commands.take 3
        = [Command.enableStereo false, Command.setViewportTransform,
            Command.setStateScissorRect ⟨0, 0, 0, 0⟩] :=
  ⟨Or.inl rfl,
    (DebugOutline_run_draws_iff_enabled_and_ressources ⟨false, 0⟩ (some sampleRessources)
      ⟨0, 0, 0, 0⟩).1 (Or.inl rfl),
    (DebugOutline_run_draws_iff_enabled_and_ressources ⟨true, 0⟩ (some sampleRessources)
      ⟨0, 0, 0, 0⟩).2 sampleRessources _ rfl rfl rfl⟩

/-- C7, the code at the failing input: a non-empty group whose one item projects
to nothing, blur width 0, 800 x 600 frame. `computeOutlineRect` gives (0,0,0,0),
`DrawOutlineMask::run` stores (0,0,1,1), a rect of positive area, and sets the
scissor rect (0,0,2,2); `DrawOutline::run` given (0,0,1,1) records its draw. -/
theorem fully_culled_group_is_not_skipped :
    culledShapes ≠ [] ∧ noneProjects sampleFrustum culledShapes ∧
    computeOutlineRect culledShapes sampleFrustum ⟨800, 600⟩ = ⟨0, 0, 0, 0⟩ ∧
    (DrawOutlineMask.run ⟨0⟩ ⟨[0]⟩ culledShapes sampleRessources sampleFrustum).1
      = ⟨0, 0, 1, 1⟩ ∧
    (DrawOutlineMask.run ⟨0⟩ ⟨[0]⟩ culledShapes sampleRessources sampleFrustum).2.map scissorRects
      = some [⟨0, 0, 2, 2⟩] ∧
    ((sampleJob.run ⟨[0]⟩ ⟨none, none⟩ (some sampleRessources) (some ⟨none⟩) ⟨0, 0, 1, 1⟩ :
        Option (DrawOutlineResult Nat)).map fun result => drawCalls result.commands)
      = some [Command.draw 4] := by
  have hculled : noneProjects sampleFrustum culledShapes := by
    simp [noneProjects, culledShapes, sampleFrustum]
  have hrect := computeOutlineRect_noneProjects sampleFrustum culledShapes ⟨800, 600⟩ hculled
  have hne : culledShapes ≠ [] := by decide
  have hemp : culledShapes.isEmpty = false := by decide
  have hout : (DrawOutlineMask.run ⟨0⟩ ⟨[0]⟩ culledShapes sampleRessources sampleFrustum).1
      = ⟨0, 0, 1, 1⟩ := by
    have hfs : sampleRessources.getSourceFrameSize = ⟨800, 600⟩ := rfl
    simp only [DrawOutlineMask.run, hemp, Bool.not_false, if_true, hfs, hrect]
    decide
  refine ⟨hne, hculled, hrect, hout, ?_, ?_⟩
  · have hfs : sampleRessources.getSourceFrameSize = ⟨800, 600⟩ := rfl
    have hfb : sampleRessources.getDepthFramebuffer
        = some ⟨1, .outlineDepth, none, some ⟨2, ⟨800, 600⟩⟩⟩ := rfl
    simp only [DrawOutlineMask.run, hemp, Bool.not_false, if_true, hfs, hrect, hfb,
      Option.map_some', scissorRects_batch]
    decide
  · decide

/-- Every non-empty group none of whose items projects, in a frame of at least one
pixel each way and with a non-negative blur width (frame size and margin within
INT_MAX), gets a stored rect of positive width and height (the zero rect expanded
by the margin). -/
theorem fully_culled_group_stored_rect {Box : Type} (self : DrawOutlineMask)
    (sharedParameters : OutlineSharedParameters) (inShapes : ShapeBounds Box)
    (ressources : OutlineRessources) (viewFrustum : ViewFrustum Box) (hne : inShapes ≠ [])
    (hculled : noneProjects viewFrustum inShapes)
    (hblur : 0 ≤ sharedParameters.get self._outlineIndex)
    (hblurMax : sharedParameters.get self._outlineIndex + 1 ≤ INT_MAX)
    (hW : 1 ≤ ressources._frameSize.x) (hH : 1 ≤ ressources._frameSize.y)
    (hWmax : ressources._frameSize.x ≤ INT_MAX) (hHmax : ressources._frameSize.y ≤ INT_MAX) :
    (self.run sharedParameters inShapes ressources viewFrustum).1
      = ⟨0, 0, min ressources._frameSize.x (sharedParameters.get self._outlineIndex + 1),
          min ressources._frameSize.y (sharedParameters.get self._outlineIndex + 1)⟩ ∧
    0 < (self.run sharedParameters inShapes ressources viewFrustum).1.z ∧
    0 < (self.run sharedParameters inShapes ressources viewFrustum).1.w := by
  have hemp : inShapes.isEmpty = false := by
    cases inShapes with
    | nil => exact absurd rfl hne
    | cons a l => rfl
  have hrect := computeOutlineRect_noneProjects viewFrustum inShapes
    ressources._frameSize hculled
  simp only [INT_MAX] at hblurMax hWmax hHmax
  simp only [DrawOutlineMask.run, hemp, Bool.not_false, if_true,
    OutlineRessources.getSourceFrameSize, hrect, expandRect, wrapInt, IVec4.mk.injEq]
  refine ⟨⟨by omega, by omega, by omega, by omega⟩, by omega, by omega⟩

/-- Counterexample to C8. With width 13981013/16777216 (a binary32 value) the
product `config.width * 3` rounds up to 2.5, so the stored kernel size is 3, while
floor(3*width + 0.5) is 2. With the finite width 2^100 the raw value 3 * 2^100 does
not fit an `int`, the cast yields INT_MIN and the stored kernel size is 2, while
floor(3*width + 0.5) is above 7. -/
theorem configure_blurKernelSize_rounded :
    (sampleJob.configure ⟨[0]⟩
      { sampleConfig with width := 13981013 / 16777216 }).1._parameters._blurKernelSize = 3 ∧
    min 7 (max 2 ⌊(13981013 / 16777216 : ℚ) * 3 + 1 / 2⌋) = 2 ∧
    (sampleJob.configure ⟨[0]⟩
      { sampleConfig with
        width := 1267650600228229401496703205376 }).1._parameters._blurKernelSize = 2 ∧
    min 7 (max 2 ⌊(1267650600228229401496703205376 : ℚ) * 3 + 1 / 2⌋) = 7 := by
  have hsmall : blurKernelSize (13981013 / 16777216) = 3 := by
    have hmul : fmul (13981013 / 16777216) 3 = 5 / 2 := by
      have h := round32_eval ((13981013 / 16777216 : ℚ) * 3) 1 10485760 (by norm_num)
        (by norm_num) (by norm_num) (roundHalfEven_of_near _ _ (by norm_num [abs_lt]))
      unfold fmul
      rw [h]
      norm_num
    have hadd : fadd (5 / 2) (1 / 2) = ((3 : Int) : ℚ) :=
      round32_value _ _ 3 0 (by norm_num) (by norm_num) (by norm_num) (by norm_num)
        (by norm_num)
    unfold blurKernelSize floorf
    rw [hmul, hadd, Int.floor_intCast, floatToInt_of_fits 3 (by decide) (by decide)]
    decide
  have hlarge : blurKernelSize 1267650600228229401496703205376 = 2 := by
    have hmul : fmul 1267650600228229401496703205376 3
        = 3802951800684688204490109616128 :=
      round32_value _ _ 3 100 (by norm_num) (by norm_num) (by norm_num) (by norm_num)
        (by norm_num)
    have hadd : fadd 3802951800684688204490109616128 (1 / 2)
        = ((3802951800684688204490109616128 : Int) : ℚ) := by
      have h := round32_eval ((3802951800684688204490109616128 : ℚ) + 1 / 2) 101 12582912
        (by norm_num) (by norm_num) (by norm_num)
        (roundHalfEven_of_near _ _ (by norm_num [abs_lt]))
      unfold fadd
      rw [h]
      norm_num
    unfold blurKernelSize floorf
    rw [hmul, hadd, Int.floor_intCast, floatToInt_intCast]
    decide
  refine ⟨hsmall, ?_, hlarge, ?_⟩
  · have h : ⌊(13981013 / 16777216 : ℚ) * 3 + 1 / 2⌋ = 2 := by
      rw [Int.floor_eq_iff]
      norm_num
    rw [h]
    decide
  · have h : ⌊(1267650600228229401496703205376 : ℚ) * 3 + 1 / 2⌋
        = 3802951800684688204490109616128 := by
      rw [Int.floor_eq_iff]
      norm_num
    rw [h]
    decide

/-- C8, amended: after `DrawOutline::configure` the stored blur kernel size, in the
parameters and in the configuration buffer, is the `int` cast of the floor of the
binary32 value of `width * 3 + 0.5f` (product and sum each rounded), clamped to
[2,7]: it lies in [2,7] for every width, is 2 when that raw value is below 2 (as
for width 0), is 7 when the raw value is above 7 and at most INT_MAX (as for a raw
value of 10), and is the raw value when it lies in [2,7]. When 3*width and
3*width + 0.5 are binary32 values, so that nothing is rounded, and the floor is at
most INT_MAX, it is floor(3*width + 0.5) clamped to [2,7]. -/
theorem configure_blurKernelSize_float_clamped (self : DrawOutline)
    (sharedParameters : OutlineSharedParameters) (config : DrawOutlineConfig) :
    (self.configure sharedParameters config).1._parameters._blurKernelSize
      = min 7 (max 2 (floatToInt (floorf (fadd (fmul config.width 3) (1 / 2))))) ∧
    (self.configure sharedParameters config).1._configuration._blurKernelSize
      = (self.configure sharedParameters config).1._parameters._blurKernelSize ∧
    2 ≤ (self.configure sharedParameters config).1._parameters._blurKernelSize ∧
    (self.configure sharedParameters config).1._parameters._blurKernelSize ≤ 7 ∧
    (⌊fadd (fmul config.width 3) (1 / 2)⌋ < 2 →
      (self.configure sharedParameters config).1._parameters._blurKernelSize = 2) ∧
    (7 < ⌊fadd (fmul config.width 3) (1 / 2)⌋ →
      ⌊fadd (fmul config.width 3) (1 / 2)⌋ ≤ INT_MAX →
      (self.configure sharedParameters config).1._parameters._blurKernelSize = 7) ∧
    (2 ≤ ⌊fadd (fmul config.width 3) (1 / 2)⌋ → ⌊fadd (fmul config.width 3) (1 / 2)⌋ ≤ 7 →
      (self.configure sharedParameters config).1._parameters._blurKernelSize
        = ⌊fadd (fmul config.width 3) (1 / 2)⌋) ∧
    (config.width = 0 →
      (self.configure sharedParameters config).1._parameters._blurKernelSize = 2) ∧
    (⌊fadd (fmul config.width 3) (1 / 2)⌋ = 10 →
      (self.configure sharedParameters config).1._parameters._blurKernelSize = 7) ∧
    (isBinary32 (config.width * 3) → isBinary32 (config.width * 3 + 1 / 2) →
      ⌊config.width * 3 + 1 / 2⌋ ≤ INT_MAX →
      (self.configure sharedParameters config).1._parameters._blurKernelSize
        = min 7 (max 2 ⌊config.width * 3 + 1 / 2⌋)) := by
  have hk : (self.configure sharedParameters config).1._parameters._blurKernelSize
      = min 7 (max 2 (floatToInt (floorf (fadd (fmul config.width 3) (1 / 2))))) := rfl
  have hc : (self.configure sharedParameters config).1._configuration._blurKernelSize
      = (self.configure sharedParameters config).1._parameters._blurKernelSize := rfl
  have hcast : floatToInt (floorf (fadd (fmul config.width 3) (1 / 2)))
      = if INT_MIN ≤ ⌊fadd (fmul config.width 3) (1 / 2)⌋ ∧
          ⌊fadd (fmul config.width 3) (1 / 2)⌋ ≤ INT_MAX
        then ⌊fadd (fmul config.width 3) (1 / 2)⌋ else INT_MIN := by
    unfold floorf
    exact floatToInt_intCast _
  rw [hc, hk, hcast]
  simp only [INT_MIN, INT_MAX]
  refine ⟨trivial, trivial, by split_ifs <;> omega, by split_ifs <;> omega,
    fun h => by split_ifs <;> omega, fun h1 h2 => by split_ifs <;> omega,
    fun h1 h2 => by split_ifs <;> omega, ?_, fun h => by split_ifs <;> omega, ?_⟩
  swap
  · intro h1 h2 h3
    have e : fadd (fmul config.width 3) (1 / 2) = config.width * 3 + 1 / 2 := by
      unfold fadd fmul
      rw [round32_of_isBinary32 h1, round32_of_isBinary32 h2]
    rw [e]
    split_ifs <;> omega
  intro h0
  have hraw : ⌊fadd (fmul config.width 3) (1 / 2)⌋ = 0 := by
    rw [h0]
    have hmul : fmul 0 3 = 0 := by
      unfold fmul
      rw [zero_mul, round32_zero]
    have hadd : fadd 0 (1 / 2) = 1 / 2 :=
      round32_value _ _ 1 (-1) (by norm_num) (by norm_num) (by norm_num) (by norm_num)
        (by norm_num)
    rw [hmul, hadd, Int.floor_eq_iff]
    norm_num
  rw [hraw]
  decide

/-- Witness of C8, amended: width 0 gives kernel size 2, width 13/4 (raw value 10)
gives 7, width 1 (raw value 3) gives 3; for width 9/8 nothing is rounded and the
kernel size is floor(3 * 9/8 + 1/2) = 3. -/
theorem configure_blurKernelSize_float_clamped_witness :
    (sampleJob.configure ⟨[0]⟩ { sampleConfig with width := 0 }).1._parameters._blurKernelSize
      = 2 ∧
    ⌊fadd (fmul ({ sampleConfig with width := 13 / 4 } : DrawOutlineConfig).width 3) (1 / 2)⌋
      = 10 ∧
    (sampleJob.configure ⟨[0]⟩
      { sampleConfig with width := 13 / 4 }).1._parameters._blurKernelSize = 7 ∧
    (sampleJob.configure ⟨[0]⟩ { sampleConfig with width := 1 }).1._parameters._blurKernelSize
      = 3 ∧
    isBinary32 ((9 / 8 : ℚ) * 3) ∧ isBinary32 ((9 / 8 : ℚ) * 3 + 1 / 2) ∧
    (sampleJob.configure ⟨[0]⟩ { sampleConfig with width := 9 / 8 }).1._parameters._blurKernelSize
      = min 7 (max 2 ⌊(9 / 8 : ℚ) * 3 + 1 / 2⌋) ∧
    min 7 (max 2 ⌊(9 / 8 : ℚ) * 3 + 1 / 2⌋) = 3 := by
  have hb1 : isBinary32 ((9 / 8 : ℚ) * 3) :=
    isBinary32_of_dyadic _ 27 (-3) (by norm_num) (by norm_num) (by norm_num) (by norm_num)
      (by norm_num [FLT_MAX]) (by norm_num [FLT_MAX])
  have hb2 : isBinary32 ((9 / 8 : ℚ) * 3 + 1 / 2) :=
    isBinary32_of_dyadic _ 31 (-3) (by norm_num) (by norm_num) (by norm_num) (by norm_num)
      (by norm_num [FLT_MAX]) (by norm_num [FLT_MAX])
  have hfloor : ⌊(9 / 8 : ℚ) * 3 + 1 / 2⌋ = 3 := by
    rw [Int.floor_eq_iff]
    norm_num
  have h10 : ⌊fadd (fmul ({ sampleConfig with width := 13 / 4 } : DrawOutlineConfig).width 3)
      (1 / 2)⌋ = 10 := by
    have hmul : fmul (13 / 4) 3 = 39 / 4 :=
      round32_value _ _ 39 (-2) (by norm_num) (by norm_num) (by norm_num) (by norm_num)
        (by norm_num)
    have hadd : fadd (39 / 4) (1 / 2) = 41 / 4 :=
      round32_value _ _ 41 (-2) (by norm_num) (by norm_num) (by norm_num) (by norm_num)
        (by norm_num)
    show ⌊fadd (fmul (13 / 4) 3) (1 / 2)⌋ = 10
    rw [hmul, hadd, Int.floor_eq_iff]
    norm_num
  have h3 : ⌊fadd (fmul ({ sampleConfig with width := 1 } : DrawOutlineConfig).width 3)
      (1 / 2)⌋ = 3 := by
    have hmul : fmul 1 3 = 3 :=
      round32_value _ _ 3 0 (by norm_num) (by norm_num) (by norm_num) (by norm_num)
        (by norm_num)
    have hadd : fadd 3 (1 / 2) = 7 / 2 :=
      round32_value _ _ 7 (-1) (by norm_num) (by norm_num) (by norm_num) (by norm_num)
        (by norm_num)
    show ⌊fadd (fmul 1 3) (1 / 2)⌋ = 3
    rw [hmul, hadd, Int.floor_eq_iff]
    norm_num
  exact ⟨(configure_blurKernelSize_float_clamped sampleJob ⟨[0]⟩
      { sampleConfig with width := 0 }).2.2.2.2.2.2.2.1 rfl,
    h10,
    (configure_blurKernelSize_float_clamped sampleJob ⟨[0]⟩
      { sampleConfig with width := 13 / 4 }).2.2.2.2.2.2.2.2.1 h10,
    ((configure_blurKernelSize_float_clamped sampleJob ⟨[0]⟩
      { sampleConfig with width := 1 }).2.2.2.2.2.2.1 (by omega) (by omega)).trans h3,
    hb1, hb2,
    (configure_blurKernelSize_float_clamped sampleJob ⟨[0]⟩
      { sampleConfig with width := 9 / 8 }).2.2.2.2.2.2.2.2.2 hb1 hb2
      (by rw [hfloor]; decide),
    by rw [hfloor]; decide⟩

/-- C9: after `DrawOutline::configure` the filled flag is true exactly when the
unoccluded or the occluded fill opacity is strictly greater than epsilon = 5e-3:
both at or below epsilon gives not filled, either one at epsilon + delta with
delta > 0 gives filled; and `getPipeline`, from statics that are still null or were
set by an earlier call, returns the filled pipeline exactly when the flag is true
and the plain one otherwise. -/
theorem configure_isFilled_iff_opacity_above_epsilon (self : DrawOutline)
    (sharedParameters : OutlineSharedParameters) (config : DrawOutlineConfig)
    (statics : DrawOutlineStatics) :
    OPACITY_EPSILON = 5 / 1000 ∧
    ((self.configure sharedParameters config).1._isFilled = true ↔
      config.unoccludedFillOpacity > OPACITY_EPSILON ∨
        config.occludedFillOpacity > OPACITY_EPSILON) ∧
    (config.unoccludedFillOpacity ≤ OPACITY_EPSILON →
      config.occludedFillOpacity ≤ OPACITY_EPSILON →
      (self.configure sharedParameters config).1._isFilled = false) ∧
    (∀ delta : ℚ, 0 < delta →
      config.unoccludedFillOpacity = OPACITY_EPSILON + delta ∨
        config.occludedFillOpacity = OPACITY_EPSILON + delta →
      (self.configure sharedParameters config).1._isFilled = true) ∧
    (statics.wellFormed →
      (((self.configure sharedParameters config).1.getPipeline statics).2
          = some PipelineId.outlineFilled ↔
        (self.configure sharedParameters config).1._isFilled = true) ∧
      (((self.configure sharedParameters config).1.getPipeline statics).2
          = some PipelineId.outline ↔
        (self.configure sharedParameters config).1._isFilled = false) ∧
      ((self.configure sharedParameters config).1.getPipeline statics).1.wellFormed) := by
  have hflag : (self.configure sharedParameters config).1._isFilled
      = (decide (config.unoccludedFillOpacity > OPACITY_EPSILON) ||
          decide (config.occludedFillOpacity > OPACITY_EPSILON)) := rfl
  have hiff : (self.configure sharedParameters config).1._isFilled = true ↔
      config.unoccludedFillOpacity > OPACITY_EPSILON ∨
        config.occludedFillOpacity > OPACITY_EPSILON := by
    rw [hflag]
    simp
  refine ⟨rfl, hiff, ?_, ?_, ?_⟩
  · intro hu ho
    cases hf : (self.configure sharedParameters config).1._isFilled with
    | false => rfl
    | true =>
      rcases hiff.mp hf with h | h
      · exact absurd h (not_lt.mpr hu)
      · exact absurd h (not_lt.mpr ho)
  · intro delta hdelta h
    apply hiff.mpr
    rcases h with h | h
    · exact Or.inl (by rw [h]; linarith)
    · exact Or.inr (by rw [h]; linarith)
  · intro hwf
    generalize (self.configure sharedParameters config).1 = job
    rcases hwf with hnull | ⟨hp, hpf⟩
    · cases hf : job._isFilled <;>
        simp [DrawOutline.getPipeline, hnull, hf, DrawOutlineStatics.wellFormed]
    · cases hf : job._isFilled <;>
        simp [DrawOutline.getPipeline, hp, hpf, hf, DrawOutlineStatics.wellFormed]

/-- Witness of C9: both opacities at epsilon give not filled and the plain
pipeline; an occluded opacity of epsilon + 1/1000 gives filled and the filled
pipeline, from the null statics. -/
theorem configure_isFilled_iff_opacity_above_epsilon_witness :
    (sampleJob.configure ⟨[0]⟩
      { sampleConfig with
        unoccludedFillOpacity := 5 / 1000, occludedFillOpacity := 5 / 1000 }).1._isFilled
      = false ∧
    (sampleJob.configure ⟨[0]⟩
      { sampleConfig with occludedFillOpacity := 5 / 1000 + 1 / 1000 }).1._isFilled = true ∧
    (DrawOutlineStatics.wellFormed ⟨none, none⟩ ∧
      (((sampleJob.configure ⟨[0]⟩
          { sampleConfig with occludedFillOpacity := 5 / 1000 + 1 / 1000 }).1.getPipeline
            ⟨none, none⟩).2 = some PipelineId.outlineFilled ↔
        (sampleJob.configure ⟨[0]⟩
          { sampleConfig with occludedFillOpacity := 5 / 1000 + 1 / 1000 }).1._isFilled
          = true)) :=
  ⟨(configure_isFilled_iff_opacity_above_epsilon sampleJob ⟨[0]⟩
      { sampleConfig with unoccludedFillOpacity := 5 / 1000, occludedFillOpacity := 5 / 1000 }
      ⟨none, none⟩).2.2.1 (le_refl _) (le_refl _),
    (configure_isFilled_iff_opacity_above_epsilon sampleJob ⟨[0]⟩
      { sampleConfig with occludedFillOpacity := 5 / 1000 + 1 / 1000 }
      ⟨none, none⟩).2.2.2.1 (1 / 1000) (by norm_num) (Or.inr rfl),
    Or.inl rfl,
    ((configure_isFilled_iff_opacity_above_epsilon sampleJob ⟨[0]⟩
      { sampleConfig with occludedFillOpacity := 5 / 1000 + 1 / 1000 }
      ⟨none, none⟩).2.2.2.2 (Or.inl rfl)).1⟩

/-- Counterexample to C10: the sample job (group 0, stored frame 800 x 600)
configured with width 18 writes 28 into slot 0: 18/400.0f rounds up to
0.045000002 and its product with 600 to 27.000002, while ceil(18/400 * 600) is
27. -/
theorem configure_blur_width_rounded :
    (sampleJob.configure ⟨[7, 9]⟩ { sampleConfig with width := 18 }).2.get 0 = 28 ∧
    ⌈(18 : ℚ) / 400 * ((600 : Int) : ℚ)⌉ = 27 := by
  have hsize : fdiv 18 400 = 3019899 / 67108864 := by
    have h := round32_eval ((18 : ℚ) / 400) (-5) 12079596 (by norm_num) (by norm_num)
      (by norm_num) (roundHalfEven_of_near _ _ (by norm_num [abs_lt]))
    unfold fdiv
    rw [h]
    norm_num
  have hproduct : fmul (3019899 / 67108864) (intToFloat 600) = 14155777 / 524288 := by
    unfold fmul intToFloat
    rw [round32_intCast 600 (by decide) (by decide)]
    have h := round32_eval ((3019899 / 67108864 : ℚ) * ((600 : Int) : ℚ)) 4 14155777
      (by norm_num) (by norm_num) (by norm_num)
      (roundHalfEven_of_near _ _ (by norm_num [abs_lt]))
    rw [h]
    norm_num
  have hwidth : blurPixelWidth (fdiv 18 400) 600 = 28 := by
    unfold blurPixelWidth ceilf
    rw [hsize, hproduct]
    have hceil : ⌈(14155777 / 524288 : ℚ)⌉ = 28 := by
      rw [Int.ceil_eq_iff]
      norm_num
    rw [hceil]
    exact floatToInt_of_fits 28 (by decide) (by decide)
  have hshared : (sampleJob.configure ⟨[7, 9]⟩ { sampleConfig with width := 18 }).2
      = OutlineSharedParameters.set ⟨[7, 9]⟩ 0 (blurPixelWidth (fdiv 18 400) 600) := rfl
  constructor
  · rw [hshared, hwidth]
    rfl
  · rw [Int.ceil_eq_iff]
    norm_num

/-- C10, amended: `DrawOutline::configure` for group i with width W, while the stored
frame size of the job is F, writes (int)ceilf(size * F.height) into slot i of the
shared blur widths, where size = W/400.0f and the product are rounded to binary32,
and leaves every other slot unchanged; a following `DrawOutlineMask::run` of group
i uses that value plus one as its margin; and a `DrawOutline::run` that draws
while the depth texture has a size different from the stored one writes the same
expression for the height of that size into slot i, leaves the other slots
unchanged and stores that size. In both cases, when W/400 and its product with
the height are binary32 values, the height is at most 2^24 in magnitude and the
result fits an `int`, the value written is ceil(W/400 * height). -/
theorem configure_and_run_publish_float_blur_width {Box : Type} (self : DrawOutline)
    (sharedParameters : OutlineSharedParameters) (config : DrawOutlineConfig)
    (hindex : self._outlineIndex < sharedParameters._blurPixelWidths.length) :
    (self.configure sharedParameters config).2.get self._outlineIndex
      = floatToInt (ceilf (fmul (fdiv config.width 400) (intToFloat self._framebufferSize.y))) ∧
    (∀ other, other ≠ self._outlineIndex →
      (self.configure sharedParameters config).2.get other = sharedParameters.get other) ∧
    (self.configure sharedParameters config).2._blurPixelWidths.length
      = sharedParameters._blurPixelWidths.length ∧
    (∀ (mask : DrawOutlineMask) (inShapes : ShapeBounds Box) (ressources : OutlineRessources)
        (viewFrustum : ViewFrustum Box),
      mask._outlineIndex = self._outlineIndex → inShapes ≠ [] →
      (mask.run (self.configure sharedParameters config).2 inShapes ressources viewFrustum).1
        = expandRect (computeOutlineRect inShapes viewFrustum ressources.getSourceFrameSize)
            ((blurPixelWidth (fdiv config.width 400) self._framebufferSize.y) + 1)
            ressources.getSourceFrameSize) ∧
    (∀ (laterParameters : OutlineSharedParameters) (statics : DrawOutlineStatics)
        (ressources : OutlineRessources) (depthFramebuffer colorFramebuffer : Framebuffer)
        (depthTexture : Texture) (sceneDepthBuffer : DeferredFramebuffer) (outlineRect : IVec4),
      self._outlineIndex < laterParameters._blurPixelWidths.length →
      ressources._depthFrameBuffer = some depthFramebuffer →
      depthFramebuffer.depthStencilBuffer = some depthTexture →
      ressources._colorFrameBuffer = some colorFramebuffer →
      0 < outlineRect.z → 0 < outlineRect.w →
      depthTexture.dimensions ≠ self._framebufferSize →
      ∃ result : DrawOutlineResult Box,
        (self.configure sharedParameters config).1.run laterParameters statics (some ressources)
            (some sceneDepthBuffer) outlineRect = some result ∧
        result.sharedParameters.get self._outlineIndex
          = (blurPixelWidth (fdiv config.width 400) depthTexture.dimensions.y) ∧
        (∀ other, other ≠ self._outlineIndex →
          result.sharedParameters.get other = laterParameters.get other) ∧
        result.job._framebufferSize = depthTexture.dimensions ∧
        drawCalls result.commands = [Command.draw 4] ∧
        (isBinary32 (config.width / 400) →
          -16777216 ≤ depthTexture.dimensions.y → depthTexture.dimensions.y ≤ 16777216 →
          isBinary32 (config.width / 400 * (depthTexture.dimensions.y : ℚ)) →
          INT_MIN ≤ ⌈config.width / 400 * (depthTexture.dimensions.y : ℚ)⌉ →
          ⌈config.width / 400 * (depthTexture.dimensions.y : ℚ)⌉ ≤ INT_MAX →
          result.sharedParameters.get self._outlineIndex
            = ⌈config.width / 400 * (depthTexture.dimensions.y : ℚ)⌉)) ∧
    (isBinary32 (config.width / 400) →
      -16777216 ≤ self._framebufferSize.y → self._framebufferSize.y ≤ 16777216 →
      isBinary32 (config.width / 400 * (self._framebufferSize.y : ℚ)) →
      INT_MIN ≤ ⌈config.width / 400 * (self._framebufferSize.y : ℚ)⌉ →
      ⌈config.width / 400 * (self._framebufferSize.y : ℚ)⌉ ≤ INT_MAX →
      (self.configure sharedParameters config).2.get self._outlineIndex
        = ⌈config.width / 400 * (self._framebufferSize.y : ℚ)⌉) := by
  have hexact : ∀ height : Int, isBinary32 (config.width / 400) →
      -16777216 ≤ height → height ≤ 16777216 →
      isBinary32 (config.width / 400 * (height : ℚ)) →
      INT_MIN ≤ ⌈config.width / 400 * (height : ℚ)⌉ →
      ⌈config.width / 400 * (height : ℚ)⌉ ≤ INT_MAX →
      blurPixelWidth (fdiv config.width 400) height
        = ⌈config.width / 400 * (height : ℚ)⌉ := by
    intro height h0 h1 h2 h3 h4 h5
    have e : fdiv config.width 400 = config.width / 400 := by
      unfold fdiv
      exact round32_of_isBinary32 h0
    rw [e]
    exact blurPixelWidth_exact _ height h1 h2 h3 h4 h5
  have hshared : (self.configure sharedParameters config).2
      = sharedParameters.set self._outlineIndex
          (blurPixelWidth (fdiv config.width 400) self._framebufferSize.y) := rfl
  have hslot := OutlineSharedParameters.get_set_self sharedParameters self._outlineIndex
    (blurPixelWidth (fdiv config.width 400) self._framebufferSize.y) hindex
  refine ⟨by rw [hshared, hslot]; rfl, ?_, by rw [hshared, OutlineSharedParameters.length_set],
    ?_, ?_, ?_⟩
  rotate_left 3
  · intro h0 h1 h2 h3 h4 h5
    rw [hshared, hslot]
    exact hexact _ h0 h1 h2 h3 h4 h5
  · intro other hother
    rw [hshared, OutlineSharedParameters.get_set_other _ _ _ _ hother]
  · intro mask inShapes ressources viewFrustum hmask hne
    have hemp : inShapes.isEmpty = false := by
      cases inShapes with
      | nil => exact absurd rfl hne
      | cons a l => rfl
    simp only [DrawOutlineMask.run, hemp, Bool.not_false, if_true, hmask, hshared, hslot]
  · intro laterParameters statics ressources depthFramebuffer colorFramebuffer depthTexture
      sceneDepthBuffer outlineRect hlater hdepth htexture hcolor hz hw hsize
    have hjobsize : (self.configure sharedParameters config).1._framebufferSize
        = self._framebufferSize := rfl
    have hjobindex : (self.configure sharedParameters config).1._outlineIndex
        = self._outlineIndex := rfl
    have hjobwidth : (self.configure sharedParameters config).1._size = fdiv config.width 400 := rfl
    generalize (self.configure sharedParameters config).1 = job at hjobsize hjobindex hjobwidth
    have hne : job._framebufferSize ≠ depthTexture.dimensions := by
      rw [hjobsize]
      exact fun h => hsize h.symm
    obtain ⟨result, hrun, hparams, hstored, -, -, hdraw⟩ :=
      DrawOutline.run_on_resize job laterParameters statics ressources depthFramebuffer
        colorFramebuffer depthTexture sceneDepthBuffer outlineRect hdepth htexture hcolor hz hw hne
    rw [hjobindex, hjobwidth] at hparams
    refine ⟨result, hrun, ?_, ?_, hstored, hdraw, ?_⟩
    · rw [hparams]
      exact OutlineSharedParameters.get_set_self laterParameters self._outlineIndex
        (blurPixelWidth (fdiv config.width 400) depthTexture.dimensions.y) hlater
    rotate_left
    · intro h0 h1 h2 h3 h4 h5
      rw [hparams, OutlineSharedParameters.get_set_self laterParameters self._outlineIndex
        (blurPixelWidth (fdiv config.width 400) depthTexture.dimensions.y) hlater]
      exact hexact _ h0 h1 h2 h3 h4 h5
    · intro other hother
      rw [hparams]
      exact OutlineSharedParameters.get_set_other laterParameters self._outlineIndex other
        (blurPixelWidth (fdiv config.width 400) depthTexture.dimensions.y) hother

/-- Witness of C10, amended: the sample job (group 0, stored frame 800 x 600)
configured with width 2 writes 3 into slot 0 and leaves slot 1 at 9; run on
resources of 1024 x 768 it writes 4 and stores 1024 x 768. Configured with width
25/16, for which nothing is rounded, it writes ceil(25/16/400 * 600) = 3. -/
theorem configure_and_run_publish_float_blur_width_witness :
    sampleJob._outlineIndex < (⟨[7, 9]⟩ : OutlineSharedParameters)._blurPixelWidths.length ∧
    (sampleJob.configure ⟨[7, 9]⟩ sampleConfig).2.get 0 = 3 ∧
    (sampleJob.configure ⟨[7, 9]⟩ sampleConfig).2.get 1 = 9 ∧
    (∃ result : DrawOutlineResult Nat,
      (sampleJob.configure ⟨[7, 9]⟩ sampleConfig).1.run ⟨[3, 9]⟩ ⟨none, none⟩
          (some resizedRessources) (some ⟨none⟩) ⟨0, 0, 10, 10⟩ = some result ∧
      result.sharedParameters.get 0 = 4 ∧
      result.job._framebufferSize = ⟨1024, 768⟩) ∧
    isBinary32 ((25 / 16 : ℚ) / 400) ∧ isBinary32 ((25 / 16 : ℚ) / 400 * ((600 : Int) : ℚ)) ∧
    (sampleJob.configure ⟨[7, 9]⟩ { sampleConfig with width := 25 / 16 }).2.get 0
      = ⌈(25 / 16 : ℚ) / 400 * ((600 : Int) : ℚ)⌉ ∧
    ⌈(25 / 16 : ℚ) / 400 * ((600 : Int) : ℚ)⌉ = 3 := by
  have h := @configure_and_run_publish_float_blur_width Nat sampleJob ⟨[7, 9]⟩ sampleConfig
    (by decide)
  have hb1 : isBinary32 ((25 / 16 : ℚ) / 400) :=
    isBinary32_of_dyadic _ 1 (-8) (by norm_num) (by norm_num) (by norm_num) (by norm_num)
      (by norm_num [FLT_MAX]) (by norm_num [FLT_MAX])
  have hb2 : isBinary32 ((25 / 16 : ℚ) / 400 * ((600 : Int) : ℚ)) :=
    isBinary32_of_dyadic _ 75 (-5) (by norm_num) (by norm_num) (by norm_num) (by norm_num)
      (by norm_num [FLT_MAX]) (by norm_num [FLT_MAX])
  have hceil3 : ⌈(25 / 16 : ℚ) / 400 * ((600 : Int) : ℚ)⌉ = 3 := by
    rw [Int.ceil_eq_iff]
    norm_num
  have hlow : INT_MIN ≤ ⌈(25 / 16 : ℚ) / 400 * ((600 : Int) : ℚ)⌉ := by
    rw [hceil3]
    decide
  have hhigh : ⌈(25 / 16 : ℚ) / 400 * ((600 : Int) : ℚ)⌉ ≤ INT_MAX := by
    rw [hceil3]
    decide
  have hexact := (@configure_and_run_publish_float_blur_width Nat sampleJob ⟨[7, 9]⟩
    { sampleConfig with width := 25 / 16 } (by decide)).2.2.2.2.2 hb1 (by decide) (by decide)
    hb2 hlow hhigh
  have hsize : fdiv sampleConfig.width 400 = 5368709 / 1073741824 := by
    have h := round32_eval ((2 : ℚ) / 400) (-8) 10737418 (by norm_num) (by norm_num)
      (by norm_num) (roundHalfEven_of_near _ _ (by norm_num [abs_lt]))
    show round32 ((2 : ℚ) / 400) = _
    rw [h]
    norm_num
  have h3 : blurPixelWidth (fdiv sampleConfig.width 400) sampleJob._framebufferSize.y = 3 := by
    show floatToInt (ceilf (round32 (fdiv sampleConfig.width 400 * round32 ((600 : Int) : ℚ))))
      = 3
    rw [hsize, round32_intCast 600 (by decide) (by decide)]
    have h := round32_eval ((5368709 / 1073741824 : ℚ) * ((600 : Int) : ℚ)) 1 12582912
      (by norm_num) (by norm_num) (by norm_num)
      (roundHalfEven_of_near _ _ (by norm_num [abs_lt]))
    rw [h]
    have hceil : ceilf (((12582912 : Int) : ℚ) * (2 : ℚ) ^ ((1 : Int) - 23)) = ((3 : Int) : ℚ) := by
      unfold ceilf
      norm_num
    rw [hceil]
    exact floatToInt_of_fits 3 (by decide) (by decide)
  have h4 : blurPixelWidth (fdiv sampleConfig.width 400)
      (⟨6, ⟨1024, 768⟩⟩ : Texture).dimensions.y = 4 := by
    show floatToInt (ceilf (round32 (fdiv sampleConfig.width 400 * round32 ((768 : Int) : ℚ))))
      = 4
    rw [hsize, round32_intCast 768 (by decide) (by decide)]
    have h := round32_value ((5368709 / 1073741824 : ℚ) * ((768 : Int) : ℚ))
      (16106127 / 4194304) 16106127 (-22) (by norm_num) (by norm_num) (by norm_num)
      (by norm_num) (by norm_num)
    rw [h]
    have hceil : ceilf (16106127 / 4194304 : ℚ) = ((4 : Int) : ℚ) := by
      unfold ceilf
      have : ⌈(16106127 / 4194304 : ℚ)⌉ = 4 := by
        rw [Int.ceil_eq_iff]
        norm_num
      rw [this]
    rw [hceil]
    exact floatToInt_of_fits 4 (by decide) (by decide)
  have hrun := h.2.2.2.2.1 ⟨[3, 9]⟩ ⟨none, none⟩ resizedRessources
    ⟨5, .outlineDepth, none, some ⟨6, ⟨1024, 768⟩⟩⟩
    ⟨7, .primaryWithoutDepth, some ⟨8, ⟨1024, 768⟩⟩, none⟩ ⟨6, ⟨1024, 768⟩⟩ ⟨none⟩ ⟨0, 0, 10, 10⟩
    (by decide) rfl rfl rfl (by decide) (by decide) (by decide)
  obtain ⟨result, hr1, hr2, -, hr4, -⟩ := hrun
  have hconf : (sampleJob.configure ⟨[7, 9]⟩ sampleConfig).2
      = OutlineSharedParameters.set ⟨[7, 9]⟩ 0
          (blurPixelWidth (fdiv sampleConfig.width 400) sampleJob._framebufferSize.y) := rfl
  refine ⟨by decide, ?_, (h.2.1 1 (by decide)).trans rfl, ⟨result, hr1, hr2.trans h4, hr4⟩,
    hb1, hb2, hexact, hceil3⟩
  rw [hconf, h3]
  rfl

/-- C11: after any `OutlineRessources::update` the stored frame size is the size of
the primary framebuffer and both buffers are allocated, so the accessors do not
fail; updating with a primary framebuffer of size S1 and then with one of a
different size S2 leaves the stored frame size and the dimensions of the depth
texture equal to S2; and a second update with a primary framebuffer of the same
size creates no object and leaves the resources, with their depth and color
framebuffer objects, exactly as they were. -/
theorem update_converges_without_needless_reallocation (self : OutlineRessources)
    (nextId : Nat) (firstFrameBuffer secondFrameBuffer : Framebuffer) :
    ((self.update nextId firstFrameBuffer).1._frameSize = firstFrameBuffer.getSize ∧
      (self.update nextId firstFrameBuffer).1.getDepthFramebuffer ≠ none ∧
      (self.update nextId firstFrameBuffer).1.getColorFramebuffer ≠ none) ∧
    (firstFrameBuffer.getSize ≠ secondFrameBuffer.getSize →
      (self.updateTwice nextId firstFrameBuffer secondFrameBuffer).1._frameSize
        = secondFrameBuffer.getSize ∧
      (∃ depthFramebuffer depthTexture,
        (self.updateTwice nextId firstFrameBuffer secondFrameBuffer).1.getDepthFramebuffer
          = some depthFramebuffer ∧
        (self.updateTwice nextId firstFrameBuffer secondFrameBuffer).1.getDepthTexture
          = some (some depthTexture) ∧
        depthFramebuffer.depthStencilBuffer = some depthTexture ∧
        depthTexture.dimensions = secondFrameBuffer.getSize) ∧
      (∃ colorFramebuffer,
        (self.updateTwice nextId firstFrameBuffer secondFrameBuffer).1.getColorFramebuffer
          = some colorFramebuffer ∧
        colorFramebuffer.renderBuffer0 = secondFrameBuffer.renderBuffer0)) ∧
    (firstFrameBuffer.getSize = secondFrameBuffer.getSize →
      self.updateTwice nextId firstFrameBuffer secondFrameBuffer
        = self.update nextId firstFrameBuffer ∧
      (self.updateTwice nextId firstFrameBuffer secondFrameBuffer).1._depthFrameBuffer
        = (self.update nextId firstFrameBuffer).1._depthFrameBuffer ∧
      (self.updateTwice nextId firstFrameBuffer secondFrameBuffer).1._colorFrameBuffer
        = (self.update nextId firstFrameBuffer).1._colorFrameBuffer) := by
  obtain ⟨hsize, hdepth, hcolor⟩ :=
    OutlineRessources.update_allocated self nextId firstFrameBuffer
  refine ⟨⟨hsize, ?_, ?_⟩, ?_, ?_⟩
  · intro hnone
    rw [OutlineRessources.getDepthFramebuffer] at hnone
    rw [hnone] at hdepth
    exact absurd hdepth (by simp)
  · intro hnone
    rw [OutlineRessources.getColorFramebuffer] at hnone
    rw [hnone] at hcolor
    exact absurd hcolor (by simp)
  · intro hne
    have hresize := OutlineRessources.update_resized (self.update nextId firstFrameBuffer).1
      (self.update nextId firstFrameBuffer).2 secondFrameBuffer (by rw [hsize]; exact hne)
    have htwice : self.updateTwice nextId firstFrameBuffer secondFrameBuffer
        = (self.update nextId firstFrameBuffer).1.update (self.update nextId firstFrameBuffer).2
            secondFrameBuffer := rfl
    rw [htwice, hresize]
    exact ⟨rfl, ⟨_, _, rfl, rfl, rfl, rfl⟩, ⟨_, rfl, rfl⟩⟩
  · intro heq
    have hsame := OutlineRessources.update_unchanged (self.update nextId firstFrameBuffer).1
      (self.update nextId firstFrameBuffer).2 secondFrameBuffer (by rw [hsize]; exact heq)
      hdepth hcolor
    have htwice : self.updateTwice nextId firstFrameBuffer secondFrameBuffer
        = self.update nextId firstFrameBuffer := by
      show (self.update nextId firstFrameBuffer).1.update (self.update nextId firstFrameBuffer).2
            secondFrameBuffer = _
      rw [hsame]
    rw [htwice]
    exact ⟨rfl, rfl, rfl⟩

/-- Witness of C11: fresh resources updated for 800 x 600 and then for 1024 x 768
end with a 1024 x 768 depth texture; updated for 800 x 600 twice, the second
update changes nothing and creates no object. -/
theorem update_converges_without_needless_reallocation_witness :
    (primaryOfSize 100 ⟨800, 600⟩).getSize ≠ (primaryOfSize 200 ⟨1024, 768⟩).getSize ∧
    (freshRessources.updateTwice 0 (primaryOfSize 100 ⟨800, 600⟩)
      (primaryOfSize 200 ⟨1024, 768⟩)).1._frameSize = ⟨1024, 768⟩ ∧
    (primaryOfSize 100 ⟨800, 600⟩).getSize = (primaryOfSize 300 ⟨800, 600⟩).getSize ∧
    freshRessources.updateTwice 0 (primaryOfSize 100 ⟨800, 600⟩) (primaryOfSize 300 ⟨800, 600⟩)
      = freshRessources.update 0 (primaryOfSize 100 ⟨800, 600⟩) :=
  ⟨by decide,
    ((update_converges_without_needless_reallocation freshRessources 0
      (primaryOfSize 100 ⟨800, 600⟩) (primaryOfSize 200 ⟨1024, 768⟩)).2.1 (by decide)).1,
    rfl,
    ((update_converges_without_needless_reallocation freshRessources 0
      (primaryOfSize 100 ⟨800, 600⟩) (primaryOfSize 300 ⟨800, 600⟩)).2.2 rfl).1⟩

/-- Counterexample to C12, in an 800 x 600 frame. An item with the projected corners
(-2^-30, -2^-30) and (2^-30, 2^-30) gets the rect (400,300,0,0): `+= 1.0f` rounds
both corners to 1, while the clamped floor of the projected min is 399 and the
clamped ceil of the projected max is 401 (299 and 301 for y). An item with the
corners (-3/4, -1/2) and (6000000, 1/2) gets the rect (100,150,-100,300), of
negative width: the product for its max x, 2400000512, is beyond INT_MAX and the
cast yields INT_MIN, which is clamped to 0. -/
theorem computeOutlineRect_rounding_and_cast :
    computeOutlineRect [(⟨false, 0⟩, [(⟨1, 0⟩ : ItemBound Nat)])] roundingFrustum ⟨800, 600⟩
      = ⟨400, 300, 0, 0⟩ ∧
    clamp ⌊((-1 / 1073741824 : ℚ) + 1) * (((800 : Int) : ℚ) * (1 / 2))⌋ 0 800 = 399 ∧
    clamp ⌈((1 / 1073741824 : ℚ) + 1) * (((800 : Int) : ℚ) * (1 / 2))⌉ 0 800 = 401 ∧
    clamp ⌊((-1 / 1073741824 : ℚ) + 1) * (((600 : Int) : ℚ) * (1 / 2))⌋ 0 600 = 299 ∧
    clamp ⌈((1 / 1073741824 : ℚ) + 1) * (((600 : Int) : ℚ) * (1 / 2))⌉ 0 600 = 301 ∧
    computeOutlineRect [(⟨false, 0⟩, [(⟨2, 1⟩ : ItemBound Nat)])] roundingFrustum ⟨800, 600⟩
      = ⟨100, 150, -100, 300⟩ ∧
    (computeOutlineRect [(⟨false, 0⟩, [(⟨2, 1⟩ : ItemBound Nat)])] roundingFrustum
      ⟨800, 600⟩).z < 0 := by
  have hbelow : round32 ((-1 / 1073741824 : ℚ) + 1) = 1 := by
    have h := round32_eval ((-1 / 1073741824 : ℚ) + 1) (-1) 16777216 (by norm_num)
      (by norm_num) (by norm_num) (roundHalfEven_of_near _ _ (by norm_num [abs_lt]))
    rw [h]
    norm_num
  have habove : round32 ((1 / 1073741824 : ℚ) + 1) = 1 := by
    have h := round32_eval ((1 / 1073741824 : ℚ) + 1) 0 8388608 (by norm_num)
      (by norm_num) (by norm_num) (roundHalfEven_of_near _ _ (by norm_num [abs_lt]))
    rw [h]
    norm_num
  have h400 : round32 ((1 : ℚ) * 400) = 400 :=
    round32_value _ _ 400 0 (by norm_num) (by norm_num) (by norm_num) (by norm_num)
      (by norm_num)
  have h300 : round32 ((1 : ℚ) * 300) = 300 :=
    round32_value _ _ 300 0 (by norm_num) (by norm_num) (by norm_num) (by norm_num)
      (by norm_num)
  have hacc0 : accumulateShapes roundingFrustum ⟨FLT_MAX, FLT_MAX, -FLT_MAX, -FLT_MAX⟩
      [(⟨false, 0⟩, [(⟨1, 0⟩ : ItemBound Nat)])]
      = ⟨-1 / 1073741824, -1 / 1073741824, 1 / 1073741824, 1 / 1073741824⟩ := by
    simp [accumulateShapes, accumulateBound, roundingFrustum, FLT_MAX]
    norm_num
  have hacc1 : accumulateShapes roundingFrustum ⟨FLT_MAX, FLT_MAX, -FLT_MAX, -FLT_MAX⟩
      [(⟨false, 0⟩, [(⟨2, 1⟩ : ItemBound Nat)])] = ⟨-3 / 4, -1 / 2, 6000000, 1 / 2⟩ := by
    simp [accumulateShapes, accumulateBound, roundingFrustum, FLT_MAX]
    norm_num
  have a1 : pixelFloor (-1 / 1073741824) 800 = 400 :=
    (pixelFloor_eval _ _ 400 400 (pixelValue_eval _ _ 1 400 400 hbelow half_of_800 h400)
      (by norm_num) (by decide) (by decide)).trans (by decide)
  have a2 : pixelFloor (-1 / 1073741824) 600 = 300 :=
    (pixelFloor_eval _ _ 300 300 (pixelValue_eval _ _ 1 300 300 hbelow half_of_600 h300)
      (by norm_num) (by decide) (by decide)).trans (by decide)
  have a3 : pixelCeil (1 / 1073741824) 800 = 400 :=
    (pixelCeil_eval _ _ 400 400 (pixelValue_eval _ _ 1 400 400 habove half_of_800 h400)
      (by norm_num) (by decide) (by decide)).trans (by decide)
  have a4 : pixelCeil (1 / 1073741824) 600 = 300 :=
    (pixelCeil_eval _ _ 300 300 (pixelValue_eval _ _ 1 300 300 habove half_of_600 h300)
      (by norm_num) (by decide) (by decide)).trans (by decide)
  have b1 : pixelFloor (-3 / 4) 800 = 100 :=
    (pixelFloor_eval _ _ 100 100
      (pixelValue_eval _ _ (1 / 4) 400 100
        (round32_value _ _ 1 (-2) (by norm_num) (by norm_num) (by norm_num) (by norm_num)
          (by norm_num))
        half_of_800
        (round32_value _ _ 100 0 (by norm_num) (by norm_num) (by norm_num) (by norm_num)
          (by norm_num)))
      (by norm_num) (by decide) (by decide)).trans (by decide)
  have b2 : pixelFloor (-1 / 2) 600 = 150 :=
    (pixelFloor_eval _ _ 150 150
      (pixelValue_eval _ _ (1 / 2) 300 150
        (round32_value _ _ 1 (-1) (by norm_num) (by norm_num) (by norm_num) (by norm_num)
          (by norm_num))
        half_of_600
        (round32_value _ _ 150 0 (by norm_num) (by norm_num) (by norm_num) (by norm_num)
          (by norm_num)))
      (by norm_num) (by decide) (by decide)).trans (by decide)
  have hbig : round32 ((6000001 : ℚ) * 400) = 2400000512 := by
    have h := round32_eval ((6000001 : ℚ) * 400) 31 9375002 (by norm_num) (by norm_num)
      (by norm_num) (roundHalfEven_of_near _ _ (by norm_num [abs_lt]))
    rw [h]
    norm_num
  have hv3 : pixelValue 6000000 800 = ((2400000512 : Int) : ℚ) :=
    pixelValue_eval _ _ 6000001 400 _
      (round32_value _ _ 6000001 0 (by norm_num) (by norm_num) (by norm_num) (by norm_num)
        (by norm_num))
      half_of_800 (hbig.trans (by norm_num))
  have b3 : pixelCeil 6000000 800 = 0 := by
    unfold pixelCeil ceilf
    rw [hv3, Int.ceil_intCast, floatToInt_intCast]
    decide
  have b4 : pixelCeil (1 / 2) 600 = 450 :=
    (pixelCeil_eval _ _ 450 450
      (pixelValue_eval _ _ (3 / 2) 300 450
        (round32_value _ _ 3 (-1) (by norm_num) (by norm_num) (by norm_num) (by norm_num)
          (by norm_num))
        half_of_600
        (round32_value _ _ 450 0 (by norm_num) (by norm_num) (by norm_num) (by norm_num)
          (by norm_num)))
      (by norm_num) (by decide) (by decide)).trans (by decide)
  have hrect0 : computeOutlineRect [(⟨false, 0⟩, [(⟨1, 0⟩ : ItemBound Nat)])] roundingFrustum
      ⟨800, 600⟩ = ⟨400, 300, 0, 0⟩ := by
    rw [computeOutlineRect_eq, hacc0]
    simp only
    rw [if_pos (by norm_num [FLT_MAX]), a1, a2, a3, a4]
    decide
  have hrect1 : computeOutlineRect [(⟨false, 0⟩, [(⟨2, 1⟩ : ItemBound Nat)])] roundingFrustum
      ⟨800, 600⟩ = ⟨100, 150, -100, 300⟩ := by
    rw [computeOutlineRect_eq, hacc1]
    simp only
    rw [if_pos (by norm_num [FLT_MAX]), b1, b2, b3, b4]
    decide
  refine ⟨hrect0, ?_, ?_, ?_, ?_, hrect1, by rw [hrect1]; decide⟩
  · have h : ⌊((-1 / 1073741824 : ℚ) + 1) * (((800 : Int) : ℚ) * (1 / 2))⌋ = 399 := by
      rw [Int.floor_eq_iff]
      norm_num
    rw [h]
    decide
  · have h : ⌈((1 / 1073741824 : ℚ) + 1) * (((800 : Int) : ℚ) * (1 / 2))⌉ = 401 := by
      rw [Int.ceil_eq_iff]
      norm_num
    rw [h]
    decide
  · have h : ⌊((-1 / 1073741824 : ℚ) + 1) * (((600 : Int) : ℚ) * (1 / 2))⌋ = 299 := by
      rw [Int.floor_eq_iff]
      norm_num
    rw [h]
    decide
  · have h : ⌈((1 / 1073741824 : ℚ) + 1) * (((600 : Int) : ℚ) * (1 / 2))⌉ = 301 := by
      rw [Int.ceil_eq_iff]
      norm_num
    rw [h]
    decide

/-- The rect of `computeOutlineRect` in terms of the binary32 pixel values the code
computes: frame bounds, non-negative size and coverage when the `int` casts of the
projected maxes are defined, and the clamped floors and ceils at the extreme
projected coordinates. -/
theorem computeOutlineRect_float_extent {Box : Type}
    (viewFrustum : ViewFrustum Box) (shapes : ShapeBounds Box) (W H : Int)
    (hW : 0 ≤ W) (hH : 0 ≤ H)
    (hordered : ∀ bottomLeft topRight, projectsTo viewFrustum shapes bottomLeft topRight →
      bottomLeft.x ≤ topRight.x ∧ bottomLeft.y ≤ topRight.y) :
    (0 ≤ (computeOutlineRect shapes viewFrustum ⟨W, H⟩).x ∧
      (computeOutlineRect shapes viewFrustum ⟨W, H⟩).x ≤ W ∧
      0 ≤ (computeOutlineRect shapes viewFrustum ⟨W, H⟩).y ∧
      (computeOutlineRect shapes viewFrustum ⟨W, H⟩).y ≤ H ∧
      0 ≤ (computeOutlineRect shapes viewFrustum ⟨W, H⟩).x
          + (computeOutlineRect shapes viewFrustum ⟨W, H⟩).z ∧
      (computeOutlineRect shapes viewFrustum ⟨W, H⟩).x
          + (computeOutlineRect shapes viewFrustum ⟨W, H⟩).z ≤ W ∧
      0 ≤ (computeOutlineRect shapes viewFrustum ⟨W, H⟩).y
          + (computeOutlineRect shapes viewFrustum ⟨W, H⟩).w ∧
      (computeOutlineRect shapes viewFrustum ⟨W, H⟩).y
          + (computeOutlineRect shapes viewFrustum ⟨W, H⟩).w ≤ H) ∧
    ((∀ bottomLeft topRight, projectsTo viewFrustum shapes bottomLeft topRight →
        pixelValue topRight.x W ≤ (INT_MAX : ℚ) ∧ pixelValue topRight.y H ≤ (INT_MAX : ℚ)) →
      (computeOutlineRect shapes viewFrustum ⟨W, H⟩).insideFrame ⟨W, H⟩ ∧
      ((∃ bottomLeft topRight, projectsTo viewFrustum shapes bottomLeft topRight ∧
          bottomLeft.x < FLT_MAX) →
        ∀ bottomLeft topRight, projectsTo viewFrustum shapes bottomLeft topRight →
          (computeOutlineRect shapes viewFrustum ⟨W, H⟩).x ≤ pixelFloor bottomLeft.x W ∧
          (computeOutlineRect shapes viewFrustum ⟨W, H⟩).y ≤ pixelFloor bottomLeft.y H ∧
          pixelCeil topRight.x W
            ≤ (computeOutlineRect shapes viewFrustum ⟨W, H⟩).x
              + (computeOutlineRect shapes viewFrustum ⟨W, H⟩).z ∧
          pixelCeil topRight.y H
            ≤ (computeOutlineRect shapes viewFrustum ⟨W, H⟩).y
              + (computeOutlineRect shapes viewFrustum ⟨W, H⟩).w)) ∧
    (∀ minX minY maxX maxY : ℚ,
      IsLeast {v | ∃ bottomLeft topRight,
        projectsTo viewFrustum shapes bottomLeft topRight ∧ bottomLeft.x = v} minX →
      IsLeast {v | ∃ bottomLeft topRight,
        projectsTo viewFrustum shapes bottomLeft topRight ∧ bottomLeft.y = v} minY →
      IsGreatest {v | ∃ bottomLeft topRight,
        projectsTo viewFrustum shapes bottomLeft topRight ∧ topRight.x = v} maxX →
      IsGreatest {v | ∃ bottomLeft topRight,
        projectsTo viewFrustum shapes bottomLeft topRight ∧ topRight.y = v} maxY →
      minX < FLT_MAX → minY ≤ FLT_MAX → -FLT_MAX ≤ maxX → -FLT_MAX ≤ maxY →
      (computeOutlineRect shapes viewFrustum ⟨W, H⟩).x = pixelFloor minX W ∧
      (computeOutlineRect shapes viewFrustum ⟨W, H⟩).y = pixelFloor minY H ∧
      (computeOutlineRect shapes viewFrustum ⟨W, H⟩).x
          + (computeOutlineRect shapes viewFrustum ⟨W, H⟩).z = pixelCeil maxX W ∧
      (computeOutlineRect shapes viewFrustum ⟨W, H⟩).y
          + (computeOutlineRect shapes viewFrustum ⟨W, H⟩).w = pixelCeil maxY H) := by
  obtain ⟨⟨hle, -, -, -⟩, hbound, hax, hay, haz, haw⟩ :=
    accumulateShapes_accumulates viewFrustum shapes ⟨FLT_MAX, FLT_MAX, -FLT_MAX, -FLT_MAX⟩
  have hrect := computeOutlineRect_eq shapes viewFrustum ⟨W, H⟩
  generalize accumulateShapes viewFrustum ⟨FLT_MAX, FLT_MAX, -FLT_MAX, -FLT_MAX⟩ shapes = a
    at hle hbound hax hay haz haw hrect
  simp only at hle hax hay haz haw hrect
  by_cases hs : a.x = FLT_MAX
  · -- the accumulator still holds its start value: the else branch
    rw [if_neg (not_not.mpr hs)] at hrect
    rw [hrect]
    refine ⟨⟨le_refl _, hW, le_refl _, hH, le_refl _, by simpa using hW, le_refl _,
      by simpa using hH⟩, fun _ => ⟨⟨le_refl _, le_refl _, le_refl _, le_refl _,
        by simpa using hW, by simpa using hH⟩, ?_⟩, ?_⟩
    · rintro ⟨bl, tr, hp, hlt⟩
      have := (hbound bl tr hp).1
      rw [hs] at this
      exact absurd hlt (not_lt.mpr this)
    · intro minX minY maxX maxY hminX _ _ _ hlt
      obtain ⟨bl, tr, hp, hx⟩ := hminX.1
      have := (hbound bl tr hp).1
      rw [hs, hx] at this
      exact absurd hlt (not_lt.mpr this)
  · rw [if_pos hs] at hrect
    rw [hrect]
    obtain ⟨bl0, tr0, hp0, hx0⟩ : ∃ bl tr, projectsTo viewFrustum shapes bl tr ∧ a.x = bl.x := by
      rcases hax with h | h
      · exact absurd h hs
      · exact h
    have hxz : a.x ≤ a.z := by
      rw [hx0]
      exact le_trans (hordered bl0 tr0 hp0).1 (hbound bl0 tr0 hp0).2.2.1
    have hyw : a.y ≤ a.w :=
      le_trans (hbound bl0 tr0 hp0).2.1
        (le_trans (hordered bl0 tr0 hp0).2 (hbound bl0 tr0 hp0).2.2.2)
    have hfx := pixelFloor_bounds a.x W hW
    have hfy := pixelFloor_bounds a.y H hH
    have hcz := pixelCeil_bounds a.z W hW
    have hcw := pixelCeil_bounds a.w H hH
    refine ⟨⟨hfx.1, hfx.2, hfy.1, hfy.2, ?_, ?_, ?_, ?_⟩, ?_, ?_⟩
    · show 0 ≤ pixelFloor a.x W + (pixelCeil a.z W - pixelFloor a.x W)
      omega
    · show pixelFloor a.x W + (pixelCeil a.z W - pixelFloor a.x W) ≤ W
      omega
    · show 0 ≤ pixelFloor a.y H + (pixelCeil a.w H - pixelFloor a.y H)
      omega
    · show pixelFloor a.y H + (pixelCeil a.w H - pixelFloor a.y H) ≤ H
      omega
    · intro hfits
      have hzfits : pixelValue a.z W ≤ (INT_MAX : ℚ) := by
        rcases haz with h | ⟨bl, tr, hp, h⟩
        · rw [h]
          exact le_trans (pixelValue_nonpos (by norm_num [FLT_MAX]) W hW)
            (by norm_num [INT_MAX])
        · rw [h]
          exact (hfits bl tr hp).1
      have hwfits : pixelValue a.w H ≤ (INT_MAX : ℚ) := by
        rcases haw with h | ⟨bl, tr, hp, h⟩
        · rw [h]
          exact le_trans (pixelValue_nonpos (by norm_num [FLT_MAX]) H hH)
            (by norm_num [INT_MAX])
        · rw [h]
          exact (hfits bl tr hp).2
      have hxz' := pixelFloor_le_pixelCeil hxz W hW hzfits
      have hyw' := pixelFloor_le_pixelCeil hyw H hH hwfits
      refine ⟨⟨hfx.1, hfy.1, ?_, ?_, ?_, ?_⟩, ?_⟩
      · show 0 ≤ pixelCeil a.z W - pixelFloor a.x W
        omega
      · show 0 ≤ pixelCeil a.w H - pixelFloor a.y H
        omega
      · show pixelFloor a.x W + (pixelCeil a.z W - pixelFloor a.x W) ≤ W
        omega
      · show pixelFloor a.y H + (pixelCeil a.w H - pixelFloor a.y H) ≤ H
        omega
      · intro _ bl tr hp
        obtain ⟨b1, b2, b3, b4⟩ := hbound bl tr hp
        obtain ⟨o1, o2⟩ := hordered bl tr hp
        obtain ⟨f1, f2⟩ := hfits bl tr hp
        refine ⟨pixelFloor_mono b1 W hW (le_trans (pixelValue_mono o1 W hW) f1),
          pixelFloor_mono b2 H hH (le_trans (pixelValue_mono o2 H hH) f2), ?_, ?_⟩
        · show pixelCeil tr.x W ≤ pixelFloor a.x W + (pixelCeil a.z W - pixelFloor a.x W)
          have := pixelCeil_mono b3 W hW hzfits
          omega
        · show pixelCeil tr.y H ≤ pixelFloor a.y H + (pixelCeil a.w H - pixelFloor a.y H)
          have := pixelCeil_mono b4 H hH hwfits
          omega
    · intro minX minY maxX maxY hminX hminY hmaxX hmaxY _ hminYle hmaxXge hmaxYge
      have ex : a.x = minX := by
        obtain ⟨bl, tr, hp, hv⟩ := hminX.1
        exact le_antisymm (by rw [← hv]; exact (hbound bl tr hp).1)
          (hminX.2 ⟨bl0, tr0, hp0, hx0.symm⟩)
      have ey : a.y = minY := by
        obtain ⟨bl, tr, hp, hv⟩ := hminY.1
        have hle : a.y ≤ minY := by rw [← hv]; exact (hbound bl tr hp).2.1
        rcases hay with h | ⟨bl', tr', hp', h⟩
        · exact le_antisymm hle (by rw [h]; exact hminYle)
        · exact le_antisymm hle (hminY.2 ⟨bl', tr', hp', h.symm⟩)
      have ez : a.z = maxX := by
        obtain ⟨bl, tr, hp, hv⟩ := hmaxX.1
        have hge : maxX ≤ a.z := by rw [← hv]; exact (hbound bl tr hp).2.2.1
        rcases haz with h | ⟨bl', tr', hp', h⟩
        · exact le_antisymm (by rw [h]; exact hmaxXge) hge
        · exact le_antisymm (hmaxX.2 ⟨bl', tr', hp', h.symm⟩) hge
      have ew : a.w = maxY := by
        obtain ⟨bl, tr, hp, hv⟩ := hmaxY.1
        have hge : maxY ≤ a.w := by rw [← hv]; exact (hbound bl tr hp).2.2.2
        rcases haw with h | ⟨bl', tr', hp', h⟩
        · exact le_antisymm (by rw [h]; exact hmaxYge) hge
        · exact le_antisymm (hmaxY.2 ⟨bl', tr', hp', h.symm⟩) hge
      rw [← ex, ← ey, ← ez, ← ew]
      refine ⟨rfl, rfl, ?_, ?_⟩
      · show pixelFloor a.x W + (pixelCeil a.z W - pixelFloor a.x W) = pixelCeil a.z W
        omega
      · show pixelFloor a.y H + (pixelCeil a.w H - pixelFloor a.y H) = pixelCeil a.w H
        omega

/-- C12, amended: for every frame size (W,H) with W,H >= 0 and every item set in
which each projected bound has bottomLeft <= topRight componentwise, the rect
(x,y,w,h) of `computeOutlineRect` has 0 <= x <= W, 0 <= y <= H, 0 <= x+w <= W and
0 <= y+h <= H. When moreover the binary32 pixel value (max + 1) * size/2 of every
projected max is at most INT_MAX, so that its `int` cast is defined, then w >= 0
and h >= 0, and, if some projecting item has bottomLeft.x below FLT_MAX, the rect
covers the pixel extent of every projecting item as the code computes it (binary32
pixel values, floor for min, ceil for max, clamped to the frame). With the
projected coordinates within the float range and the smallest projected min x
below FLT_MAX, x and y are those clamped floors of the smallest projected mins
and x+w and y+h those clamped ceils of the largest projected maxes; and when the
pixel values of these four extreme coordinates are computed without rounding
(W,H <= 2^24, coordinate + 1 and its product with size/2 binary32 values, at most
INT_MAX), x is the clamped floor of the smallest projected min, x+w the clamped
ceil of the largest projected max, same for y. -/
theorem computeOutlineRect_clamped_and_covering_in_float {Box : Type}
    (viewFrustum : ViewFrustum Box) (shapes : ShapeBounds Box) (W H : Int)
    (hW : 0 ≤ W) (hH : 0 ≤ H)
    (hordered : ∀ bottomLeft topRight, projectsTo viewFrustum shapes bottomLeft topRight →
      bottomLeft.x ≤ topRight.x ∧ bottomLeft.y ≤ topRight.y) :
    (0 ≤ (computeOutlineRect shapes viewFrustum ⟨W, H⟩).x ∧
      (computeOutlineRect shapes viewFrustum ⟨W, H⟩).x ≤ W ∧
      0 ≤ (computeOutlineRect shapes viewFrustum ⟨W, H⟩).y ∧
      (computeOutlineRect shapes viewFrustum ⟨W, H⟩).y ≤ H ∧
      0 ≤ (computeOutlineRect shapes viewFrustum ⟨W, H⟩).x
          + (computeOutlineRect shapes viewFrustum ⟨W, H⟩).z ∧
      (computeOutlineRect shapes viewFrustum ⟨W, H⟩).x
          + (computeOutlineRect shapes viewFrustum ⟨W, H⟩).z ≤ W ∧
      0 ≤ (computeOutlineRect shapes viewFrustum ⟨W, H⟩).y
          + (computeOutlineRect shapes viewFrustum ⟨W, H⟩).w ∧
      (computeOutlineRect shapes viewFrustum ⟨W, H⟩).y
          + (computeOutlineRect shapes viewFrustum ⟨W, H⟩).w ≤ H) ∧
    ((∀ bottomLeft topRight, projectsTo viewFrustum shapes bottomLeft topRight →
        pixelValue topRight.x W ≤ (INT_MAX : ℚ) ∧ pixelValue topRight.y H ≤ (INT_MAX : ℚ)) →
      (computeOutlineRect shapes viewFrustum ⟨W, H⟩).insideFrame ⟨W, H⟩ ∧
      ((∃ bottomLeft topRight, projectsTo viewFrustum shapes bottomLeft topRight ∧
          bottomLeft.x < FLT_MAX) →
        ∀ bottomLeft topRight, projectsTo viewFrustum shapes bottomLeft topRight →
          (computeOutlineRect shapes viewFrustum ⟨W, H⟩).x ≤ pixelFloor bottomLeft.x W ∧
          (computeOutlineRect shapes viewFrustum ⟨W, H⟩).y ≤ pixelFloor bottomLeft.y H ∧
          pixelCeil topRight.x W
            ≤ (computeOutlineRect shapes viewFrustum ⟨W, H⟩).x
              + (computeOutlineRect shapes viewFrustum ⟨W, H⟩).z ∧
          pixelCeil topRight.y H
            ≤ (computeOutlineRect shapes viewFrustum ⟨W, H⟩).y
              + (computeOutlineRect shapes viewFrustum ⟨W, H⟩).w)) ∧
    (∀ minX minY maxX maxY : ℚ,
      IsLeast {v | ∃ bottomLeft topRight,
        projectsTo viewFrustum shapes bottomLeft topRight ∧ bottomLeft.x = v} minX →
      IsLeast {v | ∃ bottomLeft topRight,
        projectsTo viewFrustum shapes bottomLeft topRight ∧ bottomLeft.y = v} minY →
      IsGreatest {v | ∃ bottomLeft topRight,
        projectsTo viewFrustum shapes bottomLeft topRight ∧ topRight.x = v} maxX →
      IsGreatest {v | ∃ bottomLeft topRight,
        projectsTo viewFrustum shapes bottomLeft topRight ∧ topRight.y = v} maxY →
      minX < FLT_MAX → minY ≤ FLT_MAX → -FLT_MAX ≤ maxX → -FLT_MAX ≤ maxY →
      (computeOutlineRect shapes viewFrustum ⟨W, H⟩).x = pixelFloor minX W ∧
      (computeOutlineRect shapes viewFrustum ⟨W, H⟩).y = pixelFloor minY H ∧
      (computeOutlineRect shapes viewFrustum ⟨W, H⟩).x
          + (computeOutlineRect shapes viewFrustum ⟨W, H⟩).z = pixelCeil maxX W ∧
      (computeOutlineRect shapes viewFrustum ⟨W, H⟩).y
          + (computeOutlineRect shapes viewFrustum ⟨W, H⟩).w = pixelCeil maxY H) ∧
    (∀ minX minY maxX maxY : ℚ,
      IsLeast {v | ∃ bottomLeft topRight,
        projectsTo viewFrustum shapes bottomLeft topRight ∧ bottomLeft.x = v} minX →
      IsLeast {v | ∃ bottomLeft topRight,
        projectsTo viewFrustum shapes bottomLeft topRight ∧ bottomLeft.y = v} minY →
      IsGreatest {v | ∃ bottomLeft topRight,
        projectsTo viewFrustum shapes bottomLeft topRight ∧ topRight.x = v} maxX →
      IsGreatest {v | ∃ bottomLeft topRight,
        projectsTo viewFrustum shapes bottomLeft topRight ∧ topRight.y = v} maxY →
      minX < FLT_MAX → minY ≤ FLT_MAX → -FLT_MAX ≤ maxX → -FLT_MAX ≤ maxY →
      pixelExact minX W → pixelExact minY H → pixelExact maxX W → pixelExact maxY H →
      (computeOutlineRect shapes viewFrustum ⟨W, H⟩).x
        = clamp ⌊(minX + 1) * ((W : ℚ) * (1 / 2))⌋ 0 W ∧
      (computeOutlineRect shapes viewFrustum ⟨W, H⟩).y
        = clamp ⌊(minY + 1) * ((H : ℚ) * (1 / 2))⌋ 0 H ∧
      (computeOutlineRect shapes viewFrustum ⟨W, H⟩).x
          + (computeOutlineRect shapes viewFrustum ⟨W, H⟩).z
        = clamp ⌈(maxX + 1) * ((W : ℚ) * (1 / 2))⌉ 0 W ∧
      (computeOutlineRect shapes viewFrustum ⟨W, H⟩).y
          + (computeOutlineRect shapes viewFrustum ⟨W, H⟩).w
        = clamp ⌈(maxY + 1) * ((H : ℚ) * (1 / 2))⌉ 0 H) := by
  obtain ⟨hA, hB, hC⟩ :=
    computeOutlineRect_float_extent viewFrustum shapes W H hW hH hordered
  refine ⟨hA, hB, hC, ?_⟩
  intro minX minY maxX maxY h1 h2 h3 h4 h5 h6 h7 h8 e1 e2 e3 e4
  obtain ⟨c1, c2, c3, c4⟩ := hC minX minY maxX maxY h1 h2 h3 h4 h5 h6 h7 h8
  exact ⟨c1.trans (pixelFloor_exact minX W hW e1), c2.trans (pixelFloor_exact minY H hH e2),
    c3.trans (pixelCeil_exact maxX W hW e3), c4.trans (pixelCeil_exact maxY H hH e4)⟩

/-- Witness of C12, amended: the sample group in an 800 x 600 frame; its one
projecting item has the corners (-3/4, -85/128) and (-5/8, -1/2), the pixel values
of its max are 150 and 150 and none of the four pixel values is rounded; the rect
lies inside the frame with x, y, x+w, y+h the clamped floors and ceils computed
for those coordinates, which are the exact ones. -/
theorem computeOutlineRect_clamped_and_covering_in_float_witness :
    (∀ bottomLeft topRight, projectsTo sampleFrustum sampleShapes bottomLeft topRight →
      bottomLeft.x ≤ topRight.x ∧ bottomLeft.y ≤ topRight.y) ∧
    (∀ bottomLeft topRight, projectsTo sampleFrustum sampleShapes bottomLeft topRight →
      pixelValue topRight.x 800 ≤ (INT_MAX : ℚ) ∧ pixelValue topRight.y 600 ≤ (INT_MAX : ℚ)) ∧
    (computeOutlineRect sampleShapes sampleFrustum ⟨800, 600⟩).insideFrame ⟨800, 600⟩ ∧
    ((computeOutlineRect sampleShapes sampleFrustum ⟨800, 600⟩).x = pixelFloor (-3 / 4) 800 ∧
      (computeOutlineRect sampleShapes sampleFrustum ⟨800, 600⟩).y
        = pixelFloor (-85 / 128) 600 ∧
      (computeOutlineRect sampleShapes sampleFrustum ⟨800, 600⟩).x
          + (computeOutlineRect sampleShapes sampleFrustum ⟨800, 600⟩).z
        = pixelCeil (-5 / 8) 800 ∧
      (computeOutlineRect sampleShapes sampleFrustum ⟨800, 600⟩).y
          + (computeOutlineRect sampleShapes sampleFrustum ⟨800, 600⟩).w
        = pixelCeil (-1 / 2) 600) ∧
    pixelExact (-3 / 4) 800 ∧ pixelExact (-85 / 128) 600 ∧
    pixelExact (-5 / 8) 800 ∧ pixelExact (-1 / 2) 600 ∧
    ((computeOutlineRect sampleShapes sampleFrustum ⟨800, 600⟩).x
        = clamp ⌊((-3 / 4 : ℚ) + 1) * (((800 : Int) : ℚ) * (1 / 2))⌋ 0 800 ∧
      (computeOutlineRect sampleShapes sampleFrustum ⟨800, 600⟩).y
        = clamp ⌊((-85 / 128 : ℚ) + 1) * (((600 : Int) : ℚ) * (1 / 2))⌋ 0 600 ∧
      (computeOutlineRect sampleShapes sampleFrustum ⟨800, 600⟩).x
          + (computeOutlineRect sampleShapes sampleFrustum ⟨800, 600⟩).z
        = clamp ⌈((-5 / 8 : ℚ) + 1) * (((800 : Int) : ℚ) * (1 / 2))⌉ 0 800 ∧
      (computeOutlineRect sampleShapes sampleFrustum ⟨800, 600⟩).y
          + (computeOutlineRect sampleShapes sampleFrustum ⟨800, 600⟩).w
        = clamp ⌈((-1 / 2 : ℚ) + 1) * (((600 : Int) : ℚ) * (1 / 2))⌉ 0 600) := by
  have hiff : ∀ bl tr, projectsTo sampleFrustum sampleShapes bl tr ↔
      (⟨-3 / 4, -85 / 128⟩ : Vec2) = bl ∧ (⟨-5 / 8, -1 / 2⟩ : Vec2) = tr := by
    intro bl tr
    simp [projectsTo, sampleShapes, sampleFrustum]
  have hordered : ∀ bl tr, projectsTo sampleFrustum sampleShapes bl tr →
      bl.x ≤ tr.x ∧ bl.y ≤ tr.y := by
    intro bl tr h
    obtain ⟨hbl, htr⟩ := (hiff bl tr).mp h
    subst hbl
    subst htr
    constructor <;> norm_num
  have hvx : pixelValue (-5 / 8) 800 = 150 :=
    pixelValue_eval _ _ (3 / 8) 400 150
      (round32_value _ _ 3 (-3) (by norm_num) (by norm_num) (by norm_num) (by norm_num)
        (by norm_num))
      half_of_800
      (round32_value _ _ 150 0 (by norm_num) (by norm_num) (by norm_num) (by norm_num)
        (by norm_num))
  have hvy : pixelValue (-1 / 2) 600 = 150 :=
    pixelValue_eval _ _ (1 / 2) 300 150
      (round32_value _ _ 1 (-1) (by norm_num) (by norm_num) (by norm_num) (by norm_num)
        (by norm_num))
      half_of_600
      (round32_value _ _ 150 0 (by norm_num) (by norm_num) (by norm_num) (by norm_num)
        (by norm_num))
  have hfits : ∀ bl tr, projectsTo sampleFrustum sampleShapes bl tr →
      pixelValue tr.x 800 ≤ (INT_MAX : ℚ) ∧ pixelValue tr.y 600 ≤ (INT_MAX : ℚ) := by
    intro bl tr h
    obtain ⟨-, htr⟩ := (hiff bl tr).mp h
    subst htr
    simp only [hvx, hvy, INT_MAX]
    constructor <;> norm_num
  have hp : projectsTo sampleFrustum sampleShapes ⟨-3 / 4, -85 / 128⟩ ⟨-5 / 8, -1 / 2⟩ :=
    (hiff _ _).mpr ⟨rfl, rfl⟩
  have hminX : IsLeast {v | ∃ bottomLeft topRight,
      projectsTo sampleFrustum sampleShapes bottomLeft topRight ∧ bottomLeft.x = v} (-3 / 4) :=
    ⟨⟨_, _, hp, rfl⟩, fun v hv => by
      obtain ⟨bl, tr, hq, hv⟩ := hv
      obtain ⟨hbl, -⟩ := (hiff bl tr).mp hq
      subst hbl
      exact le_of_eq hv⟩
  have hminY : IsLeast {v | ∃ bottomLeft topRight,
      projectsTo sampleFrustum sampleShapes bottomLeft topRight ∧ bottomLeft.y = v}
      (-85 / 128) :=
    ⟨⟨_, _, hp, rfl⟩, fun v hv => by
      obtain ⟨bl, tr, hq, hv⟩ := hv
      obtain ⟨hbl, -⟩ := (hiff bl tr).mp hq
      subst hbl
      exact le_of_eq hv⟩
  have hmaxX : IsGreatest {v | ∃ bottomLeft topRight,
      projectsTo sampleFrustum sampleShapes bottomLeft topRight ∧ topRight.x = v} (-5 / 8) :=
    ⟨⟨_, _, hp, rfl⟩, fun v hv => by
      obtain ⟨bl, tr, hq, hv⟩ := hv
      obtain ⟨-, htr⟩ := (hiff bl tr).mp hq
      subst htr
      exact le_of_eq hv.symm⟩
  have hmaxY : IsGreatest {v | ∃ bottomLeft topRight,
      projectsTo sampleFrustum sampleShapes bottomLeft topRight ∧ topRight.y = v} (-1 / 2) :=
    ⟨⟨_, _, hp, rfl⟩, fun v hv => by
      obtain ⟨bl, tr, hq, hv⟩ := hv
      obtain ⟨-, htr⟩ := (hiff bl tr).mp hq
      subst htr
      exact le_of_eq hv.symm⟩
  have e1 : pixelExact (-3 / 4) 800 :=
    ⟨by decide,
      isBinary32_of_dyadic _ 1 (-2) (by norm_num) (by norm_num) (by norm_num) (by norm_num)
        (by norm_num [FLT_MAX]) (by norm_num [FLT_MAX]),
      isBinary32_of_dyadic _ 100 0 (by norm_num) (by norm_num) (by norm_num) (by norm_num)
        (by norm_num [FLT_MAX]) (by norm_num [FLT_MAX]),
      by norm_num [INT_MAX]⟩
  have e2 : pixelExact (-85 / 128) 600 :=
    ⟨by decide,
      isBinary32_of_dyadic _ 43 (-7) (by norm_num) (by norm_num) (by norm_num) (by norm_num)
        (by norm_num [FLT_MAX]) (by norm_num [FLT_MAX]),
      isBinary32_of_dyadic _ 3225 (-5) (by norm_num) (by norm_num) (by norm_num) (by norm_num)
        (by norm_num [FLT_MAX]) (by norm_num [FLT_MAX]),
      by norm_num [INT_MAX]⟩
  have e3 : pixelExact (-5 / 8) 800 :=
    ⟨by decide,
      isBinary32_of_dyadic _ 3 (-3) (by norm_num) (by norm_num) (by norm_num) (by norm_num)
        (by norm_num [FLT_MAX]) (by norm_num [FLT_MAX]),
      isBinary32_of_dyadic _ 150 0 (by norm_num) (by norm_num) (by norm_num) (by norm_num)
        (by norm_num [FLT_MAX]) (by norm_num [FLT_MAX]),
      by norm_num [INT_MAX]⟩
  have e4 : pixelExact (-1 / 2) 600 :=
    ⟨by decide,
      isBinary32_of_dyadic _ 1 (-1) (by norm_num) (by norm_num) (by norm_num) (by norm_num)
        (by norm_num [FLT_MAX]) (by norm_num [FLT_MAX]),
      isBinary32_of_dyadic _ 150 0 (by norm_num) (by norm_num) (by norm_num) (by norm_num)
        (by norm_num [FLT_MAX]) (by norm_num [FLT_MAX]),
      by norm_num [INT_MAX]⟩
  have h := computeOutlineRect_clamped_and_covering_in_float sampleFrustum sampleShapes 800 600
    (by decide) (by decide) hordered
  exact ⟨hordered, hfits, (h.2.1 hfits).1,
    h.2.2.1 (-3 / 4) (-85 / 128) (-5 / 8) (-1 / 2) hminX hminY hmaxX hmaxY
      (by norm_num [FLT_MAX]) (by norm_num [FLT_MAX]) (by norm_num [FLT_MAX])
      (by norm_num [FLT_MAX]),
    e1, e2, e3, e4,
    h.2.2.2 (-3 / 4) (-85 / 128) (-5 / 8) (-1 / 2) hminX hminY hmaxX hmaxY
      (by norm_num [FLT_MAX]) (by norm_num [FLT_MAX]) (by norm_num [FLT_MAX])
      (by norm_num [FLT_MAX]) e1 e2 e3 e4⟩

end OutlineEffect
